import Mathlib

/-
Verification of the core invalidation-client library ("Ticl"): a shallow
embedding in Lean 4 of the orchestrator (invalidation-client-impl.cc), the
smearing helpers (SmearDelay, Smearer), the operation scheduler and the
multi-window rate-limiting throttle, together with proofs of the central
properties: sequence-number writeback recovery, writeback-in-flight gating,
periodic-tick emission conditions, outbound ack draining, invalidation
dispatch, operation-scheduler coalescing, smear bounds, entry-point thread
assertions, and inbound-message classification / frame effects.

Machine integers (int64) are modelled as Int, C++ doubles as Rat (exact
idealized arithmetic), durations as integer counts of the unit used at the
corresponding call site (microseconds for SmearDelay, milliseconds for
Smearer and the Throttle).  Components whose implementation files are absent
from the repository snapshot (session manager, registration-update manager,
network manager, throttle.cc) are modelled from the specification; each such
definition carries a doc comment beginning with "Modelled from the spec:".
-/

namespace Ticl

/-- Truncation of a rational toward zero, the semantics of C++
`static_cast<int64>` applied to a double. -/
def truncToInt (x : ℚ) : ℤ :=
  if 0 ≤ x then ⌊x⌋ else ⌈x⌉

/-- InvalidationClientImpl::SmearDelay (invalidation-client-impl.cc:433-443).
`base_delay_us` is the delay in microseconds (TimeDelta::InMicroseconds);
`rand_double` is the value returned by Random::RandDouble, in [0, 1].
Computes `applied_smear = smear_factor * (2*r - 1)` and returns
`int64(base_delay * (applied_smear + 1.0))` microseconds. -/
def SmearDelay (base_delay_us : ℤ) (smear_factor : ℚ) (rand_double : ℚ) : ℤ :=
  let applied_smear := smear_factor * (2 * rand_double - 1)
  truncToInt ((base_delay_us : ℚ) * (applied_smear + 1))

namespace Smearer

/-- Smearer::kDefaultSmearPercent (smearer.h:62). -/
def kDefaultSmearPercent : ℤ := 20

/-- The smear fraction installed by the default Smearer constructor
(smearer.h:37-38): `kDefaultSmearPercent / 100.0`. -/
def defaultSmearFraction : ℚ := (kDefaultSmearPercent : ℚ) / 100

/-- Smearer::GetSmearedDelay (smearer.h:52-58).  `delay_ms` is the delay in
milliseconds (TimeDelta::InMilliseconds); computes
`smear_factor = (2*r - 1) * smear_fraction` and returns
`FromMilliseconds(delay * (1.0 + smear_factor))`, where the conversion to
int64 milliseconds truncates. -/
def GetSmearedDelay (delay_ms : ℤ) (smear_fraction : ℚ) (rand_double : ℚ) : ℤ :=
  let smear_factor := (2 * rand_double - 1) * smear_fraction
  truncToInt ((delay_ms : ℚ) * (1 + smear_factor))

end Smearer

lemma truncToInt_of_nonneg {x : ℚ} (h : 0 ≤ x) : truncToInt x = ⌊x⌋ := by
  simp [truncToInt, h]

lemma smear_sample_nonneg {d : ℤ} {f r : ℚ} (hd : 0 ≤ d) (hf0 : 0 ≤ f)
    (hf1 : f ≤ 1) (hr0 : 0 ≤ r) (hr1 : r ≤ 1) :
    0 ≤ (d : ℚ) * (f * (2 * r - 1) + 1) := by
  have h1 : -1 ≤ 2 * r - 1 := by linarith
  have h2 : 2 * r - 1 ≤ 1 := by linarith
  have hlow : -f ≤ f * (2 * r - 1) := by nlinarith
  have : 0 ≤ f * (2 * r - 1) + 1 := by nlinarith
  have hdq : (0 : ℚ) ≤ (d : ℚ) := by exact_mod_cast hd
  nlinarith

lemma smear_sample_bounds {d : ℤ} {f r : ℚ} (hd : 0 ≤ d) (hf0 : 0 ≤ f)
    (hf1 : f ≤ 1) (hr0 : 0 ≤ r) (hr1 : r ≤ 1) :
    (d : ℚ) * (1 - f) ≤ (d : ℚ) * (f * (2 * r - 1) + 1) ∧
      (d : ℚ) * (f * (2 * r - 1) + 1) ≤ (d : ℚ) * (1 + f) := by
  have hdq : (0 : ℚ) ≤ (d : ℚ) := by exact_mod_cast hd
  constructor
  · nlinarith [mul_nonneg (mul_nonneg hdq hf0) hr0]
  · nlinarith [mul_nonneg (mul_nonneg hdq hf0) (by linarith : (0:ℚ) ≤ 1 - r)]

lemma SmearDelay_eq_floor {d : ℤ} {f r : ℚ} (hd : 0 ≤ d) (hf0 : 0 ≤ f)
    (hf1 : f ≤ 1) (hr0 : 0 ≤ r) (hr1 : r ≤ 1) :
    SmearDelay d f r = ⌊(d : ℚ) * (f * (2 * r - 1) + 1)⌋ := by
  unfold SmearDelay
  exact truncToInt_of_nonneg (smear_sample_nonneg hd hf0 hf1 hr0 hr1)

lemma GetSmearedDelay_eq_floor {d : ℤ} {f r : ℚ} (hd : 0 ≤ d) (hf0 : 0 ≤ f)
    (hf1 : f ≤ 1) (hr0 : 0 ≤ r) (hr1 : r ≤ 1) :
    Smearer.GetSmearedDelay d f r = ⌊(d : ℚ) * (f * (2 * r - 1) + 1)⌋ := by
  show truncToInt ((d : ℚ) * (1 + (2 * r - 1) * f)) = _
  have harg : (d : ℚ) * (1 + (2 * r - 1) * f) = (d : ℚ) * (f * (2 * r - 1) + 1) := by
    ring
  rw [harg]
  exact truncToInt_of_nonneg (smear_sample_nonneg hd hf0 hf1 hr0 hr1)

/-- C8 counterexample: the claim asserts the returned delay always lies in the
closed interval [d·(1−f), d·(1+f)].  At nominal delay d = 3 microseconds,
smear factor f = 1/2 and random value r = 0, the real-valued sample is
3·(1/2) = 1.5, which the cast to int64 truncates to 1 — strictly below the
claimed closed lower bound d·(1−f) = 1.5.  So the claim as stated is false. -/
theorem C8_counterexample :
    SmearDelay 3 (1/2) 0 = 1 ∧
      ¬ ((3 : ℚ) * (1 - 1/2) ≤ ((SmearDelay 3 (1/2) 0 : ℤ) : ℚ)) := by
  have h : SmearDelay 3 (1/2) 0 = 1 := by
    rw [SmearDelay_eq_floor (by norm_num) (by norm_num) (by norm_num)
      (by norm_num) (by norm_num)]
    norm_num
  refine ⟨h, ?_⟩
  rw [h]
  norm_num

/-- C8 (amended): for every nominal delay d ≥ 0, smear fraction f ∈ [0, 1]
and pseudo-random value r ∈ [0, 1], the delay returned by
InvalidationClientImpl::SmearDelay (in microseconds) and by
Smearer::GetSmearedDelay (in milliseconds) lies in the half-open interval
(d·(1−f) − 1, d·(1+f)]: the upper bound is as claimed, while the lower end
is relaxed by strictly less than one unit of the respective time resolution
because the C++ cast to int64 truncates the real-valued sample.  The default
smear fraction is 0.20. -/
theorem C8_smear_bounds (d : ℤ) (f r : ℚ) (hd : 0 ≤ d) (hf0 : 0 ≤ f)
    (hf1 : f ≤ 1) (hr0 : 0 ≤ r) (hr1 : r ≤ 1) :
    ((d : ℚ) * (1 - f) - 1 < (SmearDelay d f r : ℚ) ∧
        (SmearDelay d f r : ℚ) ≤ (d : ℚ) * (1 + f)) ∧
      ((d : ℚ) * (1 - f) - 1 < (Smearer.GetSmearedDelay d f r : ℚ) ∧
        (Smearer.GetSmearedDelay d f r : ℚ) ≤ (d : ℚ) * (1 + f)) ∧
      Smearer.defaultSmearFraction = 20 / 100 := by
  obtain ⟨hlow, hhigh⟩ := smear_sample_bounds hd hf0 hf1 hr0 hr1
  have hfl := Int.floor_le ((d : ℚ) * (f * (2 * r - 1) + 1))
  have hgt := Int.sub_one_lt_floor ((d : ℚ) * (f * (2 * r - 1) + 1))
  constructor
  · rw [SmearDelay_eq_floor hd hf0 hf1 hr0 hr1]
    constructor
    · linarith
    · linarith
  constructor
  · rw [GetSmearedDelay_eq_floor hd hf0 hf1 hr0 hr1]
    constructor
    · linarith
    · linarith
  · norm_num [Smearer.defaultSmearFraction, Smearer.kDefaultSmearPercent]

/-- C8 witness: the amended bounds instantiated at d = 10, f = 1/5, r = 1/2,
where SmearDelay evaluates to 10 and the bounds 10·(4/5) − 1 = 7 and
10·(6/5) = 12 hold concretely. -/
theorem C8_smear_bounds_witness :
    ((10 : ℚ) * (1 - 1/5) - 1 < (SmearDelay 10 (1/5) (1/2) : ℚ) ∧
        (SmearDelay 10 (1/5) (1/2) : ℚ) ≤ (10 : ℚ) * (1 + 1/5)) ∧
      ((10 : ℚ) * (1 - 1/5) - 1 < (Smearer.GetSmearedDelay 10 (1/5) (1/2) : ℚ) ∧
        (Smearer.GetSmearedDelay 10 (1/5) (1/2) : ℚ) ≤ (10 : ℚ) * (1 + 1/5)) ∧
      Smearer.defaultSmearFraction = 20 / 100 :=
  C8_smear_bounds 10 (1/5) (1/2) (by norm_num) (by norm_num) (by norm_num)
    (by norm_num) (by norm_num)

/-- ObjectId (proto): pair (source, name); the name's bytes are modelled as a
String. -/
structure ObjectId where
  source : ℤ
  name : String
deriving Repr, DecidableEq

/-- Modelled from the spec: the proto enum value `ObjectId_Source_INTERNAL`
("a reserved internal source value", §3); the proto schema is absent from the
repository snapshot, so the concrete numeral is arbitrary — every use
compares for equality only. -/
def ObjectId_Source_INTERNAL : ℤ := 1

/-- InvalidationClientImpl::INVALIDATE_ALL_OBJECT_NAME
(invalidation-client-impl.cc:27). -/
def INVALIDATE_ALL_OBJECT_NAME : String := "ALL"

/-- ComponentStamp (proto): a (component, time) pair in a stamp log. -/
structure ComponentStamp where
  component : String
  time : ℤ
deriving Repr, DecidableEq

/-- Invalidation (proto): object id, version, and optional component stamp
log (presence bit plus the stamps). -/
structure Invalidation where
  object_id : ObjectId
  version : ℤ
  has_component_stamp_log : Bool
  stamps : List ComponentStamp
deriving Repr, DecidableEq

/-- TiclState (proto, §3): the persistent state blob. -/
structure TiclState where
  uniquifier : String
  session_token : String
  sequence_number_limit : ℤ
deriving Repr, DecidableEq

/-- ClientConfig: the configuration options the modelled operations read. -/
structure ClientConfig where
  periodic_task_interval : ℤ
  smear_factor : ℚ
  seqno_block_size : ℤ
  max_ops_per_message : ℤ

/-- Modelled from the spec: RegistrationUpdateManager::kFirstSequenceNumber
(the registration-update-manager sources are absent); §8 scenario 1 fixes
the first assigned op_seqno to 1. -/
def kFirstSequenceNumber : ℤ := 1

/-- The server-controlled cadence intervals owned by the NetworkManager. -/
structure NetworkState where
  heartbeat_delay : ℤ
  polling_delay : ℤ
deriving Repr, DecidableEq

/-- ServerToClientMessage (proto): the fields the modelled operations read —
the heartbeat / polling hints and the carried invalidations. -/
structure ServerToClientMessage where
  next_message_delay : ℤ
  polling_interval : ℤ
  invalidations : List Invalidation
deriving Repr, DecidableEq

/-- The orchestrator state relevant to the verified claims: the
awaiting-writeback flag and lock-guarded mutable fields of
InvalidationClientImpl, together with the sequence-number accounting of the
registration manager and the session bits of the session manager, whose
implementation files are absent (their fields are modelled from §3-§4 of the
spec). -/
structure ClientState where
  awaiting_seqno_writeback : Bool
  current_op_seqno : ℤ
  maximum_op_seqno_inclusive : ℤ
  has_session : Bool
  has_client_id : Bool
  pending_invalidation_acks : List Invalidation
  network : NetworkState
deriving Repr, DecidableEq

/-- Modelled from the spec: InvalidationClientImpl::ForgetClientId (declared
in the absent invalidation-client-impl.h; §4.7: "reset session to
NO_CLIENT_ID, ... reset sequence numbers to kFirstSequenceNumber, clear max
to seqno_block_size"). -/
def ForgetClientId (cfg : ClientConfig) (st : ClientState) : ClientState :=
  { st with
    has_session := false
    has_client_id := false
    current_op_seqno := kFirstSequenceNumber
    maximum_op_seqno_inclusive := cfg.seqno_block_size }

/-- Modelled from the spec: RegistrationUpdateManager::UpdateMaximumSeqno
(§4.4 exposes it as the accounting setter for maximum_op_seqno_inclusive;
the registration-update-manager sources are absent). -/
def UpdateMaximumSeqno (st : ClientState) (limit : ℤ) : ClientState :=
  { st with maximum_op_seqno_inclusive := limit }

/-- The writeback request issued by AllocateNewSequenceNumbers: the new state
blob handed to PersistenceManager::WriteState and the limit bound into the
HandleSeqnoWritebackResult callback. -/
structure WritebackRequest where
  new_state : TiclState
  callback_limit : ℤ
deriving Repr, DecidableEq

/-- InvalidationClientImpl::AllocateNewSequenceNumbers
(invalidation-client-impl.cc:103-119): computes
`maximum_op_seqno_inclusive = persistent_state.sequence_number_limit +
config_.seqno_block_size`, copies the persisted blob with the new limit,
sets awaiting_seqno_writeback_, and issues the writeback whose callback is
HandleSeqnoWritebackResult bound to the new limit. -/
def AllocateNewSequenceNumbers (cfg : ClientConfig) (persistent_state : TiclState)
    (st : ClientState) : ClientState × WritebackRequest :=
  let maximum := persistent_state.sequence_number_limit + cfg.seqno_block_size
  let new_state := { persistent_state with sequence_number_limit := maximum }
  ({ st with awaiting_seqno_writeback := true }, ⟨new_state, maximum⟩)

/-- InvalidationClientImpl::HandleSeqnoWritebackResult
(invalidation-client-impl.cc:121-140): clears awaiting_seqno_writeback_;
on success calls RegistrationUpdateManager::UpdateMaximumSeqno with the
bound limit, otherwise calls ForgetClientId.  The returned Bool records
whether ForgetClientId was invoked. -/
def HandleSeqnoWritebackResult (cfg : ClientConfig)
    (maximum_op_seqno_inclusive : ℤ) (success : Bool)
    (st : ClientState) : ClientState × Bool :=
  let st1 := { st with awaiting_seqno_writeback := false }
  if success then
    (UpdateMaximumSeqno st1 maximum_op_seqno_inclusive, false)
  else
    (ForgetClientId cfg st1, true)

/-- C1: on startup from a parseable persisted blob the writeback's new
sequence_number_limit equals the persisted limit plus seqno_block_size; a
successful callback updates the registration manager's
maximum_op_seqno_inclusive to exactly that limit (and does not forget the
client id), a failed callback invokes ForgetClientId, and — by the exhaustive
characterization of the callback over both Bool results — no other outcome is
possible. -/
theorem C1_seqno_writeback (cfg : ClientConfig) (pst : TiclState)
    (st st' : ClientState) :
    (AllocateNewSequenceNumbers cfg pst st).2.callback_limit =
        pst.sequence_number_limit + cfg.seqno_block_size ∧
      (AllocateNewSequenceNumbers cfg pst st).2.new_state.sequence_number_limit =
        (AllocateNewSequenceNumbers cfg pst st).2.callback_limit ∧
      (AllocateNewSequenceNumbers cfg pst st).1.awaiting_seqno_writeback = true ∧
      (HandleSeqnoWritebackResult cfg
          (AllocateNewSequenceNumbers cfg pst st).2.callback_limit true
          st').1.maximum_op_seqno_inclusive =
        (AllocateNewSequenceNumbers cfg pst st).2.callback_limit ∧
      (HandleSeqnoWritebackResult cfg
          (AllocateNewSequenceNumbers cfg pst st).2.callback_limit true st').2 =
        false ∧
      (HandleSeqnoWritebackResult cfg
          (AllocateNewSequenceNumbers cfg pst st).2.callback_limit false st').2 =
        true ∧
      ∀ success : Bool,
        HandleSeqnoWritebackResult cfg
            (AllocateNewSequenceNumbers cfg pst st).2.callback_limit success st' =
          if success then
            (UpdateMaximumSeqno { st' with awaiting_seqno_writeback := false }
              (AllocateNewSequenceNumbers cfg pst st).2.callback_limit, false)
          else
            (ForgetClientId cfg { st' with awaiting_seqno_writeback := false },
              true) := by
  refine ⟨rfl, rfl, rfl, rfl, rfl, rfl, ?_⟩
  intro success
  cases success <;> rfl

/-- Modelled from the spec: the MessageAction enumerator IGNORE_MESSAGE.
The enum is declared in the absent session-manager header; the numeric
values are immaterial — the dispatch switch compares for equality only. -/
def IGNORE_MESSAGE : ℕ := 0

/-- Modelled from the spec: the MessageAction enumerator ACQUIRE_SESSION. -/
def ACQUIRE_SESSION : ℕ := 1

/-- Modelled from the spec: the MessageAction enumerator LOSE_CLIENT_ID. -/
def LOSE_CLIENT_ID : ℕ := 2

/-- Modelled from the spec: the MessageAction enumerator LOSE_SESSION. -/
def LOSE_SESSION : ℕ := 3

/-- Modelled from the spec: the MessageAction enumerator
PROCESS_OBJECT_CONTROL. -/
def PROCESS_OBJECT_CONTROL : ℕ := 4

/-- Modelled from the spec: NetworkManager::HandleInboundMessage
(network-manager sources absent; §4.6: "Both intervals are server-controlled:
updated via HandleInboundMessage reading fresh next_message_delay /
polling_interval hints"). -/
def NetworkHandleInboundMessage (net : NetworkState)
    (bundle : ServerToClientMessage) : NetworkState :=
  let _ := net
  { heartbeat_delay := bundle.next_message_delay
    polling_delay := bundle.polling_interval }

/-- Which handlers the dispatch switch of
InvalidationClientImpl::HandleInboundMessage invoked, and whether control
reached the trailing NetworkManager::HandleInboundMessage call. -/
structure DispatchResult where
  handled_new_session : Bool
  forgot_client_id : Bool
  handled_lost_session : Bool
  handled_object_control : Bool
  network_inbound_called : Bool
deriving Repr, DecidableEq

/-- The all-false dispatch result: no handler ran, the interval update was
not reached. -/
def DispatchResult.none : DispatchResult := ⟨false, false, false, false, false⟩

/-- The switch statement of InvalidationClientImpl::HandleInboundMessage
(invalidation-client-impl.cc:300-325): IGNORE_MESSAGE returns immediately;
ACQUIRE_SESSION / LOSE_CLIENT_ID / LOSE_SESSION / PROCESS_OBJECT_CONTROL run
their handler and fall through to network_manager_.HandleInboundMessage; the
default case returns without processing the new polling/heartbeat
intervals. -/
def dispatchInboundAction (action : ℕ) : DispatchResult :=
  if action = IGNORE_MESSAGE then .none
  else if action = ACQUIRE_SESSION then ⟨true, false, false, false, true⟩
  else if action = LOSE_CLIENT_ID then ⟨false, true, false, false, true⟩
  else if action = LOSE_SESSION then ⟨false, false, true, false, true⟩
  else if action = PROCESS_OBJECT_CONTROL then ⟨false, false, false, true, true⟩
  else .none

/-- Modelled from the spec: the session-level effect of HandleNewSession on
the modelled state bits (§4.7; the registration-table internals are owned by
the absent registration-update manager). -/
def HandleNewSession (st : ClientState) : ClientState :=
  { st with has_session := true, has_client_id := true }

/-- Modelled from the spec: the session-level effect of HandleLostSession on
the modelled state bits (§4.7). -/
def HandleLostSession (st : ClientState) : ClientState :=
  { st with has_session := false }

/-- The outcome of one InvalidationClientImpl::HandleInboundMessage call:
the post state, whether SessionManager::ProcessMessage (the classifier) ran,
and which dispatch branch was taken. -/
structure InboundResult where
  state : ClientState
  classifier_ran : Bool
  dispatch : DispatchResult
deriving Repr, DecidableEq

/-- InvalidationClientImpl::HandleInboundMessage
(invalidation-client-impl.cc:282-326), below its entry assertion and lock
acquisition.  If awaiting_seqno_writeback_ the message is dropped before
parsing or classification; otherwise the session manager classifies the
bundle (`classify` stands for SessionManager::ProcessMessage, whose sources
are absent) and the switch dispatches, after which the reached cases let the
network manager read the new polling/heartbeat intervals. -/
def HandleInboundMessage (cfg : ClientConfig)
    (classify : ServerToClientMessage → ℕ) (st : ClientState)
    (bundle : ServerToClientMessage) : InboundResult :=
  if st.awaiting_seqno_writeback then
    ⟨st, false, .none⟩
  else
    let action := classify bundle
    let d := dispatchInboundAction action
    let st1 :=
      if d.handled_new_session then HandleNewSession st
      else if d.forgot_client_id then ForgetClientId cfg st
      else if d.handled_lost_session then HandleLostSession st
      else st
    let st2 :=
      if d.network_inbound_called then
        { st1 with network := NetworkHandleInboundMessage st1.network bundle }
      else st1
    ⟨st2, true, d⟩

/-- The outcome of one InvalidationClientImpl::PeriodicTask run: the post
state, whether PersistenceManager::DoPeriodicCheck ran, whether
ForgetClientId was invoked (sequence-number exhaustion), whether
NetworkManager::OutboundDataReady was called, and the self-reschedule that
the Finally guard performs on every exit path together with its smeared
delay. -/
structure PeriodicResult where
  state : ClientState
  persistence_checked : Bool
  forgot_client_id : Bool
  outbound_data_ready : Bool
  rescheduled : Bool
  reschedule_delay : ℤ
deriving Repr, DecidableEq

/-- InvalidationClientImpl::PeriodicTask (invalidation-client-impl.cc:161-208).
The three data queries — SessionManager::HasDataToSend,
RegistrationUpdateManager::DoPeriodicRegistrationCheck and
NetworkManager::HasDataToSend, whose implementations are absent — enter as
the oracle inputs `have_session_data`, `have_registration_data` and
`should_heartbeat_or_poll` (the values the queries return at their call
sites); SessionManager::HasSession is read from the modelled state after the
possible ForgetClientId.  The Finally guard reschedules the task with
SmearDelay(periodic_task_interval, smear_factor) on every exit path. -/
def PeriodicTask (cfg : ClientConfig) (rand : ℚ)
    (have_session_data have_registration_data should_heartbeat_or_poll : Bool)
    (st : ClientState) : PeriodicResult :=
  let smeared_delay := SmearDelay cfg.periodic_task_interval cfg.smear_factor rand
  if st.awaiting_seqno_writeback then
    ⟨st, true, false, false, true, smeared_delay⟩
  else
    let exhausted := st.maximum_op_seqno_inclusive < st.current_op_seqno
    let st1 := if exhausted then ForgetClientId cfg st else st
    if !have_session_data && !st1.has_session then
      ⟨st1, true, exhausted, false, true, smeared_delay⟩
    else if have_session_data || have_registration_data ||
        should_heartbeat_or_poll then
      ⟨st1, true, exhausted, true, true, smeared_delay⟩
    else
      ⟨st1, true, exhausted, false, true, smeared_delay⟩

/-- C2: while awaiting_seqno_writeback_ holds, HandleInboundMessage drops
every message (no classification, no state change) and PeriodicTask calls no
OutboundDataReady yet still reschedules itself; moreover neither operation
ever changes the flag — among the modelled operations only
HandleSeqnoWritebackResult clears it, so processing resumes only after that
callback runs. -/
theorem C2_writeback_blocks (cfg : ClientConfig)
    (classify : ServerToClientMessage → ℕ) (st : ClientState)
    (bundle : ServerToClientMessage) (rand : ℚ) (hsd hrd hb : Bool)
    (h : st.awaiting_seqno_writeback = true) :
    HandleInboundMessage cfg classify st bundle = ⟨st, false, .none⟩ ∧
      PeriodicTask cfg rand hsd hrd hb st =
        ⟨st, true, false, false, true,
          SmearDelay cfg.periodic_task_interval cfg.smear_factor rand⟩ ∧
      (∀ (l : ℤ) (success : Bool) (st' : ClientState),
        (HandleSeqnoWritebackResult cfg l success st').1.awaiting_seqno_writeback =
          false) ∧
      (∀ (st' : ClientState) (b' : ServerToClientMessage),
        (HandleInboundMessage cfg classify st' b').state.awaiting_seqno_writeback =
          st'.awaiting_seqno_writeback) ∧
      (∀ st' : ClientState,
        (PeriodicTask cfg rand hsd hrd hb st').state.awaiting_seqno_writeback =
          st'.awaiting_seqno_writeback) := by
  refine ⟨?_, ?_, ?_, ?_, ?_⟩
  · simp [HandleInboundMessage, h]
  · simp [PeriodicTask, h]
  · intro l success st'
    cases success <;>
      simp [HandleSeqnoWritebackResult, UpdateMaximumSeqno, ForgetClientId]
  · intro st' b'
    by_cases ha : st'.awaiting_seqno_writeback <;>
      simp [HandleInboundMessage, ha, HandleNewSession, ForgetClientId,
        HandleLostSession] <;>
      split_ifs <;> simp_all
  · intro st'
    by_cases ha : st'.awaiting_seqno_writeback <;>
      simp [PeriodicTask, ha, ForgetClientId] <;>
      split_ifs <;> simp_all

/-- C2 witness: the gating instantiated at a concrete awaiting state — the
inbound message is dropped unprocessed. -/
theorem C2_writeback_blocks_witness :
    (⟨true, 1, 100, true, true, [], ⟨0, 0⟩⟩ :
        ClientState).awaiting_seqno_writeback = true ∧
      HandleInboundMessage ⟨1000000, 1/5, 100, 10⟩ (fun _ => PROCESS_OBJECT_CONTROL)
          ⟨true, 1, 100, true, true, [], ⟨0, 0⟩⟩ ⟨50, 60, []⟩ =
        ⟨⟨true, 1, 100, true, true, [], ⟨0, 0⟩⟩, false, .none⟩ :=
  ⟨rfl,
    (C2_writeback_blocks ⟨1000000, 1/5, 100, 10⟩ (fun _ => PROCESS_OBJECT_CONTROL)
      ⟨true, 1, 100, true, true, [], ⟨0, 0⟩⟩ ⟨50, 60, []⟩ (1/2) false false false
      rfl).1⟩

/-- C4: on a tick that is not awaiting a writeback, OutboundDataReady is not
called when the client has no session and no session-level data to send;
otherwise it is called exactly when at least one of the three data flags
holds; and every tick reschedules itself with the smeared
periodic_task_interval. -/
theorem C4_periodic_emission (cfg : ClientConfig) (rand : ℚ)
    (hsd hrd hb : Bool) (st : ClientState)
    (h : st.awaiting_seqno_writeback = false) :
    ((hsd = false ∧
          (PeriodicTask cfg rand hsd hrd hb st).state.has_session = false) →
        (PeriodicTask cfg rand hsd hrd hb st).outbound_data_ready = false) ∧
      ((hsd = true ∨
          (PeriodicTask cfg rand hsd hrd hb st).state.has_session = true) →
        ((PeriodicTask cfg rand hsd hrd hb st).outbound_data_ready = true ↔
          (hsd = true ∨ hrd = true ∨ hb = true))) ∧
      (PeriodicTask cfg rand hsd hrd hb st).rescheduled = true ∧
      (PeriodicTask cfg rand hsd hrd hb st).reschedule_delay =
        SmearDelay cfg.periodic_task_interval cfg.smear_factor rand := by
  simp only [PeriodicTask, h]
  cases hsd <;> cases hrd <;> cases hb <;>
    split_ifs <;> simp_all

/-- C4 witness: a tick with a session, no session data, registration data
pending — OutboundDataReady is called. -/
theorem C4_periodic_emission_witness :
    (⟨false, 1, 100, true, true, [], ⟨0, 0⟩⟩ :
        ClientState).awaiting_seqno_writeback = false ∧
      ((false = true ∨
          (PeriodicTask ⟨1000000, 1/5, 100, 10⟩ (1/2) false true false
            ⟨false, 1, 100, true, true, [], ⟨0, 0⟩⟩).state.has_session = true) →
        ((PeriodicTask ⟨1000000, 1/5, 100, 10⟩ (1/2) false true false
            ⟨false, 1, 100, true, true, [], ⟨0, 0⟩⟩).outbound_data_ready = true ↔
          (false = true ∨ true = true ∨ false = true))) :=
  ⟨rfl,
    (C4_periodic_emission ⟨1000000, 1/5, 100, 10⟩ (1/2) false true false
      ⟨false, 1, 100, true, true, [], ⟨0, 0⟩⟩ rfl).2.1⟩

/-- C10: the dispatch switch reaches the network manager's interval update
exactly for the four handled actions; IGNORE_MESSAGE (and every unrecognized
action value) returns first, and then the heartbeat/polling intervals are
left unchanged by the whole HandleInboundMessage call. -/
theorem C10_ignore_preserves_intervals (cfg : ClientConfig)
    (classify : ServerToClientMessage → ℕ) :
    (∀ action : ℕ,
        (dispatchInboundAction action).network_inbound_called = true ↔
          (action = ACQUIRE_SESSION ∨ action = LOSE_CLIENT_ID ∨
            action = LOSE_SESSION ∨ action = PROCESS_OBJECT_CONTROL)) ∧
      dispatchInboundAction IGNORE_MESSAGE = .none ∧
      (∀ (st : ClientState) (bundle : ServerToClientMessage),
        (dispatchInboundAction (classify bundle)).network_inbound_called =
            false →
          (HandleInboundMessage cfg classify st bundle).state.network =
            st.network) := by
  refine ⟨?_, rfl, ?_⟩
  · intro action
    simp only [dispatchInboundAction, DispatchResult.none, IGNORE_MESSAGE,
      ACQUIRE_SESSION, LOSE_CLIENT_ID, LOSE_SESSION, PROCESS_OBJECT_CONTROL]
    split_ifs <;> simp_all
  · intro st bundle hno
    by_cases ha : st.awaiting_seqno_writeback
    · simp [HandleInboundMessage, ha]
    · simp [HandleInboundMessage, ha, hno, HandleNewSession, ForgetClientId,
        HandleLostSession]
      split_ifs <;> rfl

/-- C10 witness: an unrecognized action value (5) does not reach the interval
update, and a concrete IGNORE_MESSAGE-classified call leaves the network
intervals untouched. -/
theorem C10_ignore_preserves_intervals_witness :
    ((dispatchInboundAction 5).network_inbound_called = true ↔
      (5 = ACQUIRE_SESSION ∨ 5 = LOSE_CLIENT_ID ∨ 5 = LOSE_SESSION ∨
        5 = PROCESS_OBJECT_CONTROL)) ∧
      ((dispatchInboundAction
            ((fun _ : ServerToClientMessage => IGNORE_MESSAGE) ⟨9, 9, []⟩)).network_inbound_called =
          false →
        (HandleInboundMessage ⟨1000000, 1/5, 100, 10⟩
            (fun _ => IGNORE_MESSAGE)
            ⟨false, 1, 100, true, true, [], ⟨5, 7⟩⟩ ⟨9, 9, []⟩).state.network =
          (⟨false, 1, 100, true, true, [], ⟨5, 7⟩⟩ : ClientState).network) :=
  ⟨(C10_ignore_preserves_intervals ⟨1000000, 1/5, 100, 10⟩
      (fun _ => IGNORE_MESSAGE)).1 5,
    fun h =>
      (C10_ignore_preserves_intervals ⟨1000000, 1/5, 100, 10⟩
        (fun _ => IGNORE_MESSAGE)).2.2 ⟨false, 1, 100, true, true, [], ⟨5, 7⟩⟩
        ⟨9, 9, []⟩ h⟩

/-- Time::kMicrosecondsPerMillisecond (from the time utility header; the
code comment at invalidation-client-impl.cc:417-418 fixes the unit
conversion: "Internal time value is in microseconds; stamp log should be in
millis"). -/
def kMicrosecondsPerMillisecond : ℤ := 1000

/-- Modelled from the spec: the ClientToServerMessage message-type enum (the
proto schema is absent; §6 lists the carried categories).  Only equality with
TYPE_OBJECT_CONTROL is inspected by the embedded code. -/
inductive MessageType
  | TYPE_INITIALIZE
  | TYPE_OBJECT_CONTROL
  | TYPE_SHUTDOWN
deriving Repr, DecidableEq

/-- ClientToServerMessage (proto): the fields TakeOutboundMessage
manipulates — the optional message type, the number of register operations
the registration manager attached, and the acked-invalidation array. -/
structure ClientToServerMessage where
  message_type : Option MessageType
  register_operation_size : ℤ
  acked_invalidations : List Invalidation
deriving Repr, DecidableEq

/-- The per-ack body of the drain loop in
InvalidationClientImpl::TakeOutboundMessage
(invalidation-client-impl.cc:411-421): the invalidation is copied into the
message and, if it carries a component stamp log, a stamp with component "C"
and the current time in milliseconds (microseconds truncated by int64
division) is appended. -/
def stampAck (now_us : ℤ) (inv : Invalidation) : Invalidation :=
  if inv.has_component_stamp_log then
    { inv with
      stamps := inv.stamps ++ [⟨"C", now_us.tdiv kMicrosecondsPerMillisecond⟩] }
  else inv

/-- The drain loop of InvalidationClientImpl::TakeOutboundMessage
(invalidation-client-impl.cc:407-423): while the pending queue is nonempty
and `registration_count + invalidation_acks_sent < max_ops_per_message`,
pop the queue's back (the newest ack), stamp it and append it to the
message.  Returns the acks appended (in append order) and the remaining
queue. -/
def drainAcks (max_ops registration_count now_us : ℤ) (sent : ℤ)
    (pending : List Invalidation) : List Invalidation × List Invalidation :=
  if h : pending ≠ [] ∧ registration_count + sent < max_ops then
    let inv := pending.getLast h.1
    let rest :=
      drainAcks max_ops registration_count now_us (sent + 1) pending.dropLast
    (stampAck now_us inv :: rest.1, rest.2)
  else ([], pending)
termination_by pending.length
decreasing_by
  simp only [List.length_dropLast]
  have hl := List.length_pos.mpr h.1
  omega

/-- The ack-appending phase of InvalidationClientImpl::TakeOutboundMessage
(invalidation-client-impl.cc:392-424): only when the outgoing message's type
is TYPE_OBJECT_CONTROL is the pending-ack queue drained (from the back) into
the message's acked_invalidation array. -/
def TakeOutboundMessageAcks (cfg : ClientConfig) (now_us : ℤ)
    (message : ClientToServerMessage) (pending : List Invalidation) :
    ClientToServerMessage × List Invalidation :=
  if message.message_type = some MessageType.TYPE_OBJECT_CONTROL then
    let drained :=
      drainAcks cfg.max_ops_per_message message.register_operation_size now_us 0
        pending
    ({ message with
        acked_invalidations := message.acked_invalidations ++ drained.1 },
      drained.2)
  else (message, pending)

lemma drainAcks_characterization (max_ops registration_count now_us : ℤ) :
    ∀ (pending : List Invalidation) (sent : ℤ),
      drainAcks max_ops registration_count now_us sent pending =
        ((pending.reverse.take
            (min pending.length
              (max_ops - registration_count - sent).toNat)).map
            (stampAck now_us),
          pending.take
            (pending.length -
              min pending.length
                (max_ops - registration_count - sent).toNat)) := by
  intro pending
  induction pending using List.reverseRecOn with
  | nil =>
    intro sent
    rw [drainAcks]
    simp
  | append_singleton l a ih =>
    intro sent
    rw [drainAcks]
    by_cases hlt : registration_count + sent < max_ops
    · have hne : l ++ [a] ≠ [] := by simp
      rw [dif_pos ⟨hne, hlt⟩]
      simp only [List.getLast_append, List.dropLast_concat]
      rw [ih (sent + 1)]
      have hmin : min ((l ++ [a]).length)
            (max_ops - registration_count - sent).toNat =
          min l.length ((max_ops - registration_count - (sent + 1)).toNat) + 1 := by
        simp only [List.length_append, List.length_singleton]
        omega
      have hrev : (l ++ [a]).reverse = a :: l.reverse := by simp
      have hlen : (l ++ [a]).length = l.length + 1 := by simp
      refine Prod.ext ?_ ?_
      · have hmin2 : (l.length + 1) ⊓
              (max_ops - registration_count - sent).toNat =
            l.length ⊓ (max_ops - registration_count - (sent + 1)).toNat + 1 := by
          omega
        simp [hmin2, hrev, List.take_succ_cons]
      · have hle : l.length -
            min l.length ((max_ops - registration_count - (sent + 1)).toNat) ≤
            l.length := by omega
        simp only [hmin, hlen]
        rw [List.take_append_of_le_length (by omega)]
        congr 1
        omega
    · have hcond : ¬(l ++ [a] ≠ [] ∧ registration_count + sent < max_ops) := by
        simp [hlt]
      rw [dif_neg hcond]
      have hT0 : (max_ops - registration_count - sent).toNat = 0 := by omega
      simp [hT0]


/-- C5: TakeOutboundMessage appends acks only to a TYPE_OBJECT_CONTROL
message; it drains the pending-ack queue from the back (newest first),
stopping when the queue is empty or when register operations plus appended
acks reach max_ops_per_message — the appended acks are the stamped reversal
of the drained suffix and the queue keeps its oldest prefix; and each
drained ack carrying a component stamp log receives exactly one appended
stamp ("C", now in milliseconds). -/
theorem C5_outbound_acks (cfg : ClientConfig) (now_us : ℤ) :
    (∀ (message : ClientToServerMessage) (pending : List Invalidation),
        message.message_type ≠ some MessageType.TYPE_OBJECT_CONTROL →
          TakeOutboundMessageAcks cfg now_us message pending =
            (message, pending)) ∧
      (∀ (reg : ℤ) (acked pending : List Invalidation),
        TakeOutboundMessageAcks cfg now_us
            ⟨some MessageType.TYPE_OBJECT_CONTROL, reg, acked⟩ pending =
          (⟨some MessageType.TYPE_OBJECT_CONTROL, reg,
              acked ++
                (pending.reverse.take
                    (min pending.length
                      (cfg.max_ops_per_message - reg).toNat)).map
                  (stampAck now_us)⟩,
            pending.take
              (pending.length -
                min pending.length (cfg.max_ops_per_message - reg).toNat))) ∧
      (∀ inv : Invalidation,
        (inv.has_component_stamp_log = true →
          stampAck now_us inv =
            { inv with
              stamps := inv.stamps ++
                [⟨"C", now_us.tdiv kMicrosecondsPerMillisecond⟩] }) ∧
        (inv.has_component_stamp_log = false → stampAck now_us inv = inv)) := by
  refine ⟨?_, ?_, ?_⟩
  · intro message pending hmt
    simp [TakeOutboundMessageAcks, hmt]
  · intro reg acked pending
    simp only [TakeOutboundMessageAcks, if_pos rfl]
    rw [drainAcks_characterization]
    simp
  · intro inv
    constructor
    · intro hlog
      simp [stampAck, hlog]
    · intro hlog
      simp [stampAck, hlog]

/-- C5 witness: a TYPE_SHUTDOWN message receives no acks (the queue is left
whole), instantiated concretely. -/
theorem C5_outbound_acks_witness :
    (⟨some MessageType.TYPE_SHUTDOWN, 0, []⟩ :
          ClientToServerMessage).message_type ≠
        some MessageType.TYPE_OBJECT_CONTROL ∧
      TakeOutboundMessageAcks ⟨1000000, 1/5, 100, 10⟩ 2500
          ⟨some MessageType.TYPE_SHUTDOWN, 0, []⟩
          [⟨⟨3, "x"⟩, 7, false, []⟩] =
        (⟨some MessageType.TYPE_SHUTDOWN, 0, []⟩,
          [⟨⟨3, "x"⟩, 7, false, []⟩]) :=
  ⟨by simp,
    (C5_outbound_acks ⟨1000000, 1/5, 100, 10⟩ 2500).1
      ⟨some MessageType.TYPE_SHUTDOWN, 0, []⟩ [⟨⟨3, "x"⟩, 7, false, []⟩]
      (by simp)⟩

/-- The listener call InvalidationClientImpl::ProcessInvalidation schedules
for an invalidation (invalidation-client-impl.cc:329-347). -/
inductive ListenerCall
  | Invalidate (inv : Invalidation)
  | InvalidateAll
deriving Repr, DecidableEq

/-- InvalidationClientImpl::ProcessInvalidation
(invalidation-client-impl.cc:329-347): the invalidation whose object id has
source INTERNAL and name INVALIDATE_ALL_OBJECT_NAME is delivered as
InvalidateAll; every other invalidation is delivered as Invalidate. -/
def ProcessInvalidation (inv : Invalidation) : ListenerCall :=
  if inv.object_id.source = ObjectId_Source_INTERNAL ∧
      inv.object_id.name = INVALIDATE_ALL_OBJECT_NAME then
    ListenerCall.InvalidateAll
  else
    ListenerCall.Invalidate inv

/-- InvalidationClientImpl::AcknowledgeInvalidation
(invalidation-client-impl.cc:349-355): under the lock, pushes the
invalidation onto pending_invalidation_acks_ (push_back) and calls
NetworkManager::OutboundDataReady.  The returned Bool records the
OutboundDataReady call. -/
def AcknowledgeInvalidation (st : ClientState) (inv : Invalidation) :
    ClientState × Bool :=
  ({ st with
      pending_invalidation_acks := st.pending_invalidation_acks ++ [inv] },
    true)

/-- C6: an invalidation is delivered as InvalidateAll exactly when its
object id has source INTERNAL and name "ALL"; every other invalidation —
including one named "ALL" with a non-internal source — is delivered as
Invalidate(inv); and invoking the ack callback appends the invalidation to
pending_invalidation_acks_ and signals OutboundDataReady. -/
theorem C6_invalidation_dispatch (inv : Invalidation) :
    (ProcessInvalidation inv = ListenerCall.InvalidateAll ↔
        (inv.object_id.source = ObjectId_Source_INTERNAL ∧
          inv.object_id.name = INVALIDATE_ALL_OBJECT_NAME)) ∧
      (¬(inv.object_id.source = ObjectId_Source_INTERNAL ∧
            inv.object_id.name = INVALIDATE_ALL_OBJECT_NAME) →
        ProcessInvalidation inv = ListenerCall.Invalidate inv) ∧
      (∀ st : ClientState,
        AcknowledgeInvalidation st inv =
          ({ st with
              pending_invalidation_acks :=
                st.pending_invalidation_acks ++ [inv] },
            true)) := by
  refine ⟨?_, ?_, fun _ => rfl⟩
  · unfold ProcessInvalidation
    split_ifs with hc
    · simp [hc]
    · simp [hc]
  · intro hc
    simp [ProcessInvalidation, hc]

/-- C6 witness: the object named "ALL" with a non-internal source (2) is
delivered as a plain Invalidate, instantiated concretely. -/
theorem C6_invalidation_dispatch_witness :
    (¬((⟨⟨2, "ALL"⟩, 7, false, []⟩ : Invalidation).object_id.source =
            ObjectId_Source_INTERNAL ∧
          (⟨⟨2, "ALL"⟩, 7, false, []⟩ :
              Invalidation).object_id.name = INVALIDATE_ALL_OBJECT_NAME)) ∧
      ProcessInvalidation ⟨⟨2, "ALL"⟩, 7, false, []⟩ =
        ListenerCall.Invalidate ⟨⟨2, "ALL"⟩, 7, false, []⟩ :=
  ⟨by simp [ObjectId_Source_INTERNAL],
    (C6_invalidation_dispatch ⟨⟨2, "ALL"⟩, 7, false, []⟩).2.1
      (by simp [ObjectId_Source_INTERNAL])⟩

/-- OperationScheduleInfo (operation-scheduler.h:33-50): nominal delay, name
and the has_been_scheduled flag (false on construction). -/
structure OperationScheduleInfo where
  delay : ℤ
  name : String
  has_been_scheduled : Bool
deriving Repr, DecidableEq

/-- OperationScheduler::SetOperation (operation-scheduler.cc:25-35):
registers an operation with its nominal delay; the CHECK rejects a
non-positive delay (and a rejected registration is modelled as none).  The
freshly stored OperationScheduleInfo has has_been_scheduled = false. -/
def SetOperation (delay : ℤ) (name : String) : Option OperationScheduleInfo :=
  if 0 < delay then some ⟨delay, name, false⟩ else none

/-- OperationScheduler::Schedule (operation-scheduler.cc:48-66): if the
operation has not been scheduled, mark it scheduled and hand the external
scheduler a task to run after the smeared delay (the returned Option is the
delay passed to Scheduler::Schedule, smeared by the scheduler's
default-fraction Smearer); if it is already scheduled, do nothing. -/
def Schedule (rand : ℚ) (info : OperationScheduleInfo) :
    OperationScheduleInfo × Option ℤ :=
  if !info.has_been_scheduled then
    ({ info with has_been_scheduled := true },
      some (Smearer.GetSmearedDelay info.delay Smearer.defaultSmearFraction rand))
  else
    (info, none)

/-- OperationScheduler::RunAndClearScheduled (operation-scheduler.cc:68-72):
when the scheduled task fires, has_been_scheduled is set to false first and
the operation's closure runs afterwards — so the closure observes (and may
re-schedule from) the cleared flag. -/
def RunAndClearScheduled (closure : OperationScheduleInfo → OperationScheduleInfo)
    (info : OperationScheduleInfo) : OperationScheduleInfo :=
  closure { info with has_been_scheduled := false }

/-- One operation's view of the scheduler system: its schedule info together
with the number of its tasks sitting in the external scheduler's queue
(scheduled but not yet fired). -/
structure OpSchedState where
  info : OperationScheduleInfo
  outstanding : ℕ
deriving Repr, DecidableEq

/-- The events that touch one registered operation: a Schedule call (which
enqueues an external task exactly when it returns a delay), and the firing
of an enqueued task, which clears has_been_scheduled before the operation's
closure runs — the closure's own Schedule calls are subsequent `schedule`
steps. -/
inductive OpStep : OpSchedState → OpSchedState → Prop
  | schedule (s : OpSchedState) (rand : ℚ) :
      OpStep s
        ⟨(Schedule rand s.info).1,
          s.outstanding + (if (Schedule rand s.info).2.isSome then 1 else 0)⟩
  | fire (s : OpSchedState) (h : 0 < s.outstanding) :
      OpStep s ⟨{ s.info with has_been_scheduled := false }, s.outstanding - 1⟩

/-- The states one operation can reach from its registration (SetOperation
stores the info with has_been_scheduled = false and no task outstanding). -/
def opReachable (info0 : OperationScheduleInfo) : OpSchedState → Prop :=
  Relation.ReflTransGen OpStep ⟨info0, 0⟩

lemma opStep_preserves {s t : OpSchedState} (hst : OpStep s t)
    (hs : s.outstanding = (if s.info.has_been_scheduled then 1 else 0)) :
    t.outstanding = (if t.info.has_been_scheduled then 1 else 0) := by
  cases hst with
  | schedule rand =>
    by_cases hb : s.info.has_been_scheduled
    · simp [Schedule, hb, hs]
    · simp only [Bool.not_eq_true] at hb
      simp [Schedule, hb, hs]
  | fire h =>
    by_cases hb : s.info.has_been_scheduled
    · simp [hb] at hs
      simp [hs]
    · simp only [Bool.not_eq_true] at hb
      simp [hb] at hs
      omega

lemma opInvariant (info0 : OperationScheduleInfo)
    (h0 : info0.has_been_scheduled = false) (s : OpSchedState)
    (hr : opReachable info0 s) :
    s.outstanding = (if s.info.has_been_scheduled then 1 else 0) := by
  induction hr with
  | refl => simp [h0]
  | tail _ step ih => exact opStep_preserves step ih

/-- C7: for a registered operation, Schedule on a non-pending operation sets
the flag and hands the external scheduler one task with a smeared delay;
Schedule on a pending operation does nothing; when a task fires, the flag is
cleared before the closure runs (the closure observes the cleared flag); and
along every reachable execution at most one future execution is outstanding
— the outstanding count is exactly 1 when pending and 0 otherwise. -/
theorem C7_operation_scheduler (delay : ℤ) (name : String)
    (info0 : OperationScheduleInfo) (hset : SetOperation delay name = some info0) :
    (∀ (rand : ℚ) (info : OperationScheduleInfo),
        info.has_been_scheduled = true → Schedule rand info = (info, none)) ∧
      (∀ (rand : ℚ) (info : OperationScheduleInfo),
        info.has_been_scheduled = false →
          Schedule rand info =
            ({ info with has_been_scheduled := true },
              some (Smearer.GetSmearedDelay info.delay
                Smearer.defaultSmearFraction rand))) ∧
      (∀ (closure : OperationScheduleInfo → OperationScheduleInfo)
          (info : OperationScheduleInfo),
        RunAndClearScheduled closure info =
          closure { info with has_been_scheduled := false }) ∧
      (∀ s : OpSchedState, opReachable info0 s →
        s.outstanding = (if s.info.has_been_scheduled then 1 else 0) ∧
          s.outstanding ≤ 1) := by
  have h0 : info0.has_been_scheduled = false := by
    unfold SetOperation at hset
    by_cases hd : 0 < delay
    · simp [hd] at hset
      rw [← hset]
    · simp [hd] at hset
  refine ⟨?_, ?_, fun _ _ => rfl, ?_⟩
  · intro rand info hb
    simp [Schedule, hb]
  · intro rand info hb
    simp [Schedule, hb]
  · intro s hr
    have := opInvariant info0 h0 s hr
    refine ⟨this, ?_⟩
    rw [this]
    split <;> omega

/-- C7 witness: from a freshly registered operation (delay 500), one
Schedule step reaches a pending state with exactly one outstanding task. -/
theorem C7_operation_scheduler_witness :
    SetOperation 500 "heartbeat" = some ⟨500, "heartbeat", false⟩ ∧
      (∀ (rand : ℚ) (info : OperationScheduleInfo),
        info.has_been_scheduled = true → Schedule rand info = (info, none)) :=
  ⟨by simp [SetOperation],
    (C7_operation_scheduler 500 "heartbeat" ⟨500, "heartbeat", false⟩
      (by simp [SetOperation])).1⟩

/-- The outcome of the entry prologue shared by the externally callable
operations of InvalidationClientImpl: the CHECK against running on the
internal thread, followed by acquiring the single client lock. -/
inductive EntryOutcome
  | assertionFailure
  | proceedWithLock
deriving Repr, DecidableEq

/-- The entry prologue of InvalidationClientImpl::Register
(invalidation-client-impl.cc:210-212): CHECK(!IsRunningOnInternalThread())
then MutexLock(&lock_) before registration_manager_->Register(oid). -/
def RegisterEntry (on_internal_thread : Bool) : EntryOutcome :=
  if on_internal_thread then .assertionFailure else .proceedWithLock

/-- The entry prologue of InvalidationClientImpl::Unregister
(invalidation-client-impl.cc:218-220). -/
def UnregisterEntry (on_internal_thread : Bool) : EntryOutcome :=
  if on_internal_thread then .assertionFailure else .proceedWithLock

/-- The entry prologue of InvalidationClientImpl::PermanentShutdown
(invalidation-client-impl.cc:226-228). -/
def PermanentShutdownEntry (on_internal_thread : Bool) : EntryOutcome :=
  if on_internal_thread then .assertionFailure else .proceedWithLock

/-- The entry prologue of InvalidationClientImpl::HandleInboundMessage
(invalidation-client-impl.cc:282-284). -/
def HandleInboundMessageEntry (on_internal_thread : Bool) : EntryOutcome :=
  if on_internal_thread then .assertionFailure else .proceedWithLock

/-- The entry prologue of InvalidationClientImpl::TakeOutboundMessage
(invalidation-client-impl.cc:373-375). -/
def TakeOutboundMessageEntry (on_internal_thread : Bool) : EntryOutcome :=
  if on_internal_thread then .assertionFailure else .proceedWithLock

/-- The entry prologue of InvalidationClientImpl::RegisterOutboundListener
(invalidation-client-impl.cc:366-369). -/
def RegisterOutboundListenerEntry (on_internal_thread : Bool) : EntryOutcome :=
  if on_internal_thread then .assertionFailure else .proceedWithLock

/-- C9: each of the six externally callable operations asserts on entry that
it is not on the internal thread — a call made on the internal thread fails
the CHECK — and otherwise proceeds holding the single client lock before any
mutable state is touched. -/
theorem C9_entry_assertions :
    (RegisterEntry true = .assertionFailure ∧
        RegisterEntry false = .proceedWithLock) ∧
      (UnregisterEntry true = .assertionFailure ∧
        UnregisterEntry false = .proceedWithLock) ∧
      (PermanentShutdownEntry true = .assertionFailure ∧
        PermanentShutdownEntry false = .proceedWithLock) ∧
      (HandleInboundMessageEntry true = .assertionFailure ∧
        HandleInboundMessageEntry false = .proceedWithLock) ∧
      (TakeOutboundMessageEntry true = .assertionFailure ∧
        TakeOutboundMessageEntry false = .proceedWithLock) ∧
      (RegisterOutboundListenerEntry true = .assertionFailure ∧
        RegisterOutboundListenerEntry false = .proceedWithLock) := by
  refine ⟨⟨rfl, rfl⟩, ⟨rfl, rfl⟩, ⟨rfl, rfl⟩, ⟨rfl, rfl⟩, ⟨rfl, rfl⟩, rfl, rfl⟩

/-- RateLimit (throttle.h:38-44): a limit of `count` events over a window of
duration `window_size` (milliseconds). -/
structure RateLimit where
  window_size : ℕ
  count : ℕ
deriving Repr, DecidableEq

/-- The largest window among the rate limits (spec §4.3 step 1 drops
timestamps older than the largest window). -/
def maxWindow (limits : List RateLimit) : ℕ :=
  limits.foldl (fun a l => max a l.window_size) 0

/-- The ring-buffer capacity K = max(count) (throttle.h:48-50: the buffer of
recent messages "is as large as the highest count property"). -/
def maxRecentEvents (limits : List RateLimit) : ℕ :=
  limits.foldl (fun a l => max a l.count) 0

/-- Throttle state (throttle.h:73-91): the buffer of recent event times —
held here newest-first, so the front of the C++ deque (the oldest event) is
the last element — plus the deferred-retry timer flag and, when armed, the
absolute time at which RetryFire will run. -/
structure ThrottleState where
  recent_event_times : List ℕ
  timer_scheduled : Bool
  retry_time : ℕ
deriving Repr, DecidableEq

/-- Modelled from the spec: one limit's check in Throttle::Fire (§4.3 step 2;
throttle.cc is absent).  If `recent.size() ≥ c` and `now − recent[size−c] < w`
(on the newest-first view, `recent[size−c]` is the element at index c−1), the
limit is violated and the earliest legal instant `t* = recent[size−c] + w`
is returned. -/
def retryStar (l : RateLimit) (recent : List ℕ) (now : ℕ) : Option ℕ :=
  if l.count ≤ recent.length then
    let t := recent.getD (l.count - 1) 0
    if now - t < l.window_size then some (t + l.window_size) else none
  else none

/-- The earliest legal instants of all violated limits (spec §4.3 step 2). -/
def fireStars (limits : List RateLimit) (now : ℕ) (recent : List ℕ) : List ℕ :=
  limits.filterMap (fun l => retryStar l recent now)

/-- The buffer after dropping timestamps older than the largest window (spec
§4.3 step 1).  On the newest-first sorted buffer the surviving events are a
prefix, so the drop is a takeWhile. -/
def agedRecent (limits : List RateLimit) (now : ℕ) (st : ThrottleState) :
    List ℕ :=
  st.recent_event_times.takeWhile (fun t => decide (now - t ≤ maxWindow limits))

namespace Throttle

/-- Modelled from the spec: Throttle::Fire (§4.3; throttle.cc is absent —
the behavior also matches the header contract throttle.h:59-64 and the
scripted test).  1. Drop timestamps older than the largest window.
2. Compute the earliest legal instants of the violated limits.  3. If no
limit is violated, record `now` (keeping the last K events) and invoke the
listener synchronously.  4. Otherwise, if no deferred fire is armed,
schedule RetryFire at the largest t*; else do nothing (no queueing).
The returned Bool reports whether the listener was invoked. -/
def Fire (limits : List RateLimit) (now : ℕ) (st : ThrottleState) :
    ThrottleState × Bool :=
  let recent := agedRecent limits now st
  let stars := fireStars limits now recent
  if stars.isEmpty then
    ({ st with recent_event_times :=
        (now :: recent).take (maxRecentEvents limits) }, true)
  else if st.timer_scheduled then
    ({ st with recent_event_times := recent }, false)
  else
    ({ recent_event_times := recent, timer_scheduled := true,
       retry_time := stars.foldl max 0 }, false)

/-- Throttle::RetryFire (throttle.h:67-71): clears timer_scheduled_ and
calls Fire again at the current time. -/
def RetryFire (limits : List RateLimit) (now : ℕ) (st : ThrottleState) :
    ThrottleState × Bool :=
  Fire limits now { st with timer_scheduled := false }

end Throttle

/-- Runs a sequence of Fire calls (both direct calls and scheduler-driven
retries reach the throttle as Fire invocations at the then-current time).
Returns the final state and the listener invocation times, newest first. -/
def fireCalls (limits : List RateLimit) :
    List ℕ → ThrottleState → ThrottleState × List ℕ
  | [], st => (st, [])
  | t :: ts, st =>
    let fr := Throttle.Fire limits t st
    let rest := fireCalls limits ts fr.1
    (rest.1, rest.2 ++ if fr.2 then [t] else [])

lemma le_foldl_max (f : RateLimit → ℕ) :
    ∀ (limits : List RateLimit) (init : ℕ),
      init ≤ limits.foldl (fun a x => max a (f x)) init := by
  intro limits
  induction limits with
  | nil => intro init; exact le_refl _
  | cons a as ih =>
    intro init
    exact le_trans (le_max_left _ _) (ih (max init (f a)))

lemma mem_le_foldl_max (f : RateLimit → ℕ) :
    ∀ (limits : List RateLimit) (init : ℕ) (l : RateLimit), l ∈ limits →
      f l ≤ limits.foldl (fun a x => max a (f x)) init := by
  intro limits
  induction limits with
  | nil =>
    intro init l hl
    cases hl
  | cons a as ih =>
    intro init l hl
    cases hl with
    | head => exact le_trans (le_max_right _ _) (le_foldl_max f as (max init (f a)))
    | tail _ h => exact ih (max init (f a)) l h

lemma window_le_maxWindow {limits : List RateLimit} {l : RateLimit}
    (h : l ∈ limits) : l.window_size ≤ maxWindow limits :=
  mem_le_foldl_max _ limits 0 l h

lemma count_le_maxRecentEvents {limits : List RateLimit} {l : RateLimit}
    (h : l ∈ limits) : l.count ≤ maxRecentEvents limits :=
  mem_le_foldl_max _ limits 0 l h

lemma sorted_dropWhile_not {p : ℕ → Bool}
    (hmono : ∀ x y, y ≤ x → p x = false → p y = false) :
    ∀ {l : List ℕ}, l.Pairwise (fun x y => y ≤ x) →
      ∀ t ∈ l.dropWhile p, p t = false := by
  intro l
  induction l with
  | nil => simp
  | cons a l ih =>
    intro hs t ht
    by_cases hp : p a
    · rw [List.dropWhile_cons_of_pos hp] at ht
      exact ih hs.of_cons t ht
    · rw [List.dropWhile_cons_of_neg hp] at ht
      rcases List.mem_cons.mp ht with rfl | hmem
      · exact Bool.eq_false_iff.mpr hp
      · exact hmono a t (List.rel_of_pairwise_cons hs hmem)
          (Bool.eq_false_iff.mpr hp)

/-- The coupling invariant between the throttle's ring buffer and the full
history of listener invocation times (hist, newest first; T bounds every
fire time seen so far): the buffer is a prefix of the history; every event
not retained in the buffer either is already older than the largest window
(and can never again be a limit's decisive c-th-newest event) or was evicted
by the K-size buffer bound and sits at position ≥ K; and the history
satisfies every limit's spacing property. -/
structure ThrottleInv (limits : List RateLimit) (st : ThrottleState)
    (hist : List ℕ) (T : ℕ) : Prop where
  sorted : hist.Pairwise (fun x y => y ≤ x)
  bounded : ∀ t ∈ hist, t ≤ T
  buf_len : st.recent_event_times.length ≤ maxRecentEvents limits
  buf_eq : ∃ old, hist = st.recent_event_times ++ old
  dropped : ∀ pos t, hist[pos]? = some t →
    st.recent_event_times.length ≤ pos →
      t + maxWindow limits < T ∨ maxRecentEvents limits ≤ pos
  spacing : ∀ l ∈ limits, ∀ i t u, hist[i + l.count]? = some t →
    hist[i]? = some u → t + l.window_size ≤ u

lemma aged_dropped {limits : List RateLimit} {st : ThrottleState}
    {hist : List ℕ} {T now : ℕ}
    (hinv : ThrottleInv limits st hist T) (hT : T ≤ now) :
    ∀ pos t, hist[pos]? = some t → (agedRecent limits now st).length ≤ pos →
      t + maxWindow limits < now ∨ maxRecentEvents limits ≤ pos := by
  intro pos t hpt hpos
  simp only [agedRecent] at hpos
  obtain ⟨old, hold⟩ := hinv.buf_eq
  by_cases hR : pos < st.recent_event_times.length
  · left
    have htT : t ≤ T := hinv.bounded t (List.getElem?_mem hpt)
    have hRt : st.recent_event_times[pos]? = some t := by
      rw [hold, List.getElem?_append, if_pos hR] at hpt
      exact hpt
    have hsplit := List.takeWhile_append_dropWhile
      (fun u => decide (now - u ≤ maxWindow limits)) st.recent_event_times
    have hBt : (st.recent_event_times.dropWhile
        (fun u => decide (now - u ≤ maxWindow limits)))[pos -
          (st.recent_event_times.takeWhile
            (fun u => decide (now - u ≤ maxWindow limits))).length]? = some t := by
      rw [← hsplit, List.getElem?_append, if_neg (Nat.not_lt.mpr hpos)] at hRt
      exact hRt
    have hRsorted : st.recent_event_times.Pairwise (fun x y => y ≤ x) := by
      have hs := hinv.sorted
      rw [hold] at hs
      exact (List.pairwise_append.mp hs).1
    have hfail := sorted_dropWhile_not
      (p := fun u => decide (now - u ≤ maxWindow limits))
      (by
        intro x y hyx hx
        simp only [decide_eq_false_iff_not, Nat.not_le] at hx ⊢
        omega)
      hRsorted t (List.getElem?_mem hBt)
    simp only [decide_eq_false_iff_not, Nat.not_le] at hfail
    omega
  · rcases hinv.dropped pos t hpt (Nat.le_of_not_lt hR) with hl | hr
    · left
      omega
    · right
      exact hr

lemma agedRecent_append (limits : List RateLimit) (now : ℕ) (st : ThrottleState) :
    st.recent_event_times = agedRecent limits now st ++
      st.recent_event_times.dropWhile
        (fun u => decide (now - u ≤ maxWindow limits)) :=
  (List.takeWhile_append_dropWhile _ _).symm

lemma agedRecent_length_le (limits : List RateLimit) (now : ℕ)
    (st : ThrottleState) :
    (agedRecent limits now st).length ≤ st.recent_event_times.length :=
  (List.takeWhile_sublist _).length_le

/-- After a fire call at time `now`, any state whose buffer is the aged
buffer (and the unchanged history) re-establishes the invariant at `now`. -/
lemma inv_aged {limits : List RateLimit} {st : ThrottleState} {hist : List ℕ}
    {T now : ℕ} (hinv : ThrottleInv limits st hist T) (hT : T ≤ now)
    (st' : ThrottleState)
    (hst' : st'.recent_event_times = agedRecent limits now st) :
    ThrottleInv limits st' hist now := by
  obtain ⟨old, hold⟩ := hinv.buf_eq
  refine ⟨hinv.sorted, ?_, ?_, ?_, ?_, hinv.spacing⟩
  · intro t ht
    exact le_trans (hinv.bounded t ht) hT
  · rw [hst']
    exact le_trans (agedRecent_length_le limits now st) hinv.buf_len
  · refine ⟨st.recent_event_times.dropWhile
      (fun u => decide (now - u ≤ maxWindow limits)) ++ old, ?_⟩
    rw [hst', hold]
    rw [← List.append_assoc, ← agedRecent_append]
  · intro pos t hpt hpos
    rw [hst'] at hpos
    exact aged_dropped hinv hT pos t hpt hpos

/-- When no limit is violated, recording `now` (truncated to the last K
events) re-establishes the invariant for the extended history. -/
lemma inv_invoked {limits : List RateLimit} {st : ThrottleState}
    {hist : List ℕ} {T now : ℕ} (hcount : ∀ l ∈ limits, 1 ≤ l.count)
    (hinv : ThrottleInv limits st hist T) (hT : T ≤ now)
    (hstars : fireStars limits now (agedRecent limits now st) = []) :
    ThrottleInv limits
      { st with recent_event_times :=
          (now :: agedRecent limits now st).take (maxRecentEvents limits) }
      (now :: hist) now := by
  obtain ⟨old, hold⟩ := hinv.buf_eq
  have hAA := agedRecent_append limits now st
  have hhist : hist = agedRecent limits now st ++
      (st.recent_event_times.dropWhile
        (fun u => decide (now - u ≤ maxWindow limits)) ++ old) := by
    rw [hold]
    conv_lhs => rw [hAA]
    rw [List.append_assoc]
  have hstars' : ∀ x ∈ limits, retryStar x (agedRecent limits now st) now = none :=
    List.filterMap_eq_nil.mp (by simpa [fireStars] using hstars)
  refine ⟨?_, ?_, ?_, ?_, ?_, ?_⟩
  · exact List.pairwise_cons.mpr
      ⟨fun y hy => le_trans (hinv.bounded y hy) hT, hinv.sorted⟩
  · intro t ht
    rcases List.mem_cons.mp ht with rfl | hmem
    · exact le_refl _
    · exact le_trans (hinv.bounded t hmem) hT
  · simp only [List.length_take]
    exact Nat.min_le_left _ _
  · refine ⟨(now :: agedRecent limits now st).drop (maxRecentEvents limits) ++
      (st.recent_event_times.dropWhile
        (fun u => decide (now - u ≤ maxWindow limits)) ++ old), ?_⟩
    rw [← List.append_assoc, List.take_append_drop, List.cons_append,
      ← List.append_assoc, ← hAA, ← hold]
  · intro pos t hpt hpos
    simp only [List.length_take, List.length_cons] at hpos
    cases pos with
    | zero =>
      right
      omega
    | succ q =>
      have hq : hist[q]? = some t := by simpa using hpt
      by_cases hqA : q < (agedRecent limits now st).length
      · right
        omega
      · rcases aged_dropped hinv hT q t hq (Nat.le_of_not_lt hqA) with h1 | h2
        · left
          omega
        · right
          omega
  · intro l hl i t u hit hiu
    have hc := hcount l hl
    cases i with
    | zero =>
      have hu : now = u := by simpa using hiu
      obtain ⟨c', hc'⟩ : ∃ c', l.count = c' + 1 := ⟨l.count - 1, by omega⟩
      have hit' : hist[c']? = some t := by
        rw [hc'] at hit
        simpa using hit
      have htT : t ≤ T := hinv.bounded t (List.getElem?_mem hit')
      rw [← hu]
      by_cases hcle : l.count ≤ (agedRecent limits now st).length
      · have hnone := hstars' l hl
        rw [retryStar, if_pos hcle] at hnone
        have hAq : (agedRecent limits now st)[c']? = some t := by
          rw [hhist, List.getElem?_append, if_pos (by omega)] at hit'
          exact hit'
        have hgd : (agedRecent limits now st).getD (l.count - 1) 0 = t := by
          rw [List.getD_eq_getElem?_getD, hc']
          simp [hAq]
        rw [hgd] at hnone
        have hge : ¬ (now - t < l.window_size) := by
          by_contra hlt
          rw [if_pos hlt] at hnone
          exact (Option.some_ne_none _) hnone
        omega
      · rcases aged_dropped hinv hT c' t hit' (by omega) with h1 | h2
        · have hwW := window_le_maxWindow hl
          omega
        · have hcK := count_le_maxRecentEvents hl
          omega
    | succ j =>
      have hit' : hist[j + l.count]? = some t := by
        simpa [Nat.succ_add] using hit
      have hiu' : hist[j]? = some u := by simpa using hiu
      exact hinv.spacing l hl j t u hit' hiu'

/-- One Fire call at a time `now ≥ T` preserves the invariant, extending the
history exactly when the listener was invoked. -/
lemma fire_preserves_inv {limits : List RateLimit}
    (hcount : ∀ l ∈ limits, 1 ≤ l.count) {st : ThrottleState} {hist : List ℕ}
    {T now : ℕ} (hinv : ThrottleInv limits st hist T) (hT : T ≤ now) :
    ThrottleInv limits (Throttle.Fire limits now st).1
      (if (Throttle.Fire limits now st).2 then now :: hist else hist) now := by
  by_cases hstars : fireStars limits now (agedRecent limits now st) = []
  · have hfire : Throttle.Fire limits now st =
        ({ st with recent_event_times :=
            (now :: agedRecent limits now st).take (maxRecentEvents limits) },
          true) := by
      simp [Throttle.Fire, hstars]
    rw [hfire]
    simpa using inv_invoked hcount hinv hT hstars
  · have hfire2 : (Throttle.Fire limits now st).2 = false := by
      simp only [Throttle.Fire]
      rw [if_neg (by simpa [List.isEmpty_iff] using hstars)]
      split_ifs <;> rfl
    have hfire1 : (Throttle.Fire limits now st).1.recent_event_times =
        agedRecent limits now st := by
      simp only [Throttle.Fire]
      rw [if_neg (by simpa [List.isEmpty_iff] using hstars)]
      split_ifs <;> rfl
    rw [hfire2]
    simpa using inv_aged hinv hT _ hfire1

/-- Running a nondecreasing sequence of Fire calls from an invariant state
preserves the invariant, with the produced invocation times prepended to the
history. -/
lemma fireCalls_inv {limits : List RateLimit}
    (hcount : ∀ l ∈ limits, 1 ≤ l.count) :
    ∀ (calls : List ℕ) {st : ThrottleState} {hist : List ℕ} {T : ℕ},
      calls.Pairwise (fun x y => x ≤ y) → (∀ u ∈ calls, T ≤ u) →
      ThrottleInv limits st hist T →
      ∃ T', ThrottleInv limits (fireCalls limits calls st).1
        ((fireCalls limits calls st).2 ++ hist) T' := by
  intro calls
  induction calls with
  | nil =>
    intro st hist T _ _ hinv
    exact ⟨T, by simpa [fireCalls] using hinv⟩
  | cons t ts ih =>
    intro st hist T hsort hge hinv
    have h1 := fire_preserves_inv hcount hinv (hge t (List.mem_cons_self t ts))
    have hsort' := (List.pairwise_cons.mp hsort).2
    have hge' : ∀ u ∈ ts, t ≤ u := (List.pairwise_cons.mp hsort).1
    obtain ⟨T', hT'⟩ := ih hsort' hge' h1
    refine ⟨T', ?_⟩
    simp only [fireCalls]
    cases hfired : (Throttle.Fire limits t st).2 with
    | true =>
      rw [hfired] at hT'
      simpa [List.append_assoc] using hT'
    | false =>
      rw [hfired] at hT'
      simpa using hT'

lemma sorted_getElem_le {l : List ℕ} (hs : l.Pairwise (fun x y => y ≤ x))
    {i j u t : ℕ} (hij : i ≤ j) (hu : l[i]? = some u) (ht : l[j]? = some t) :
    t ≤ u := by
  obtain ⟨hi, hui⟩ := List.getElem?_eq_some.mp hu
  obtain ⟨hj, htj⟩ := List.getElem?_eq_some.mp ht
  rcases Nat.eq_or_lt_of_le hij with rfl | hlt
  · omega
  · have := List.pairwise_iff_getElem.mp hs i j hi hj hlt
    omega

/-- Half-open-window counting bound: a newest-first sorted invocation list
whose every c-apart pair is at least w apart has at most c elements in any
window [a, a + w). -/
lemma window_count_le {w c : ℕ} :
    ∀ {l : List ℕ}, l.Pairwise (fun x y => y ≤ x) →
      (∀ i t u, l[i + c]? = some t → l[i]? = some u → t + w ≤ u) →
      ∀ a, l.countP (fun t => decide (a ≤ t ∧ t < a + w)) ≤ c := by
  intro l
  induction l with
  | nil =>
    intro _ _ a
    simp
  | cons x xs ih =>
    intro hs hsp a
    have hs' := (List.pairwise_cons.mp hs).2
    have hsp' : ∀ i t u, xs[i + c]? = some t → xs[i]? = some u → t + w ≤ u := by
      intro i t u hit hiu
      refine hsp (i + 1) t u ?_ (by simpa using hiu)
      have : i + 1 + c = (i + c) + 1 := by omega
      rw [this]
      simpa using hit
    rw [List.countP_cons]
    by_cases hx : a ≤ x ∧ x < a + w
    · have hxd : (decide (a ≤ x ∧ x < a + w)) = true := by simp [hx]
      rw [hxd]
      simp only [eq_self_iff_true, if_true]
      cases hc : c with
      | zero =>
        exfalso
        have := hsp 0 x x (by simp [hc]) (by simp)
        omega
      | succ c' =>
        have hcount : xs.countP (fun t => decide (a ≤ t ∧ t < a + w)) ≤ c' := by
          by_cases hlen : c' < xs.length
          · have hv : xs[c']? = some (xs.get ⟨c', hlen⟩) := by
              rw [List.getElem?_eq_getElem hlen]
              rfl
            have hvx : xs.get ⟨c', hlen⟩ + w ≤ x := by
              refine hsp 0 _ x ?_ (by simp)
              rw [hc]
              simpa using hv
            have hdropfail : ∀ t ∈ xs.drop c', ¬ (a ≤ t ∧ t < a + w) := by
              intro t ht
              obtain ⟨k, hk⟩ := List.getElem?_of_mem ht
              rw [List.getElem?_drop] at hk
              have htv : t ≤ xs.get ⟨c', hlen⟩ :=
                sorted_getElem_le hs' (Nat.le_add_right c' k) hv hk
              omega
            have hsplit2 := List.take_append_drop c' xs
            calc xs.countP (fun t => decide (a ≤ t ∧ t < a + w))
                = (xs.take c' ++ xs.drop c').countP
                    (fun t => decide (a ≤ t ∧ t < a + w)) := by rw [hsplit2]
              _ = (xs.take c').countP (fun t => decide (a ≤ t ∧ t < a + w)) +
                  (xs.drop c').countP (fun t => decide (a ≤ t ∧ t < a + w)) :=
                    List.countP_append _ _ _
              _ ≤ (xs.take c').length + 0 := by
                  refine Nat.add_le_add (List.countP_le_length _) ?_
                  rw [Nat.le_zero, List.countP_eq_zero]
                  intro t ht
                  simpa using hdropfail t ht
              _ ≤ c' := by
                  simp [List.length_take]
          · refine le_trans (List.countP_le_length _) ?_
            omega
        omega
    · have hxd : (decide (a ≤ x ∧ x < a + w)) = false := by simp [hx]
      rw [hxd]
      simpa using ih hs' hsp' a

lemma throttleInv_initial (limits : List RateLimit) (b : Bool) (r : ℕ) :
    ThrottleInv limits ⟨[], b, r⟩ [] 0 := by
  refine ⟨List.Pairwise.nil, ?_, ?_, ⟨[], rfl⟩, ?_, ?_⟩
  · intro t ht
    simp at ht
  · simp
  · intro pos t h
    simp at h
  · intro l hl i t u h
    simp at h

/-- Across every run of Fire calls at nondecreasing times from the freshly
constructed throttle, every half-open window [a, a + w_i) contains at most
c_i listener invocations. -/
lemma throttle_window_property (limits : List RateLimit)
    (hcount : ∀ l ∈ limits, 1 ≤ l.count) (calls : List ℕ)
    (hsort : calls.Pairwise (fun x y => x ≤ y)) (b : Bool) (r : ℕ) :
    ∀ l ∈ limits, ∀ a : ℕ,
      ((fireCalls limits calls ⟨[], b, r⟩).2).countP
        (fun t => decide (a ≤ t ∧ t < a + l.window_size)) ≤ l.count := by
  obtain ⟨T', hT'⟩ := fireCalls_inv hcount calls hsort
    (fun u _ => Nat.zero_le u) (throttleInv_initial limits b r)
  intro l hl a
  have hsorted := hT'.sorted
  have hspacing := hT'.spacing l hl
  rw [List.append_nil] at hsorted
  refine window_count_le hsorted ?_ a
  intro i t u hit hiu
  refine hspacing i t u ?_ ?_
  · rw [List.append_nil]
    exact hit
  · rw [List.append_nil]
    exact hiu

/-- A Fire call that arrives while the deferred-retry timer is armed and
some limit is still violated is dropped: no listener invocation, no second
timer, the buffer only aged (spec §4.3 step 4: "else drop — no queueing of
excess fires"). -/
lemma fire_dropped {limits : List RateLimit} {now : ℕ} {st : ThrottleState}
    (htimer : st.timer_scheduled = true)
    (hstars : fireStars limits now (agedRecent limits now st) ≠ []) :
    Throttle.Fire limits now st =
      ({ st with recent_event_times := agedRecent limits now st }, false) := by
  simp only [Throttle.Fire]
  rw [if_neg (by simpa [List.isEmpty_iff] using hstars), if_pos htimer]

/-- The rate limits of ThrottleTest (throttle_test.cc:65-66, 175-179): one
message per second and six per minute, in milliseconds. -/
def testRateLimits : List RateLimit := [⟨1000, 1⟩, ⟨60000, 6⟩]

/-- The state of the ThrottlingStorm scenario (throttle_test.cc:170-201):
the DeterministicScheduler clock, the throttle state, and the bookkeeping of
IncrementAndCheckRateLimits — the call count, the time of the last listener
invocation, and whether every invocation so far came at least one second
after the previous one (the test's first assertion). -/
structure StormState where
  time : ℕ
  thr : ThrottleState
  count : ℕ
  last_inv : ℕ
  gap_ok : Bool
deriving Repr, DecidableEq

/-- Listener bookkeeping of IncrementAndCheckRateLimits
(throttle_test.cc:34-47) for an invocation at time t. -/
def recordInv (t : ℕ) (s : StormState) (thr : ThrottleState) : StormState :=
  ⟨t, thr, s.count + 1, t,
    s.gap_ok && (s.count = 0 || decide (s.last_inv + 1000 ≤ t))⟩

/-- One iteration of the storm loop (throttle_test.cc:191-195): Fire() at
the current time, ModifyTime(10 ms), then RunReadyTasks() — which runs the
armed RetryFire exactly when its scheduled time has been reached (the
throttle re-arms only at strictly future instants, so at most one retry is
due per iteration). -/
def stormStep (s : StormState) : StormState :=
  let fr := Throttle.Fire testRateLimits s.time s.thr
  let s1 := if fr.2 then recordInv s.time s fr.1 else { s with thr := fr.1 }
  let t := s1.time + 10
  let s2 := { s1 with time := t }
  if s2.thr.timer_scheduled && decide (s2.thr.retry_time ≤ t) then
    let rr := Throttle.RetryFire testRateLimits t s2.thr
    if rr.2 then recordInv t s2 rr.1 else { s2 with thr := rr.1 }
  else s2

/-- n iterations of the storm loop. -/
def stormRun : ℕ → StormState → StormState
  | 0, s => s
  | n + 1, s => stormRun n (stormStep s)

/-- The scenario's start: clock zero, a freshly constructed throttle, no
calls yet. -/
def stormInit : StormState := ⟨0, ⟨[], false, 0⟩, 0, 0, true⟩

lemma stormRun_add (m n : ℕ) : ∀ s, stormRun (m + n) s = stormRun n (stormRun m s) := by
  induction m with
  | zero =>
    intro s
    rw [Nat.zero_add]
    rfl
  | succ m ih =>
    intro s
    rw [Nat.succ_add]
    show stormRun (m + n) (stormStep s) = _
    rw [ih (stormStep s)]
    rfl

lemma storm_comp {m n k : ℕ} (hk : m + n = k) {s t u : StormState}
    (h1 : stormRun m s = t) (h2 : stormRun n t = u) : stormRun k s = u := by
  rw [← hk, stormRun_add m n s, h1, h2]

set_option maxRecDepth 100000 in
/-- The storm scenario advances in 50-iteration segments; each segment's
state transition is checked by kernel computation (the segments keep the
evaluation depth bounded). -/
lemma storm_seg_0 : stormRun 50 stormInit = ⟨500, ⟨[0], true, 1000⟩, 1, 0, true⟩ := by
  decide

set_option maxRecDepth 100000 in
lemma storm_seg_1 : stormRun 50 ⟨500, ⟨[0], true, 1000⟩, 1, 0, true⟩ =
    ⟨1000, ⟨[1000, 0], false, 1000⟩, 2, 1000, true⟩ := by
  decide

set_option maxRecDepth 100000 in
lemma storm_seg_2 : stormRun 50 ⟨1000, ⟨[1000, 0], false, 1000⟩, 2, 1000, true⟩ =
    ⟨1500, ⟨[1000, 0], true, 2000⟩, 2, 1000, true⟩ := by
  decide

set_option maxRecDepth 100000 in
lemma storm_seg_3 : stormRun 50 ⟨1500, ⟨[1000, 0], true, 2000⟩, 2, 1000, true⟩ =
    ⟨2000, ⟨[2000, 1000, 0], false, 2000⟩, 3, 2000, true⟩ := by
  decide

set_option maxRecDepth 100000 in
lemma storm_seg_4 : stormRun 50 ⟨2000, ⟨[2000, 1000, 0], false, 2000⟩, 3, 2000, true⟩ =
    ⟨2500, ⟨[2000, 1000, 0], true, 3000⟩, 3, 2000, true⟩ := by
  decide

set_option maxRecDepth 100000 in
lemma storm_seg_5 : stormRun 50 ⟨2500, ⟨[2000, 1000, 0], true, 3000⟩, 3, 2000, true⟩ =
    ⟨3000, ⟨[3000, 2000, 1000, 0], false, 3000⟩, 4, 3000, true⟩ := by
  decide

set_option maxRecDepth 100000 in
lemma storm_seg_6 : stormRun 50 ⟨3000, ⟨[3000, 2000, 1000, 0], false, 3000⟩, 4, 3000, true⟩ =
    ⟨3500, ⟨[3000, 2000, 1000, 0], true, 4000⟩, 4, 3000, true⟩ := by
  decide

set_option maxRecDepth 100000 in
lemma storm_seg_7 : stormRun 50 ⟨3500, ⟨[3000, 2000, 1000, 0], true, 4000⟩, 4, 3000, true⟩ =
    ⟨4000, ⟨[4000, 3000, 2000, 1000, 0], false, 4000⟩, 5, 4000, true⟩ := by
  decide

set_option maxRecDepth 100000 in
lemma storm_seg_8 : stormRun 50 ⟨4000, ⟨[4000, 3000, 2000, 1000, 0], false, 4000⟩, 5, 4000, true⟩ =
    ⟨4500, ⟨[4000, 3000, 2000, 1000, 0], true, 5000⟩, 5, 4000, true⟩ := by
  decide

set_option maxRecDepth 100000 in
lemma storm_seg_9 : stormRun 50 ⟨4500, ⟨[4000, 3000, 2000, 1000, 0], true, 5000⟩, 5, 4000, true⟩ =
    ⟨5000, ⟨[5000, 4000, 3000, 2000, 1000, 0], false, 5000⟩, 6, 5000, true⟩ := by
  decide

set_option maxRecDepth 100000 in
lemma storm_seg_10 : stormRun 50 ⟨5000, ⟨[5000, 4000, 3000, 2000, 1000, 0], false, 5000⟩, 6, 5000, true⟩ =
    ⟨5500, ⟨[5000, 4000, 3000, 2000, 1000, 0], true, 60000⟩, 6, 5000, true⟩ := by
  decide

set_option maxRecDepth 100000 in
lemma storm_seg_11 : stormRun 50 ⟨5500, ⟨[5000, 4000, 3000, 2000, 1000, 0], true, 60000⟩, 6, 5000, true⟩ =
    ⟨6000, ⟨[5000, 4000, 3000, 2000, 1000, 0], true, 60000⟩, 6, 5000, true⟩ := by
  decide

set_option maxRecDepth 100000 in
lemma storm_seg_12 : stormRun 50 ⟨6000, ⟨[5000, 4000, 3000, 2000, 1000, 0], true, 60000⟩, 6, 5000, true⟩ =
    ⟨6500, ⟨[5000, 4000, 3000, 2000, 1000, 0], true, 60000⟩, 6, 5000, true⟩ := by
  decide

set_option maxRecDepth 100000 in
lemma storm_seg_13 : stormRun 50 ⟨6500, ⟨[5000, 4000, 3000, 2000, 1000, 0], true, 60000⟩, 6, 5000, true⟩ =
    ⟨7000, ⟨[5000, 4000, 3000, 2000, 1000, 0], true, 60000⟩, 6, 5000, true⟩ := by
  decide

set_option maxRecDepth 100000 in
lemma storm_seg_14 : stormRun 50 ⟨7000, ⟨[5000, 4000, 3000, 2000, 1000, 0], true, 60000⟩, 6, 5000, true⟩ =
    ⟨7500, ⟨[5000, 4000, 3000, 2000, 1000, 0], true, 60000⟩, 6, 5000, true⟩ := by
  decide

set_option maxRecDepth 100000 in
lemma storm_seg_15 : stormRun 50 ⟨7500, ⟨[5000, 4000, 3000, 2000, 1000, 0], true, 60000⟩, 6, 5000, true⟩ =
    ⟨8000, ⟨[5000, 4000, 3000, 2000, 1000, 0], true, 60000⟩, 6, 5000, true⟩ := by
  decide

set_option maxRecDepth 100000 in
lemma storm_seg_16 : stormRun 50 ⟨8000, ⟨[5000, 4000, 3000, 2000, 1000, 0], true, 60000⟩, 6, 5000, true⟩ =
    ⟨8500, ⟨[5000, 4000, 3000, 2000, 1000, 0], true, 60000⟩, 6, 5000, true⟩ := by
  decide

set_option maxRecDepth 100000 in
lemma storm_seg_17 : stormRun 50 ⟨8500, ⟨[5000, 4000, 3000, 2000, 1000, 0], true, 60000⟩, 6, 5000, true⟩ =
    ⟨9000, ⟨[5000, 4000, 3000, 2000, 1000, 0], true, 60000⟩, 6, 5000, true⟩ := by
  decide

set_option maxRecDepth 100000 in
lemma storm_seg_18 : stormRun 50 ⟨9000, ⟨[5000, 4000, 3000, 2000, 1000, 0], true, 60000⟩, 6, 5000, true⟩ =
    ⟨9500, ⟨[5000, 4000, 3000, 2000, 1000, 0], true, 60000⟩, 6, 5000, true⟩ := by
  decide

set_option maxRecDepth 100000 in
lemma storm_seg_19 : stormRun 50 ⟨9500, ⟨[5000, 4000, 3000, 2000, 1000, 0], true, 60000⟩, 6, 5000, true⟩ =
    ⟨10000, ⟨[5000, 4000, 3000, 2000, 1000, 0], true, 60000⟩, 6, 5000, true⟩ := by
  decide

set_option maxRecDepth 100000 in
lemma storm_seg_20 : stormRun 50 ⟨10000, ⟨[5000, 4000, 3000, 2000, 1000, 0], true, 60000⟩, 6, 5000, true⟩ =
    ⟨10500, ⟨[5000, 4000, 3000, 2000, 1000, 0], true, 60000⟩, 6, 5000, true⟩ := by
  decide

set_option maxRecDepth 100000 in
lemma storm_seg_21 : stormRun 50 ⟨10500, ⟨[5000, 4000, 3000, 2000, 1000, 0], true, 60000⟩, 6, 5000, true⟩ =
    ⟨11000, ⟨[5000, 4000, 3000, 2000, 1000, 0], true, 60000⟩, 6, 5000, true⟩ := by
  decide

set_option maxRecDepth 100000 in
lemma storm_seg_22 : stormRun 50 ⟨11000, ⟨[5000, 4000, 3000, 2000, 1000, 0], true, 60000⟩, 6, 5000, true⟩ =
    ⟨11500, ⟨[5000, 4000, 3000, 2000, 1000, 0], true, 60000⟩, 6, 5000, true⟩ := by
  decide

set_option maxRecDepth 100000 in
lemma storm_seg_23 : stormRun 50 ⟨11500, ⟨[5000, 4000, 3000, 2000, 1000, 0], true, 60000⟩, 6, 5000, true⟩ =
    ⟨12000, ⟨[5000, 4000, 3000, 2000, 1000, 0], true, 60000⟩, 6, 5000, true⟩ := by
  decide

set_option maxRecDepth 100000 in
lemma storm_seg_24 : stormRun 50 ⟨12000, ⟨[5000, 4000, 3000, 2000, 1000, 0], true, 60000⟩, 6, 5000, true⟩ =
    ⟨12500, ⟨[5000, 4000, 3000, 2000, 1000, 0], true, 60000⟩, 6, 5000, true⟩ := by
  decide

set_option maxRecDepth 100000 in
lemma storm_seg_25 : stormRun 50 ⟨12500, ⟨[5000, 4000, 3000, 2000, 1000, 0], true, 60000⟩, 6, 5000, true⟩ =
    ⟨13000, ⟨[5000, 4000, 3000, 2000, 1000, 0], true, 60000⟩, 6, 5000, true⟩ := by
  decide

set_option maxRecDepth 100000 in
lemma storm_seg_26 : stormRun 50 ⟨13000, ⟨[5000, 4000, 3000, 2000, 1000, 0], true, 60000⟩, 6, 5000, true⟩ =
    ⟨13500, ⟨[5000, 4000, 3000, 2000, 1000, 0], true, 60000⟩, 6, 5000, true⟩ := by
  decide

set_option maxRecDepth 100000 in
lemma storm_seg_27 : stormRun 50 ⟨13500, ⟨[5000, 4000, 3000, 2000, 1000, 0], true, 60000⟩, 6, 5000, true⟩ =
    ⟨14000, ⟨[5000, 4000, 3000, 2000, 1000, 0], true, 60000⟩, 6, 5000, true⟩ := by
  decide

set_option maxRecDepth 100000 in
lemma storm_seg_28 : stormRun 50 ⟨14000, ⟨[5000, 4000, 3000, 2000, 1000, 0], true, 60000⟩, 6, 5000, true⟩ =
    ⟨14500, ⟨[5000, 4000, 3000, 2000, 1000, 0], true, 60000⟩, 6, 5000, true⟩ := by
  decide

set_option maxRecDepth 100000 in
lemma storm_seg_29 : stormRun 50 ⟨14500, ⟨[5000, 4000, 3000, 2000, 1000, 0], true, 60000⟩, 6, 5000, true⟩ =
    ⟨15000, ⟨[5000, 4000, 3000, 2000, 1000, 0], true, 60000⟩, 6, 5000, true⟩ := by
  decide

set_option maxRecDepth 100000 in
lemma storm_seg_30 : stormRun 50 ⟨15000, ⟨[5000, 4000, 3000, 2000, 1000, 0], true, 60000⟩, 6, 5000, true⟩ =
    ⟨15500, ⟨[5000, 4000, 3000, 2000, 1000, 0], true, 60000⟩, 6, 5000, true⟩ := by
  decide

set_option maxRecDepth 100000 in
lemma storm_seg_31 : stormRun 50 ⟨15500, ⟨[5000, 4000, 3000, 2000, 1000, 0], true, 60000⟩, 6, 5000, true⟩ =
    ⟨16000, ⟨[5000, 4000, 3000, 2000, 1000, 0], true, 60000⟩, 6, 5000, true⟩ := by
  decide

set_option maxRecDepth 100000 in
lemma storm_seg_32 : stormRun 50 ⟨16000, ⟨[5000, 4000, 3000, 2000, 1000, 0], true, 60000⟩, 6, 5000, true⟩ =
    ⟨16500, ⟨[5000, 4000, 3000, 2000, 1000, 0], true, 60000⟩, 6, 5000, true⟩ := by
  decide

set_option maxRecDepth 100000 in
lemma storm_seg_33 : stormRun 50 ⟨16500, ⟨[5000, 4000, 3000, 2000, 1000, 0], true, 60000⟩, 6, 5000, true⟩ =
    ⟨17000, ⟨[5000, 4000, 3000, 2000, 1000, 0], true, 60000⟩, 6, 5000, true⟩ := by
  decide

set_option maxRecDepth 100000 in
lemma storm_seg_34 : stormRun 50 ⟨17000, ⟨[5000, 4000, 3000, 2000, 1000, 0], true, 60000⟩, 6, 5000, true⟩ =
    ⟨17500, ⟨[5000, 4000, 3000, 2000, 1000, 0], true, 60000⟩, 6, 5000, true⟩ := by
  decide

set_option maxRecDepth 100000 in
lemma storm_seg_35 : stormRun 50 ⟨17500, ⟨[5000, 4000, 3000, 2000, 1000, 0], true, 60000⟩, 6, 5000, true⟩ =
    ⟨18000, ⟨[5000, 4000, 3000, 2000, 1000, 0], true, 60000⟩, 6, 5000, true⟩ := by
  decide

set_option maxRecDepth 100000 in
lemma storm_seg_36 : stormRun 50 ⟨18000, ⟨[5000, 4000, 3000, 2000, 1000, 0], true, 60000⟩, 6, 5000, true⟩ =
    ⟨18500, ⟨[5000, 4000, 3000, 2000, 1000, 0], true, 60000⟩, 6, 5000, true⟩ := by
  decide

set_option maxRecDepth 100000 in
lemma storm_seg_37 : stormRun 50 ⟨18500, ⟨[5000, 4000, 3000, 2000, 1000, 0], true, 60000⟩, 6, 5000, true⟩ =
    ⟨19000, ⟨[5000, 4000, 3000, 2000, 1000, 0], true, 60000⟩, 6, 5000, true⟩ := by
  decide

set_option maxRecDepth 100000 in
lemma storm_seg_38 : stormRun 50 ⟨19000, ⟨[5000, 4000, 3000, 2000, 1000, 0], true, 60000⟩, 6, 5000, true⟩ =
    ⟨19500, ⟨[5000, 4000, 3000, 2000, 1000, 0], true, 60000⟩, 6, 5000, true⟩ := by
  decide

set_option maxRecDepth 100000 in
lemma storm_seg_39 : stormRun 50 ⟨19500, ⟨[5000, 4000, 3000, 2000, 1000, 0], true, 60000⟩, 6, 5000, true⟩ =
    ⟨20000, ⟨[5000, 4000, 3000, 2000, 1000, 0], true, 60000⟩, 6, 5000, true⟩ := by
  decide

set_option maxRecDepth 100000 in
lemma storm_seg_40 : stormRun 50 ⟨20000, ⟨[5000, 4000, 3000, 2000, 1000, 0], true, 60000⟩, 6, 5000, true⟩ =
    ⟨20500, ⟨[5000, 4000, 3000, 2000, 1000, 0], true, 60000⟩, 6, 5000, true⟩ := by
  decide

set_option maxRecDepth 100000 in
lemma storm_seg_41 : stormRun 50 ⟨20500, ⟨[5000, 4000, 3000, 2000, 1000, 0], true, 60000⟩, 6, 5000, true⟩ =
    ⟨21000, ⟨[5000, 4000, 3000, 2000, 1000, 0], true, 60000⟩, 6, 5000, true⟩ := by
  decide

set_option maxRecDepth 100000 in
lemma storm_seg_42 : stormRun 50 ⟨21000, ⟨[5000, 4000, 3000, 2000, 1000, 0], true, 60000⟩, 6, 5000, true⟩ =
    ⟨21500, ⟨[5000, 4000, 3000, 2000, 1000, 0], true, 60000⟩, 6, 5000, true⟩ := by
  decide

set_option maxRecDepth 100000 in
lemma storm_seg_43 : stormRun 50 ⟨21500, ⟨[5000, 4000, 3000, 2000, 1000, 0], true, 60000⟩, 6, 5000, true⟩ =
    ⟨22000, ⟨[5000, 4000, 3000, 2000, 1000, 0], true, 60000⟩, 6, 5000, true⟩ := by
  decide

set_option maxRecDepth 100000 in
lemma storm_seg_44 : stormRun 50 ⟨22000, ⟨[5000, 4000, 3000, 2000, 1000, 0], true, 60000⟩, 6, 5000, true⟩ =
    ⟨22500, ⟨[5000, 4000, 3000, 2000, 1000, 0], true, 60000⟩, 6, 5000, true⟩ := by
  decide

set_option maxRecDepth 100000 in
lemma storm_seg_45 : stormRun 50 ⟨22500, ⟨[5000, 4000, 3000, 2000, 1000, 0], true, 60000⟩, 6, 5000, true⟩ =
    ⟨23000, ⟨[5000, 4000, 3000, 2000, 1000, 0], true, 60000⟩, 6, 5000, true⟩ := by
  decide

set_option maxRecDepth 100000 in
lemma storm_seg_46 : stormRun 50 ⟨23000, ⟨[5000, 4000, 3000, 2000, 1000, 0], true, 60000⟩, 6, 5000, true⟩ =
    ⟨23500, ⟨[5000, 4000, 3000, 2000, 1000, 0], true, 60000⟩, 6, 5000, true⟩ := by
  decide

set_option maxRecDepth 100000 in
lemma storm_seg_47 : stormRun 50 ⟨23500, ⟨[5000, 4000, 3000, 2000, 1000, 0], true, 60000⟩, 6, 5000, true⟩ =
    ⟨24000, ⟨[5000, 4000, 3000, 2000, 1000, 0], true, 60000⟩, 6, 5000, true⟩ := by
  decide

set_option maxRecDepth 100000 in
lemma storm_seg_48 : stormRun 50 ⟨24000, ⟨[5000, 4000, 3000, 2000, 1000, 0], true, 60000⟩, 6, 5000, true⟩ =
    ⟨24500, ⟨[5000, 4000, 3000, 2000, 1000, 0], true, 60000⟩, 6, 5000, true⟩ := by
  decide

set_option maxRecDepth 100000 in
lemma storm_seg_49 : stormRun 50 ⟨24500, ⟨[5000, 4000, 3000, 2000, 1000, 0], true, 60000⟩, 6, 5000, true⟩ =
    ⟨25000, ⟨[5000, 4000, 3000, 2000, 1000, 0], true, 60000⟩, 6, 5000, true⟩ := by
  decide

set_option maxRecDepth 100000 in
lemma storm_seg_50 : stormRun 50 ⟨25000, ⟨[5000, 4000, 3000, 2000, 1000, 0], true, 60000⟩, 6, 5000, true⟩ =
    ⟨25500, ⟨[5000, 4000, 3000, 2000, 1000, 0], true, 60000⟩, 6, 5000, true⟩ := by
  decide

set_option maxRecDepth 100000 in
lemma storm_seg_51 : stormRun 50 ⟨25500, ⟨[5000, 4000, 3000, 2000, 1000, 0], true, 60000⟩, 6, 5000, true⟩ =
    ⟨26000, ⟨[5000, 4000, 3000, 2000, 1000, 0], true, 60000⟩, 6, 5000, true⟩ := by
  decide

set_option maxRecDepth 100000 in
lemma storm_seg_52 : stormRun 50 ⟨26000, ⟨[5000, 4000, 3000, 2000, 1000, 0], true, 60000⟩, 6, 5000, true⟩ =
    ⟨26500, ⟨[5000, 4000, 3000, 2000, 1000, 0], true, 60000⟩, 6, 5000, true⟩ := by
  decide

set_option maxRecDepth 100000 in
lemma storm_seg_53 : stormRun 50 ⟨26500, ⟨[5000, 4000, 3000, 2000, 1000, 0], true, 60000⟩, 6, 5000, true⟩ =
    ⟨27000, ⟨[5000, 4000, 3000, 2000, 1000, 0], true, 60000⟩, 6, 5000, true⟩ := by
  decide

set_option maxRecDepth 100000 in
lemma storm_seg_54 : stormRun 50 ⟨27000, ⟨[5000, 4000, 3000, 2000, 1000, 0], true, 60000⟩, 6, 5000, true⟩ =
    ⟨27500, ⟨[5000, 4000, 3000, 2000, 1000, 0], true, 60000⟩, 6, 5000, true⟩ := by
  decide

set_option maxRecDepth 100000 in
lemma storm_seg_55 : stormRun 50 ⟨27500, ⟨[5000, 4000, 3000, 2000, 1000, 0], true, 60000⟩, 6, 5000, true⟩ =
    ⟨28000, ⟨[5000, 4000, 3000, 2000, 1000, 0], true, 60000⟩, 6, 5000, true⟩ := by
  decide

set_option maxRecDepth 100000 in
lemma storm_seg_56 : stormRun 50 ⟨28000, ⟨[5000, 4000, 3000, 2000, 1000, 0], true, 60000⟩, 6, 5000, true⟩ =
    ⟨28500, ⟨[5000, 4000, 3000, 2000, 1000, 0], true, 60000⟩, 6, 5000, true⟩ := by
  decide

set_option maxRecDepth 100000 in
lemma storm_seg_57 : stormRun 50 ⟨28500, ⟨[5000, 4000, 3000, 2000, 1000, 0], true, 60000⟩, 6, 5000, true⟩ =
    ⟨29000, ⟨[5000, 4000, 3000, 2000, 1000, 0], true, 60000⟩, 6, 5000, true⟩ := by
  decide

set_option maxRecDepth 100000 in
lemma storm_seg_58 : stormRun 50 ⟨29000, ⟨[5000, 4000, 3000, 2000, 1000, 0], true, 60000⟩, 6, 5000, true⟩ =
    ⟨29500, ⟨[5000, 4000, 3000, 2000, 1000, 0], true, 60000⟩, 6, 5000, true⟩ := by
  decide

set_option maxRecDepth 100000 in
lemma storm_seg_59 : stormRun 50 ⟨29500, ⟨[5000, 4000, 3000, 2000, 1000, 0], true, 60000⟩, 6, 5000, true⟩ =
    ⟨30000, ⟨[5000, 4000, 3000, 2000, 1000, 0], true, 60000⟩, 6, 5000, true⟩ := by
  decide

set_option maxRecDepth 100000 in
lemma storm_seg_60 : stormRun 50 ⟨30000, ⟨[5000, 4000, 3000, 2000, 1000, 0], true, 60000⟩, 6, 5000, true⟩ =
    ⟨30500, ⟨[5000, 4000, 3000, 2000, 1000, 0], true, 60000⟩, 6, 5000, true⟩ := by
  decide

set_option maxRecDepth 100000 in
lemma storm_seg_61 : stormRun 50 ⟨30500, ⟨[5000, 4000, 3000, 2000, 1000, 0], true, 60000⟩, 6, 5000, true⟩ =
    ⟨31000, ⟨[5000, 4000, 3000, 2000, 1000, 0], true, 60000⟩, 6, 5000, true⟩ := by
  decide

set_option maxRecDepth 100000 in
lemma storm_seg_62 : stormRun 50 ⟨31000, ⟨[5000, 4000, 3000, 2000, 1000, 0], true, 60000⟩, 6, 5000, true⟩ =
    ⟨31500, ⟨[5000, 4000, 3000, 2000, 1000, 0], true, 60000⟩, 6, 5000, true⟩ := by
  decide

set_option maxRecDepth 100000 in
lemma storm_seg_63 : stormRun 50 ⟨31500, ⟨[5000, 4000, 3000, 2000, 1000, 0], true, 60000⟩, 6, 5000, true⟩ =
    ⟨32000, ⟨[5000, 4000, 3000, 2000, 1000, 0], true, 60000⟩, 6, 5000, true⟩ := by
  decide

set_option maxRecDepth 100000 in
lemma storm_seg_64 : stormRun 50 ⟨32000, ⟨[5000, 4000, 3000, 2000, 1000, 0], true, 60000⟩, 6, 5000, true⟩ =
    ⟨32500, ⟨[5000, 4000, 3000, 2000, 1000, 0], true, 60000⟩, 6, 5000, true⟩ := by
  decide

set_option maxRecDepth 100000 in
lemma storm_seg_65 : stormRun 50 ⟨32500, ⟨[5000, 4000, 3000, 2000, 1000, 0], true, 60000⟩, 6, 5000, true⟩ =
    ⟨33000, ⟨[5000, 4000, 3000, 2000, 1000, 0], true, 60000⟩, 6, 5000, true⟩ := by
  decide

set_option maxRecDepth 100000 in
lemma storm_seg_66 : stormRun 50 ⟨33000, ⟨[5000, 4000, 3000, 2000, 1000, 0], true, 60000⟩, 6, 5000, true⟩ =
    ⟨33500, ⟨[5000, 4000, 3000, 2000, 1000, 0], true, 60000⟩, 6, 5000, true⟩ := by
  decide

set_option maxRecDepth 100000 in
lemma storm_seg_67 : stormRun 50 ⟨33500, ⟨[5000, 4000, 3000, 2000, 1000, 0], true, 60000⟩, 6, 5000, true⟩ =
    ⟨34000, ⟨[5000, 4000, 3000, 2000, 1000, 0], true, 60000⟩, 6, 5000, true⟩ := by
  decide

set_option maxRecDepth 100000 in
lemma storm_seg_68 : stormRun 50 ⟨34000, ⟨[5000, 4000, 3000, 2000, 1000, 0], true, 60000⟩, 6, 5000, true⟩ =
    ⟨34500, ⟨[5000, 4000, 3000, 2000, 1000, 0], true, 60000⟩, 6, 5000, true⟩ := by
  decide

set_option maxRecDepth 100000 in
lemma storm_seg_69 : stormRun 50 ⟨34500, ⟨[5000, 4000, 3000, 2000, 1000, 0], true, 60000⟩, 6, 5000, true⟩ =
    ⟨35000, ⟨[5000, 4000, 3000, 2000, 1000, 0], true, 60000⟩, 6, 5000, true⟩ := by
  decide

set_option maxRecDepth 100000 in
lemma storm_seg_70 : stormRun 50 ⟨35000, ⟨[5000, 4000, 3000, 2000, 1000, 0], true, 60000⟩, 6, 5000, true⟩ =
    ⟨35500, ⟨[5000, 4000, 3000, 2000, 1000, 0], true, 60000⟩, 6, 5000, true⟩ := by
  decide

set_option maxRecDepth 100000 in
lemma storm_seg_71 : stormRun 50 ⟨35500, ⟨[5000, 4000, 3000, 2000, 1000, 0], true, 60000⟩, 6, 5000, true⟩ =
    ⟨36000, ⟨[5000, 4000, 3000, 2000, 1000, 0], true, 60000⟩, 6, 5000, true⟩ := by
  decide

set_option maxRecDepth 100000 in
lemma storm_seg_72 : stormRun 50 ⟨36000, ⟨[5000, 4000, 3000, 2000, 1000, 0], true, 60000⟩, 6, 5000, true⟩ =
    ⟨36500, ⟨[5000, 4000, 3000, 2000, 1000, 0], true, 60000⟩, 6, 5000, true⟩ := by
  decide

set_option maxRecDepth 100000 in
lemma storm_seg_73 : stormRun 50 ⟨36500, ⟨[5000, 4000, 3000, 2000, 1000, 0], true, 60000⟩, 6, 5000, true⟩ =
    ⟨37000, ⟨[5000, 4000, 3000, 2000, 1000, 0], true, 60000⟩, 6, 5000, true⟩ := by
  decide

set_option maxRecDepth 100000 in
lemma storm_seg_74 : stormRun 50 ⟨37000, ⟨[5000, 4000, 3000, 2000, 1000, 0], true, 60000⟩, 6, 5000, true⟩ =
    ⟨37500, ⟨[5000, 4000, 3000, 2000, 1000, 0], true, 60000⟩, 6, 5000, true⟩ := by
  decide

set_option maxRecDepth 100000 in
lemma storm_seg_75 : stormRun 50 ⟨37500, ⟨[5000, 4000, 3000, 2000, 1000, 0], true, 60000⟩, 6, 5000, true⟩ =
    ⟨38000, ⟨[5000, 4000, 3000, 2000, 1000, 0], true, 60000⟩, 6, 5000, true⟩ := by
  decide

set_option maxRecDepth 100000 in
lemma storm_seg_76 : stormRun 50 ⟨38000, ⟨[5000, 4000, 3000, 2000, 1000, 0], true, 60000⟩, 6, 5000, true⟩ =
    ⟨38500, ⟨[5000, 4000, 3000, 2000, 1000, 0], true, 60000⟩, 6, 5000, true⟩ := by
  decide

set_option maxRecDepth 100000 in
lemma storm_seg_77 : stormRun 50 ⟨38500, ⟨[5000, 4000, 3000, 2000, 1000, 0], true, 60000⟩, 6, 5000, true⟩ =
    ⟨39000, ⟨[5000, 4000, 3000, 2000, 1000, 0], true, 60000⟩, 6, 5000, true⟩ := by
  decide

set_option maxRecDepth 100000 in
lemma storm_seg_78 : stormRun 50 ⟨39000, ⟨[5000, 4000, 3000, 2000, 1000, 0], true, 60000⟩, 6, 5000, true⟩ =
    ⟨39500, ⟨[5000, 4000, 3000, 2000, 1000, 0], true, 60000⟩, 6, 5000, true⟩ := by
  decide

set_option maxRecDepth 100000 in
lemma storm_seg_79 : stormRun 50 ⟨39500, ⟨[5000, 4000, 3000, 2000, 1000, 0], true, 60000⟩, 6, 5000, true⟩ =
    ⟨40000, ⟨[5000, 4000, 3000, 2000, 1000, 0], true, 60000⟩, 6, 5000, true⟩ := by
  decide

set_option maxRecDepth 100000 in
lemma storm_seg_80 : stormRun 50 ⟨40000, ⟨[5000, 4000, 3000, 2000, 1000, 0], true, 60000⟩, 6, 5000, true⟩ =
    ⟨40500, ⟨[5000, 4000, 3000, 2000, 1000, 0], true, 60000⟩, 6, 5000, true⟩ := by
  decide

set_option maxRecDepth 100000 in
lemma storm_seg_81 : stormRun 50 ⟨40500, ⟨[5000, 4000, 3000, 2000, 1000, 0], true, 60000⟩, 6, 5000, true⟩ =
    ⟨41000, ⟨[5000, 4000, 3000, 2000, 1000, 0], true, 60000⟩, 6, 5000, true⟩ := by
  decide

set_option maxRecDepth 100000 in
lemma storm_seg_82 : stormRun 50 ⟨41000, ⟨[5000, 4000, 3000, 2000, 1000, 0], true, 60000⟩, 6, 5000, true⟩ =
    ⟨41500, ⟨[5000, 4000, 3000, 2000, 1000, 0], true, 60000⟩, 6, 5000, true⟩ := by
  decide

set_option maxRecDepth 100000 in
lemma storm_seg_83 : stormRun 50 ⟨41500, ⟨[5000, 4000, 3000, 2000, 1000, 0], true, 60000⟩, 6, 5000, true⟩ =
    ⟨42000, ⟨[5000, 4000, 3000, 2000, 1000, 0], true, 60000⟩, 6, 5000, true⟩ := by
  decide

set_option maxRecDepth 100000 in
lemma storm_seg_84 : stormRun 50 ⟨42000, ⟨[5000, 4000, 3000, 2000, 1000, 0], true, 60000⟩, 6, 5000, true⟩ =
    ⟨42500, ⟨[5000, 4000, 3000, 2000, 1000, 0], true, 60000⟩, 6, 5000, true⟩ := by
  decide

set_option maxRecDepth 100000 in
lemma storm_seg_85 : stormRun 50 ⟨42500, ⟨[5000, 4000, 3000, 2000, 1000, 0], true, 60000⟩, 6, 5000, true⟩ =
    ⟨43000, ⟨[5000, 4000, 3000, 2000, 1000, 0], true, 60000⟩, 6, 5000, true⟩ := by
  decide

set_option maxRecDepth 100000 in
lemma storm_seg_86 : stormRun 50 ⟨43000, ⟨[5000, 4000, 3000, 2000, 1000, 0], true, 60000⟩, 6, 5000, true⟩ =
    ⟨43500, ⟨[5000, 4000, 3000, 2000, 1000, 0], true, 60000⟩, 6, 5000, true⟩ := by
  decide

set_option maxRecDepth 100000 in
lemma storm_seg_87 : stormRun 50 ⟨43500, ⟨[5000, 4000, 3000, 2000, 1000, 0], true, 60000⟩, 6, 5000, true⟩ =
    ⟨44000, ⟨[5000, 4000, 3000, 2000, 1000, 0], true, 60000⟩, 6, 5000, true⟩ := by
  decide

set_option maxRecDepth 100000 in
lemma storm_seg_88 : stormRun 50 ⟨44000, ⟨[5000, 4000, 3000, 2000, 1000, 0], true, 60000⟩, 6, 5000, true⟩ =
    ⟨44500, ⟨[5000, 4000, 3000, 2000, 1000, 0], true, 60000⟩, 6, 5000, true⟩ := by
  decide

set_option maxRecDepth 100000 in
lemma storm_seg_89 : stormRun 50 ⟨44500, ⟨[5000, 4000, 3000, 2000, 1000, 0], true, 60000⟩, 6, 5000, true⟩ =
    ⟨45000, ⟨[5000, 4000, 3000, 2000, 1000, 0], true, 60000⟩, 6, 5000, true⟩ := by
  decide

set_option maxRecDepth 100000 in
lemma storm_seg_90 : stormRun 50 ⟨45000, ⟨[5000, 4000, 3000, 2000, 1000, 0], true, 60000⟩, 6, 5000, true⟩ =
    ⟨45500, ⟨[5000, 4000, 3000, 2000, 1000, 0], true, 60000⟩, 6, 5000, true⟩ := by
  decide

set_option maxRecDepth 100000 in
lemma storm_seg_91 : stormRun 50 ⟨45500, ⟨[5000, 4000, 3000, 2000, 1000, 0], true, 60000⟩, 6, 5000, true⟩ =
    ⟨46000, ⟨[5000, 4000, 3000, 2000, 1000, 0], true, 60000⟩, 6, 5000, true⟩ := by
  decide

set_option maxRecDepth 100000 in
lemma storm_seg_92 : stormRun 50 ⟨46000, ⟨[5000, 4000, 3000, 2000, 1000, 0], true, 60000⟩, 6, 5000, true⟩ =
    ⟨46500, ⟨[5000, 4000, 3000, 2000, 1000, 0], true, 60000⟩, 6, 5000, true⟩ := by
  decide

set_option maxRecDepth 100000 in
lemma storm_seg_93 : stormRun 50 ⟨46500, ⟨[5000, 4000, 3000, 2000, 1000, 0], true, 60000⟩, 6, 5000, true⟩ =
    ⟨47000, ⟨[5000, 4000, 3000, 2000, 1000, 0], true, 60000⟩, 6, 5000, true⟩ := by
  decide

set_option maxRecDepth 100000 in
lemma storm_seg_94 : stormRun 50 ⟨47000, ⟨[5000, 4000, 3000, 2000, 1000, 0], true, 60000⟩, 6, 5000, true⟩ =
    ⟨47500, ⟨[5000, 4000, 3000, 2000, 1000, 0], true, 60000⟩, 6, 5000, true⟩ := by
  decide

set_option maxRecDepth 100000 in
lemma storm_seg_95 : stormRun 50 ⟨47500, ⟨[5000, 4000, 3000, 2000, 1000, 0], true, 60000⟩, 6, 5000, true⟩ =
    ⟨48000, ⟨[5000, 4000, 3000, 2000, 1000, 0], true, 60000⟩, 6, 5000, true⟩ := by
  decide

set_option maxRecDepth 100000 in
lemma storm_seg_96 : stormRun 50 ⟨48000, ⟨[5000, 4000, 3000, 2000, 1000, 0], true, 60000⟩, 6, 5000, true⟩ =
    ⟨48500, ⟨[5000, 4000, 3000, 2000, 1000, 0], true, 60000⟩, 6, 5000, true⟩ := by
  decide

set_option maxRecDepth 100000 in
lemma storm_seg_97 : stormRun 50 ⟨48500, ⟨[5000, 4000, 3000, 2000, 1000, 0], true, 60000⟩, 6, 5000, true⟩ =
    ⟨49000, ⟨[5000, 4000, 3000, 2000, 1000, 0], true, 60000⟩, 6, 5000, true⟩ := by
  decide

set_option maxRecDepth 100000 in
lemma storm_seg_98 : stormRun 50 ⟨49000, ⟨[5000, 4000, 3000, 2000, 1000, 0], true, 60000⟩, 6, 5000, true⟩ =
    ⟨49500, ⟨[5000, 4000, 3000, 2000, 1000, 0], true, 60000⟩, 6, 5000, true⟩ := by
  decide

set_option maxRecDepth 100000 in
lemma storm_seg_99 : stormRun 50 ⟨49500, ⟨[5000, 4000, 3000, 2000, 1000, 0], true, 60000⟩, 6, 5000, true⟩ =
    ⟨50000, ⟨[5000, 4000, 3000, 2000, 1000, 0], true, 60000⟩, 6, 5000, true⟩ := by
  decide

set_option maxRecDepth 100000 in
lemma storm_seg_100 : stormRun 50 ⟨50000, ⟨[5000, 4000, 3000, 2000, 1000, 0], true, 60000⟩, 6, 5000, true⟩ =
    ⟨50500, ⟨[5000, 4000, 3000, 2000, 1000, 0], true, 60000⟩, 6, 5000, true⟩ := by
  decide

set_option maxRecDepth 100000 in
lemma storm_seg_101 : stormRun 50 ⟨50500, ⟨[5000, 4000, 3000, 2000, 1000, 0], true, 60000⟩, 6, 5000, true⟩ =
    ⟨51000, ⟨[5000, 4000, 3000, 2000, 1000, 0], true, 60000⟩, 6, 5000, true⟩ := by
  decide

set_option maxRecDepth 100000 in
lemma storm_seg_102 : stormRun 50 ⟨51000, ⟨[5000, 4000, 3000, 2000, 1000, 0], true, 60000⟩, 6, 5000, true⟩ =
    ⟨51500, ⟨[5000, 4000, 3000, 2000, 1000, 0], true, 60000⟩, 6, 5000, true⟩ := by
  decide

set_option maxRecDepth 100000 in
lemma storm_seg_103 : stormRun 50 ⟨51500, ⟨[5000, 4000, 3000, 2000, 1000, 0], true, 60000⟩, 6, 5000, true⟩ =
    ⟨52000, ⟨[5000, 4000, 3000, 2000, 1000, 0], true, 60000⟩, 6, 5000, true⟩ := by
  decide

set_option maxRecDepth 100000 in
lemma storm_seg_104 : stormRun 50 ⟨52000, ⟨[5000, 4000, 3000, 2000, 1000, 0], true, 60000⟩, 6, 5000, true⟩ =
    ⟨52500, ⟨[5000, 4000, 3000, 2000, 1000, 0], true, 60000⟩, 6, 5000, true⟩ := by
  decide

set_option maxRecDepth 100000 in
lemma storm_seg_105 : stormRun 50 ⟨52500, ⟨[5000, 4000, 3000, 2000, 1000, 0], true, 60000⟩, 6, 5000, true⟩ =
    ⟨53000, ⟨[5000, 4000, 3000, 2000, 1000, 0], true, 60000⟩, 6, 5000, true⟩ := by
  decide

set_option maxRecDepth 100000 in
lemma storm_seg_106 : stormRun 50 ⟨53000, ⟨[5000, 4000, 3000, 2000, 1000, 0], true, 60000⟩, 6, 5000, true⟩ =
    ⟨53500, ⟨[5000, 4000, 3000, 2000, 1000, 0], true, 60000⟩, 6, 5000, true⟩ := by
  decide

set_option maxRecDepth 100000 in
lemma storm_seg_107 : stormRun 50 ⟨53500, ⟨[5000, 4000, 3000, 2000, 1000, 0], true, 60000⟩, 6, 5000, true⟩ =
    ⟨54000, ⟨[5000, 4000, 3000, 2000, 1000, 0], true, 60000⟩, 6, 5000, true⟩ := by
  decide

set_option maxRecDepth 100000 in
lemma storm_seg_108 : stormRun 50 ⟨54000, ⟨[5000, 4000, 3000, 2000, 1000, 0], true, 60000⟩, 6, 5000, true⟩ =
    ⟨54500, ⟨[5000, 4000, 3000, 2000, 1000, 0], true, 60000⟩, 6, 5000, true⟩ := by
  decide

set_option maxRecDepth 100000 in
lemma storm_seg_109 : stormRun 50 ⟨54500, ⟨[5000, 4000, 3000, 2000, 1000, 0], true, 60000⟩, 6, 5000, true⟩ =
    ⟨55000, ⟨[5000, 4000, 3000, 2000, 1000, 0], true, 60000⟩, 6, 5000, true⟩ := by
  decide

set_option maxRecDepth 100000 in
lemma storm_seg_110 : stormRun 50 ⟨55000, ⟨[5000, 4000, 3000, 2000, 1000, 0], true, 60000⟩, 6, 5000, true⟩ =
    ⟨55500, ⟨[5000, 4000, 3000, 2000, 1000, 0], true, 60000⟩, 6, 5000, true⟩ := by
  decide

set_option maxRecDepth 100000 in
lemma storm_seg_111 : stormRun 50 ⟨55500, ⟨[5000, 4000, 3000, 2000, 1000, 0], true, 60000⟩, 6, 5000, true⟩ =
    ⟨56000, ⟨[5000, 4000, 3000, 2000, 1000, 0], true, 60000⟩, 6, 5000, true⟩ := by
  decide

set_option maxRecDepth 100000 in
lemma storm_seg_112 : stormRun 50 ⟨56000, ⟨[5000, 4000, 3000, 2000, 1000, 0], true, 60000⟩, 6, 5000, true⟩ =
    ⟨56500, ⟨[5000, 4000, 3000, 2000, 1000, 0], true, 60000⟩, 6, 5000, true⟩ := by
  decide

set_option maxRecDepth 100000 in
lemma storm_seg_113 : stormRun 50 ⟨56500, ⟨[5000, 4000, 3000, 2000, 1000, 0], true, 60000⟩, 6, 5000, true⟩ =
    ⟨57000, ⟨[5000, 4000, 3000, 2000, 1000, 0], true, 60000⟩, 6, 5000, true⟩ := by
  decide

set_option maxRecDepth 100000 in
lemma storm_seg_114 : stormRun 50 ⟨57000, ⟨[5000, 4000, 3000, 2000, 1000, 0], true, 60000⟩, 6, 5000, true⟩ =
    ⟨57500, ⟨[5000, 4000, 3000, 2000, 1000, 0], true, 60000⟩, 6, 5000, true⟩ := by
  decide

set_option maxRecDepth 100000 in
lemma storm_seg_115 : stormRun 50 ⟨57500, ⟨[5000, 4000, 3000, 2000, 1000, 0], true, 60000⟩, 6, 5000, true⟩ =
    ⟨58000, ⟨[5000, 4000, 3000, 2000, 1000, 0], true, 60000⟩, 6, 5000, true⟩ := by
  decide

set_option maxRecDepth 100000 in
lemma storm_seg_116 : stormRun 50 ⟨58000, ⟨[5000, 4000, 3000, 2000, 1000, 0], true, 60000⟩, 6, 5000, true⟩ =
    ⟨58500, ⟨[5000, 4000, 3000, 2000, 1000, 0], true, 60000⟩, 6, 5000, true⟩ := by
  decide

set_option maxRecDepth 100000 in
lemma storm_seg_117 : stormRun 50 ⟨58500, ⟨[5000, 4000, 3000, 2000, 1000, 0], true, 60000⟩, 6, 5000, true⟩ =
    ⟨59000, ⟨[5000, 4000, 3000, 2000, 1000, 0], true, 60000⟩, 6, 5000, true⟩ := by
  decide

set_option maxRecDepth 100000 in
lemma storm_seg_118 : stormRun 50 ⟨59000, ⟨[5000, 4000, 3000, 2000, 1000, 0], true, 60000⟩, 6, 5000, true⟩ =
    ⟨59500, ⟨[5000, 4000, 3000, 2000, 1000, 0], true, 60000⟩, 6, 5000, true⟩ := by
  decide

set_option maxRecDepth 100000 in
lemma storm_seg_119 : stormRun 50 ⟨59500, ⟨[5000, 4000, 3000, 2000, 1000, 0], true, 60000⟩, 6, 5000, true⟩ =
    ⟨60000, ⟨[60000, 5000, 4000, 3000, 2000, 1000], false, 60000⟩, 7, 60000, true⟩ := by
  decide

set_option maxRecDepth 100000 in
lemma storm_seg_120 : stormRun 50 ⟨60000, ⟨[60000, 5000, 4000, 3000, 2000, 1000], false, 60000⟩, 7, 60000, true⟩ =
    ⟨60500, ⟨[60000, 5000, 4000, 3000, 2000, 1000], true, 61000⟩, 7, 60000, true⟩ := by
  decide

set_option maxRecDepth 100000 in
lemma storm_seg_121 : stormRun 50 ⟨60500, ⟨[60000, 5000, 4000, 3000, 2000, 1000], true, 61000⟩, 7, 60000, true⟩ =
    ⟨61000, ⟨[61000, 60000, 5000, 4000, 3000, 2000], false, 61000⟩, 8, 61000, true⟩ := by
  decide

set_option maxRecDepth 100000 in
lemma storm_seg_122 : stormRun 50 ⟨61000, ⟨[61000, 60000, 5000, 4000, 3000, 2000], false, 61000⟩, 8, 61000, true⟩ =
    ⟨61500, ⟨[61000, 60000, 5000, 4000, 3000, 2000], true, 62000⟩, 8, 61000, true⟩ := by
  decide

set_option maxRecDepth 100000 in
lemma storm_seg_123 : stormRun 50 ⟨61500, ⟨[61000, 60000, 5000, 4000, 3000, 2000], true, 62000⟩, 8, 61000, true⟩ =
    ⟨62000, ⟨[62000, 61000, 60000, 5000, 4000, 3000], false, 62000⟩, 9, 62000, true⟩ := by
  decide

set_option maxRecDepth 100000 in
lemma storm_seg_124 : stormRun 50 ⟨62000, ⟨[62000, 61000, 60000, 5000, 4000, 3000], false, 62000⟩, 9, 62000, true⟩ =
    ⟨62500, ⟨[62000, 61000, 60000, 5000, 4000, 3000], true, 63000⟩, 9, 62000, true⟩ := by
  decide

set_option maxRecDepth 100000 in
lemma storm_seg_125 : stormRun 50 ⟨62500, ⟨[62000, 61000, 60000, 5000, 4000, 3000], true, 63000⟩, 9, 62000, true⟩ =
    ⟨63000, ⟨[63000, 62000, 61000, 60000, 5000, 4000], false, 63000⟩, 10, 63000, true⟩ := by
  decide

set_option maxRecDepth 100000 in
lemma storm_seg_126 : stormRun 50 ⟨63000, ⟨[63000, 62000, 61000, 60000, 5000, 4000], false, 63000⟩, 10, 63000, true⟩ =
    ⟨63500, ⟨[63000, 62000, 61000, 60000, 5000, 4000], true, 64000⟩, 10, 63000, true⟩ := by
  decide

set_option maxRecDepth 100000 in
lemma storm_seg_127 : stormRun 50 ⟨63500, ⟨[63000, 62000, 61000, 60000, 5000, 4000], true, 64000⟩, 10, 63000, true⟩ =
    ⟨64000, ⟨[64000, 63000, 62000, 61000, 60000, 5000], false, 64000⟩, 11, 64000, true⟩ := by
  decide

set_option maxRecDepth 100000 in
lemma storm_seg_128 : stormRun 50 ⟨64000, ⟨[64000, 63000, 62000, 61000, 60000, 5000], false, 64000⟩, 11, 64000, true⟩ =
    ⟨64500, ⟨[64000, 63000, 62000, 61000, 60000, 5000], true, 65000⟩, 11, 64000, true⟩ := by
  decide

set_option maxRecDepth 100000 in
lemma storm_seg_129 : stormRun 50 ⟨64500, ⟨[64000, 63000, 62000, 61000, 60000, 5000], true, 65000⟩, 11, 64000, true⟩ =
    ⟨65000, ⟨[65000, 64000, 63000, 62000, 61000, 60000], false, 65000⟩, 12, 65000, true⟩ := by
  decide

set_option maxRecDepth 100000 in
lemma storm_seg_130 : stormRun 50 ⟨65000, ⟨[65000, 64000, 63000, 62000, 61000, 60000], false, 65000⟩, 12, 65000, true⟩ =
    ⟨65500, ⟨[65000, 64000, 63000, 62000, 61000, 60000], true, 120000⟩, 12, 65000, true⟩ := by
  decide

set_option maxRecDepth 100000 in
lemma storm_seg_131 : stormRun 50 ⟨65500, ⟨[65000, 64000, 63000, 62000, 61000, 60000], true, 120000⟩, 12, 65000, true⟩ =
    ⟨66000, ⟨[65000, 64000, 63000, 62000, 61000, 60000], true, 120000⟩, 12, 65000, true⟩ := by
  decide

set_option maxRecDepth 100000 in
lemma storm_seg_132 : stormRun 50 ⟨66000, ⟨[65000, 64000, 63000, 62000, 61000, 60000], true, 120000⟩, 12, 65000, true⟩ =
    ⟨66500, ⟨[65000, 64000, 63000, 62000, 61000, 60000], true, 120000⟩, 12, 65000, true⟩ := by
  decide

set_option maxRecDepth 100000 in
lemma storm_seg_133 : stormRun 50 ⟨66500, ⟨[65000, 64000, 63000, 62000, 61000, 60000], true, 120000⟩, 12, 65000, true⟩ =
    ⟨67000, ⟨[65000, 64000, 63000, 62000, 61000, 60000], true, 120000⟩, 12, 65000, true⟩ := by
  decide

set_option maxRecDepth 100000 in
lemma storm_seg_134 : stormRun 50 ⟨67000, ⟨[65000, 64000, 63000, 62000, 61000, 60000], true, 120000⟩, 12, 65000, true⟩ =
    ⟨67500, ⟨[65000, 64000, 63000, 62000, 61000, 60000], true, 120000⟩, 12, 65000, true⟩ := by
  decide

set_option maxRecDepth 100000 in
lemma storm_seg_135 : stormRun 50 ⟨67500, ⟨[65000, 64000, 63000, 62000, 61000, 60000], true, 120000⟩, 12, 65000, true⟩ =
    ⟨68000, ⟨[65000, 64000, 63000, 62000, 61000, 60000], true, 120000⟩, 12, 65000, true⟩ := by
  decide

set_option maxRecDepth 100000 in
lemma storm_seg_136 : stormRun 50 ⟨68000, ⟨[65000, 64000, 63000, 62000, 61000, 60000], true, 120000⟩, 12, 65000, true⟩ =
    ⟨68500, ⟨[65000, 64000, 63000, 62000, 61000, 60000], true, 120000⟩, 12, 65000, true⟩ := by
  decide

set_option maxRecDepth 100000 in
lemma storm_seg_137 : stormRun 50 ⟨68500, ⟨[65000, 64000, 63000, 62000, 61000, 60000], true, 120000⟩, 12, 65000, true⟩ =
    ⟨69000, ⟨[65000, 64000, 63000, 62000, 61000, 60000], true, 120000⟩, 12, 65000, true⟩ := by
  decide

set_option maxRecDepth 100000 in
lemma storm_seg_138 : stormRun 50 ⟨69000, ⟨[65000, 64000, 63000, 62000, 61000, 60000], true, 120000⟩, 12, 65000, true⟩ =
    ⟨69500, ⟨[65000, 64000, 63000, 62000, 61000, 60000], true, 120000⟩, 12, 65000, true⟩ := by
  decide

set_option maxRecDepth 100000 in
lemma storm_seg_139 : stormRun 50 ⟨69500, ⟨[65000, 64000, 63000, 62000, 61000, 60000], true, 120000⟩, 12, 65000, true⟩ =
    ⟨70000, ⟨[65000, 64000, 63000, 62000, 61000, 60000], true, 120000⟩, 12, 65000, true⟩ := by
  decide

set_option maxRecDepth 100000 in
lemma storm_seg_140 : stormRun 50 ⟨70000, ⟨[65000, 64000, 63000, 62000, 61000, 60000], true, 120000⟩, 12, 65000, true⟩ =
    ⟨70500, ⟨[65000, 64000, 63000, 62000, 61000, 60000], true, 120000⟩, 12, 65000, true⟩ := by
  decide

set_option maxRecDepth 100000 in
lemma storm_seg_141 : stormRun 50 ⟨70500, ⟨[65000, 64000, 63000, 62000, 61000, 60000], true, 120000⟩, 12, 65000, true⟩ =
    ⟨71000, ⟨[65000, 64000, 63000, 62000, 61000, 60000], true, 120000⟩, 12, 65000, true⟩ := by
  decide

set_option maxRecDepth 100000 in
lemma storm_seg_142 : stormRun 50 ⟨71000, ⟨[65000, 64000, 63000, 62000, 61000, 60000], true, 120000⟩, 12, 65000, true⟩ =
    ⟨71500, ⟨[65000, 64000, 63000, 62000, 61000, 60000], true, 120000⟩, 12, 65000, true⟩ := by
  decide

set_option maxRecDepth 100000 in
lemma storm_seg_143 : stormRun 50 ⟨71500, ⟨[65000, 64000, 63000, 62000, 61000, 60000], true, 120000⟩, 12, 65000, true⟩ =
    ⟨72000, ⟨[65000, 64000, 63000, 62000, 61000, 60000], true, 120000⟩, 12, 65000, true⟩ := by
  decide

set_option maxRecDepth 100000 in
lemma storm_seg_144 : stormRun 50 ⟨72000, ⟨[65000, 64000, 63000, 62000, 61000, 60000], true, 120000⟩, 12, 65000, true⟩ =
    ⟨72500, ⟨[65000, 64000, 63000, 62000, 61000, 60000], true, 120000⟩, 12, 65000, true⟩ := by
  decide

set_option maxRecDepth 100000 in
lemma storm_seg_145 : stormRun 50 ⟨72500, ⟨[65000, 64000, 63000, 62000, 61000, 60000], true, 120000⟩, 12, 65000, true⟩ =
    ⟨73000, ⟨[65000, 64000, 63000, 62000, 61000, 60000], true, 120000⟩, 12, 65000, true⟩ := by
  decide

set_option maxRecDepth 100000 in
lemma storm_seg_146 : stormRun 50 ⟨73000, ⟨[65000, 64000, 63000, 62000, 61000, 60000], true, 120000⟩, 12, 65000, true⟩ =
    ⟨73500, ⟨[65000, 64000, 63000, 62000, 61000, 60000], true, 120000⟩, 12, 65000, true⟩ := by
  decide

set_option maxRecDepth 100000 in
lemma storm_seg_147 : stormRun 50 ⟨73500, ⟨[65000, 64000, 63000, 62000, 61000, 60000], true, 120000⟩, 12, 65000, true⟩ =
    ⟨74000, ⟨[65000, 64000, 63000, 62000, 61000, 60000], true, 120000⟩, 12, 65000, true⟩ := by
  decide

set_option maxRecDepth 100000 in
lemma storm_seg_148 : stormRun 50 ⟨74000, ⟨[65000, 64000, 63000, 62000, 61000, 60000], true, 120000⟩, 12, 65000, true⟩ =
    ⟨74500, ⟨[65000, 64000, 63000, 62000, 61000, 60000], true, 120000⟩, 12, 65000, true⟩ := by
  decide

set_option maxRecDepth 100000 in
lemma storm_seg_149 : stormRun 50 ⟨74500, ⟨[65000, 64000, 63000, 62000, 61000, 60000], true, 120000⟩, 12, 65000, true⟩ =
    ⟨75000, ⟨[65000, 64000, 63000, 62000, 61000, 60000], true, 120000⟩, 12, 65000, true⟩ := by
  decide

set_option maxRecDepth 100000 in
lemma storm_seg_150 : stormRun 50 ⟨75000, ⟨[65000, 64000, 63000, 62000, 61000, 60000], true, 120000⟩, 12, 65000, true⟩ =
    ⟨75500, ⟨[65000, 64000, 63000, 62000, 61000, 60000], true, 120000⟩, 12, 65000, true⟩ := by
  decide

set_option maxRecDepth 100000 in
lemma storm_seg_151 : stormRun 50 ⟨75500, ⟨[65000, 64000, 63000, 62000, 61000, 60000], true, 120000⟩, 12, 65000, true⟩ =
    ⟨76000, ⟨[65000, 64000, 63000, 62000, 61000, 60000], true, 120000⟩, 12, 65000, true⟩ := by
  decide

set_option maxRecDepth 100000 in
lemma storm_seg_152 : stormRun 50 ⟨76000, ⟨[65000, 64000, 63000, 62000, 61000, 60000], true, 120000⟩, 12, 65000, true⟩ =
    ⟨76500, ⟨[65000, 64000, 63000, 62000, 61000, 60000], true, 120000⟩, 12, 65000, true⟩ := by
  decide

set_option maxRecDepth 100000 in
lemma storm_seg_153 : stormRun 50 ⟨76500, ⟨[65000, 64000, 63000, 62000, 61000, 60000], true, 120000⟩, 12, 65000, true⟩ =
    ⟨77000, ⟨[65000, 64000, 63000, 62000, 61000, 60000], true, 120000⟩, 12, 65000, true⟩ := by
  decide

set_option maxRecDepth 100000 in
lemma storm_seg_154 : stormRun 50 ⟨77000, ⟨[65000, 64000, 63000, 62000, 61000, 60000], true, 120000⟩, 12, 65000, true⟩ =
    ⟨77500, ⟨[65000, 64000, 63000, 62000, 61000, 60000], true, 120000⟩, 12, 65000, true⟩ := by
  decide

set_option maxRecDepth 100000 in
lemma storm_seg_155 : stormRun 50 ⟨77500, ⟨[65000, 64000, 63000, 62000, 61000, 60000], true, 120000⟩, 12, 65000, true⟩ =
    ⟨78000, ⟨[65000, 64000, 63000, 62000, 61000, 60000], true, 120000⟩, 12, 65000, true⟩ := by
  decide

set_option maxRecDepth 100000 in
lemma storm_seg_156 : stormRun 50 ⟨78000, ⟨[65000, 64000, 63000, 62000, 61000, 60000], true, 120000⟩, 12, 65000, true⟩ =
    ⟨78500, ⟨[65000, 64000, 63000, 62000, 61000, 60000], true, 120000⟩, 12, 65000, true⟩ := by
  decide

set_option maxRecDepth 100000 in
lemma storm_seg_157 : stormRun 50 ⟨78500, ⟨[65000, 64000, 63000, 62000, 61000, 60000], true, 120000⟩, 12, 65000, true⟩ =
    ⟨79000, ⟨[65000, 64000, 63000, 62000, 61000, 60000], true, 120000⟩, 12, 65000, true⟩ := by
  decide

set_option maxRecDepth 100000 in
lemma storm_seg_158 : stormRun 50 ⟨79000, ⟨[65000, 64000, 63000, 62000, 61000, 60000], true, 120000⟩, 12, 65000, true⟩ =
    ⟨79500, ⟨[65000, 64000, 63000, 62000, 61000, 60000], true, 120000⟩, 12, 65000, true⟩ := by
  decide

set_option maxRecDepth 100000 in
lemma storm_seg_159 : stormRun 50 ⟨79500, ⟨[65000, 64000, 63000, 62000, 61000, 60000], true, 120000⟩, 12, 65000, true⟩ =
    ⟨80000, ⟨[65000, 64000, 63000, 62000, 61000, 60000], true, 120000⟩, 12, 65000, true⟩ := by
  decide

set_option maxRecDepth 100000 in
lemma storm_seg_160 : stormRun 50 ⟨80000, ⟨[65000, 64000, 63000, 62000, 61000, 60000], true, 120000⟩, 12, 65000, true⟩ =
    ⟨80500, ⟨[65000, 64000, 63000, 62000, 61000, 60000], true, 120000⟩, 12, 65000, true⟩ := by
  decide

set_option maxRecDepth 100000 in
lemma storm_seg_161 : stormRun 50 ⟨80500, ⟨[65000, 64000, 63000, 62000, 61000, 60000], true, 120000⟩, 12, 65000, true⟩ =
    ⟨81000, ⟨[65000, 64000, 63000, 62000, 61000, 60000], true, 120000⟩, 12, 65000, true⟩ := by
  decide

set_option maxRecDepth 100000 in
lemma storm_seg_162 : stormRun 50 ⟨81000, ⟨[65000, 64000, 63000, 62000, 61000, 60000], true, 120000⟩, 12, 65000, true⟩ =
    ⟨81500, ⟨[65000, 64000, 63000, 62000, 61000, 60000], true, 120000⟩, 12, 65000, true⟩ := by
  decide

set_option maxRecDepth 100000 in
lemma storm_seg_163 : stormRun 50 ⟨81500, ⟨[65000, 64000, 63000, 62000, 61000, 60000], true, 120000⟩, 12, 65000, true⟩ =
    ⟨82000, ⟨[65000, 64000, 63000, 62000, 61000, 60000], true, 120000⟩, 12, 65000, true⟩ := by
  decide

set_option maxRecDepth 100000 in
lemma storm_seg_164 : stormRun 50 ⟨82000, ⟨[65000, 64000, 63000, 62000, 61000, 60000], true, 120000⟩, 12, 65000, true⟩ =
    ⟨82500, ⟨[65000, 64000, 63000, 62000, 61000, 60000], true, 120000⟩, 12, 65000, true⟩ := by
  decide

set_option maxRecDepth 100000 in
lemma storm_seg_165 : stormRun 50 ⟨82500, ⟨[65000, 64000, 63000, 62000, 61000, 60000], true, 120000⟩, 12, 65000, true⟩ =
    ⟨83000, ⟨[65000, 64000, 63000, 62000, 61000, 60000], true, 120000⟩, 12, 65000, true⟩ := by
  decide

set_option maxRecDepth 100000 in
lemma storm_seg_166 : stormRun 50 ⟨83000, ⟨[65000, 64000, 63000, 62000, 61000, 60000], true, 120000⟩, 12, 65000, true⟩ =
    ⟨83500, ⟨[65000, 64000, 63000, 62000, 61000, 60000], true, 120000⟩, 12, 65000, true⟩ := by
  decide

set_option maxRecDepth 100000 in
lemma storm_seg_167 : stormRun 50 ⟨83500, ⟨[65000, 64000, 63000, 62000, 61000, 60000], true, 120000⟩, 12, 65000, true⟩ =
    ⟨84000, ⟨[65000, 64000, 63000, 62000, 61000, 60000], true, 120000⟩, 12, 65000, true⟩ := by
  decide

set_option maxRecDepth 100000 in
lemma storm_seg_168 : stormRun 50 ⟨84000, ⟨[65000, 64000, 63000, 62000, 61000, 60000], true, 120000⟩, 12, 65000, true⟩ =
    ⟨84500, ⟨[65000, 64000, 63000, 62000, 61000, 60000], true, 120000⟩, 12, 65000, true⟩ := by
  decide

set_option maxRecDepth 100000 in
lemma storm_seg_169 : stormRun 50 ⟨84500, ⟨[65000, 64000, 63000, 62000, 61000, 60000], true, 120000⟩, 12, 65000, true⟩ =
    ⟨85000, ⟨[65000, 64000, 63000, 62000, 61000, 60000], true, 120000⟩, 12, 65000, true⟩ := by
  decide

set_option maxRecDepth 100000 in
lemma storm_seg_170 : stormRun 50 ⟨85000, ⟨[65000, 64000, 63000, 62000, 61000, 60000], true, 120000⟩, 12, 65000, true⟩ =
    ⟨85500, ⟨[65000, 64000, 63000, 62000, 61000, 60000], true, 120000⟩, 12, 65000, true⟩ := by
  decide

set_option maxRecDepth 100000 in
lemma storm_seg_171 : stormRun 50 ⟨85500, ⟨[65000, 64000, 63000, 62000, 61000, 60000], true, 120000⟩, 12, 65000, true⟩ =
    ⟨86000, ⟨[65000, 64000, 63000, 62000, 61000, 60000], true, 120000⟩, 12, 65000, true⟩ := by
  decide

set_option maxRecDepth 100000 in
lemma storm_seg_172 : stormRun 50 ⟨86000, ⟨[65000, 64000, 63000, 62000, 61000, 60000], true, 120000⟩, 12, 65000, true⟩ =
    ⟨86500, ⟨[65000, 64000, 63000, 62000, 61000, 60000], true, 120000⟩, 12, 65000, true⟩ := by
  decide

set_option maxRecDepth 100000 in
lemma storm_seg_173 : stormRun 50 ⟨86500, ⟨[65000, 64000, 63000, 62000, 61000, 60000], true, 120000⟩, 12, 65000, true⟩ =
    ⟨87000, ⟨[65000, 64000, 63000, 62000, 61000, 60000], true, 120000⟩, 12, 65000, true⟩ := by
  decide

set_option maxRecDepth 100000 in
lemma storm_seg_174 : stormRun 50 ⟨87000, ⟨[65000, 64000, 63000, 62000, 61000, 60000], true, 120000⟩, 12, 65000, true⟩ =
    ⟨87500, ⟨[65000, 64000, 63000, 62000, 61000, 60000], true, 120000⟩, 12, 65000, true⟩ := by
  decide

set_option maxRecDepth 100000 in
lemma storm_seg_175 : stormRun 50 ⟨87500, ⟨[65000, 64000, 63000, 62000, 61000, 60000], true, 120000⟩, 12, 65000, true⟩ =
    ⟨88000, ⟨[65000, 64000, 63000, 62000, 61000, 60000], true, 120000⟩, 12, 65000, true⟩ := by
  decide

set_option maxRecDepth 100000 in
lemma storm_seg_176 : stormRun 50 ⟨88000, ⟨[65000, 64000, 63000, 62000, 61000, 60000], true, 120000⟩, 12, 65000, true⟩ =
    ⟨88500, ⟨[65000, 64000, 63000, 62000, 61000, 60000], true, 120000⟩, 12, 65000, true⟩ := by
  decide

set_option maxRecDepth 100000 in
lemma storm_seg_177 : stormRun 50 ⟨88500, ⟨[65000, 64000, 63000, 62000, 61000, 60000], true, 120000⟩, 12, 65000, true⟩ =
    ⟨89000, ⟨[65000, 64000, 63000, 62000, 61000, 60000], true, 120000⟩, 12, 65000, true⟩ := by
  decide

set_option maxRecDepth 100000 in
lemma storm_seg_178 : stormRun 50 ⟨89000, ⟨[65000, 64000, 63000, 62000, 61000, 60000], true, 120000⟩, 12, 65000, true⟩ =
    ⟨89500, ⟨[65000, 64000, 63000, 62000, 61000, 60000], true, 120000⟩, 12, 65000, true⟩ := by
  decide

set_option maxRecDepth 100000 in
lemma storm_seg_179 : stormRun 50 ⟨89500, ⟨[65000, 64000, 63000, 62000, 61000, 60000], true, 120000⟩, 12, 65000, true⟩ =
    ⟨90000, ⟨[65000, 64000, 63000, 62000, 61000, 60000], true, 120000⟩, 12, 65000, true⟩ := by
  decide

set_option maxRecDepth 100000 in
lemma storm_seg_180 : stormRun 50 ⟨90000, ⟨[65000, 64000, 63000, 62000, 61000, 60000], true, 120000⟩, 12, 65000, true⟩ =
    ⟨90500, ⟨[65000, 64000, 63000, 62000, 61000, 60000], true, 120000⟩, 12, 65000, true⟩ := by
  decide

set_option maxRecDepth 100000 in
lemma storm_seg_181 : stormRun 50 ⟨90500, ⟨[65000, 64000, 63000, 62000, 61000, 60000], true, 120000⟩, 12, 65000, true⟩ =
    ⟨91000, ⟨[65000, 64000, 63000, 62000, 61000, 60000], true, 120000⟩, 12, 65000, true⟩ := by
  decide

set_option maxRecDepth 100000 in
lemma storm_seg_182 : stormRun 50 ⟨91000, ⟨[65000, 64000, 63000, 62000, 61000, 60000], true, 120000⟩, 12, 65000, true⟩ =
    ⟨91500, ⟨[65000, 64000, 63000, 62000, 61000, 60000], true, 120000⟩, 12, 65000, true⟩ := by
  decide

set_option maxRecDepth 100000 in
lemma storm_seg_183 : stormRun 50 ⟨91500, ⟨[65000, 64000, 63000, 62000, 61000, 60000], true, 120000⟩, 12, 65000, true⟩ =
    ⟨92000, ⟨[65000, 64000, 63000, 62000, 61000, 60000], true, 120000⟩, 12, 65000, true⟩ := by
  decide

set_option maxRecDepth 100000 in
lemma storm_seg_184 : stormRun 50 ⟨92000, ⟨[65000, 64000, 63000, 62000, 61000, 60000], true, 120000⟩, 12, 65000, true⟩ =
    ⟨92500, ⟨[65000, 64000, 63000, 62000, 61000, 60000], true, 120000⟩, 12, 65000, true⟩ := by
  decide

set_option maxRecDepth 100000 in
lemma storm_seg_185 : stormRun 50 ⟨92500, ⟨[65000, 64000, 63000, 62000, 61000, 60000], true, 120000⟩, 12, 65000, true⟩ =
    ⟨93000, ⟨[65000, 64000, 63000, 62000, 61000, 60000], true, 120000⟩, 12, 65000, true⟩ := by
  decide

set_option maxRecDepth 100000 in
lemma storm_seg_186 : stormRun 50 ⟨93000, ⟨[65000, 64000, 63000, 62000, 61000, 60000], true, 120000⟩, 12, 65000, true⟩ =
    ⟨93500, ⟨[65000, 64000, 63000, 62000, 61000, 60000], true, 120000⟩, 12, 65000, true⟩ := by
  decide

set_option maxRecDepth 100000 in
lemma storm_seg_187 : stormRun 50 ⟨93500, ⟨[65000, 64000, 63000, 62000, 61000, 60000], true, 120000⟩, 12, 65000, true⟩ =
    ⟨94000, ⟨[65000, 64000, 63000, 62000, 61000, 60000], true, 120000⟩, 12, 65000, true⟩ := by
  decide

set_option maxRecDepth 100000 in
lemma storm_seg_188 : stormRun 50 ⟨94000, ⟨[65000, 64000, 63000, 62000, 61000, 60000], true, 120000⟩, 12, 65000, true⟩ =
    ⟨94500, ⟨[65000, 64000, 63000, 62000, 61000, 60000], true, 120000⟩, 12, 65000, true⟩ := by
  decide

set_option maxRecDepth 100000 in
lemma storm_seg_189 : stormRun 50 ⟨94500, ⟨[65000, 64000, 63000, 62000, 61000, 60000], true, 120000⟩, 12, 65000, true⟩ =
    ⟨95000, ⟨[65000, 64000, 63000, 62000, 61000, 60000], true, 120000⟩, 12, 65000, true⟩ := by
  decide

set_option maxRecDepth 100000 in
lemma storm_seg_190 : stormRun 50 ⟨95000, ⟨[65000, 64000, 63000, 62000, 61000, 60000], true, 120000⟩, 12, 65000, true⟩ =
    ⟨95500, ⟨[65000, 64000, 63000, 62000, 61000, 60000], true, 120000⟩, 12, 65000, true⟩ := by
  decide

set_option maxRecDepth 100000 in
lemma storm_seg_191 : stormRun 50 ⟨95500, ⟨[65000, 64000, 63000, 62000, 61000, 60000], true, 120000⟩, 12, 65000, true⟩ =
    ⟨96000, ⟨[65000, 64000, 63000, 62000, 61000, 60000], true, 120000⟩, 12, 65000, true⟩ := by
  decide

set_option maxRecDepth 100000 in
lemma storm_seg_192 : stormRun 50 ⟨96000, ⟨[65000, 64000, 63000, 62000, 61000, 60000], true, 120000⟩, 12, 65000, true⟩ =
    ⟨96500, ⟨[65000, 64000, 63000, 62000, 61000, 60000], true, 120000⟩, 12, 65000, true⟩ := by
  decide

set_option maxRecDepth 100000 in
lemma storm_seg_193 : stormRun 50 ⟨96500, ⟨[65000, 64000, 63000, 62000, 61000, 60000], true, 120000⟩, 12, 65000, true⟩ =
    ⟨97000, ⟨[65000, 64000, 63000, 62000, 61000, 60000], true, 120000⟩, 12, 65000, true⟩ := by
  decide

set_option maxRecDepth 100000 in
lemma storm_seg_194 : stormRun 50 ⟨97000, ⟨[65000, 64000, 63000, 62000, 61000, 60000], true, 120000⟩, 12, 65000, true⟩ =
    ⟨97500, ⟨[65000, 64000, 63000, 62000, 61000, 60000], true, 120000⟩, 12, 65000, true⟩ := by
  decide

set_option maxRecDepth 100000 in
lemma storm_seg_195 : stormRun 50 ⟨97500, ⟨[65000, 64000, 63000, 62000, 61000, 60000], true, 120000⟩, 12, 65000, true⟩ =
    ⟨98000, ⟨[65000, 64000, 63000, 62000, 61000, 60000], true, 120000⟩, 12, 65000, true⟩ := by
  decide

set_option maxRecDepth 100000 in
lemma storm_seg_196 : stormRun 50 ⟨98000, ⟨[65000, 64000, 63000, 62000, 61000, 60000], true, 120000⟩, 12, 65000, true⟩ =
    ⟨98500, ⟨[65000, 64000, 63000, 62000, 61000, 60000], true, 120000⟩, 12, 65000, true⟩ := by
  decide

set_option maxRecDepth 100000 in
lemma storm_seg_197 : stormRun 50 ⟨98500, ⟨[65000, 64000, 63000, 62000, 61000, 60000], true, 120000⟩, 12, 65000, true⟩ =
    ⟨99000, ⟨[65000, 64000, 63000, 62000, 61000, 60000], true, 120000⟩, 12, 65000, true⟩ := by
  decide

set_option maxRecDepth 100000 in
lemma storm_seg_198 : stormRun 50 ⟨99000, ⟨[65000, 64000, 63000, 62000, 61000, 60000], true, 120000⟩, 12, 65000, true⟩ =
    ⟨99500, ⟨[65000, 64000, 63000, 62000, 61000, 60000], true, 120000⟩, 12, 65000, true⟩ := by
  decide

set_option maxRecDepth 100000 in
lemma storm_seg_199 : stormRun 50 ⟨99500, ⟨[65000, 64000, 63000, 62000, 61000, 60000], true, 120000⟩, 12, 65000, true⟩ =
    ⟨100000, ⟨[65000, 64000, 63000, 62000, 61000, 60000], true, 120000⟩, 12, 65000, true⟩ := by
  decide

set_option maxRecDepth 100000 in
lemma storm_seg_200 : stormRun 50 ⟨100000, ⟨[65000, 64000, 63000, 62000, 61000, 60000], true, 120000⟩, 12, 65000, true⟩ =
    ⟨100500, ⟨[65000, 64000, 63000, 62000, 61000, 60000], true, 120000⟩, 12, 65000, true⟩ := by
  decide

set_option maxRecDepth 100000 in
lemma storm_seg_201 : stormRun 50 ⟨100500, ⟨[65000, 64000, 63000, 62000, 61000, 60000], true, 120000⟩, 12, 65000, true⟩ =
    ⟨101000, ⟨[65000, 64000, 63000, 62000, 61000, 60000], true, 120000⟩, 12, 65000, true⟩ := by
  decide

set_option maxRecDepth 100000 in
lemma storm_seg_202 : stormRun 50 ⟨101000, ⟨[65000, 64000, 63000, 62000, 61000, 60000], true, 120000⟩, 12, 65000, true⟩ =
    ⟨101500, ⟨[65000, 64000, 63000, 62000, 61000, 60000], true, 120000⟩, 12, 65000, true⟩ := by
  decide

set_option maxRecDepth 100000 in
lemma storm_seg_203 : stormRun 50 ⟨101500, ⟨[65000, 64000, 63000, 62000, 61000, 60000], true, 120000⟩, 12, 65000, true⟩ =
    ⟨102000, ⟨[65000, 64000, 63000, 62000, 61000, 60000], true, 120000⟩, 12, 65000, true⟩ := by
  decide

set_option maxRecDepth 100000 in
lemma storm_seg_204 : stormRun 50 ⟨102000, ⟨[65000, 64000, 63000, 62000, 61000, 60000], true, 120000⟩, 12, 65000, true⟩ =
    ⟨102500, ⟨[65000, 64000, 63000, 62000, 61000, 60000], true, 120000⟩, 12, 65000, true⟩ := by
  decide

set_option maxRecDepth 100000 in
lemma storm_seg_205 : stormRun 50 ⟨102500, ⟨[65000, 64000, 63000, 62000, 61000, 60000], true, 120000⟩, 12, 65000, true⟩ =
    ⟨103000, ⟨[65000, 64000, 63000, 62000, 61000, 60000], true, 120000⟩, 12, 65000, true⟩ := by
  decide

set_option maxRecDepth 100000 in
lemma storm_seg_206 : stormRun 50 ⟨103000, ⟨[65000, 64000, 63000, 62000, 61000, 60000], true, 120000⟩, 12, 65000, true⟩ =
    ⟨103500, ⟨[65000, 64000, 63000, 62000, 61000, 60000], true, 120000⟩, 12, 65000, true⟩ := by
  decide

set_option maxRecDepth 100000 in
lemma storm_seg_207 : stormRun 50 ⟨103500, ⟨[65000, 64000, 63000, 62000, 61000, 60000], true, 120000⟩, 12, 65000, true⟩ =
    ⟨104000, ⟨[65000, 64000, 63000, 62000, 61000, 60000], true, 120000⟩, 12, 65000, true⟩ := by
  decide

set_option maxRecDepth 100000 in
lemma storm_seg_208 : stormRun 50 ⟨104000, ⟨[65000, 64000, 63000, 62000, 61000, 60000], true, 120000⟩, 12, 65000, true⟩ =
    ⟨104500, ⟨[65000, 64000, 63000, 62000, 61000, 60000], true, 120000⟩, 12, 65000, true⟩ := by
  decide

set_option maxRecDepth 100000 in
lemma storm_seg_209 : stormRun 50 ⟨104500, ⟨[65000, 64000, 63000, 62000, 61000, 60000], true, 120000⟩, 12, 65000, true⟩ =
    ⟨105000, ⟨[65000, 64000, 63000, 62000, 61000, 60000], true, 120000⟩, 12, 65000, true⟩ := by
  decide

set_option maxRecDepth 100000 in
lemma storm_seg_210 : stormRun 50 ⟨105000, ⟨[65000, 64000, 63000, 62000, 61000, 60000], true, 120000⟩, 12, 65000, true⟩ =
    ⟨105500, ⟨[65000, 64000, 63000, 62000, 61000, 60000], true, 120000⟩, 12, 65000, true⟩ := by
  decide

set_option maxRecDepth 100000 in
lemma storm_seg_211 : stormRun 50 ⟨105500, ⟨[65000, 64000, 63000, 62000, 61000, 60000], true, 120000⟩, 12, 65000, true⟩ =
    ⟨106000, ⟨[65000, 64000, 63000, 62000, 61000, 60000], true, 120000⟩, 12, 65000, true⟩ := by
  decide

set_option maxRecDepth 100000 in
lemma storm_seg_212 : stormRun 50 ⟨106000, ⟨[65000, 64000, 63000, 62000, 61000, 60000], true, 120000⟩, 12, 65000, true⟩ =
    ⟨106500, ⟨[65000, 64000, 63000, 62000, 61000, 60000], true, 120000⟩, 12, 65000, true⟩ := by
  decide

set_option maxRecDepth 100000 in
lemma storm_seg_213 : stormRun 50 ⟨106500, ⟨[65000, 64000, 63000, 62000, 61000, 60000], true, 120000⟩, 12, 65000, true⟩ =
    ⟨107000, ⟨[65000, 64000, 63000, 62000, 61000, 60000], true, 120000⟩, 12, 65000, true⟩ := by
  decide

set_option maxRecDepth 100000 in
lemma storm_seg_214 : stormRun 50 ⟨107000, ⟨[65000, 64000, 63000, 62000, 61000, 60000], true, 120000⟩, 12, 65000, true⟩ =
    ⟨107500, ⟨[65000, 64000, 63000, 62000, 61000, 60000], true, 120000⟩, 12, 65000, true⟩ := by
  decide

set_option maxRecDepth 100000 in
lemma storm_seg_215 : stormRun 50 ⟨107500, ⟨[65000, 64000, 63000, 62000, 61000, 60000], true, 120000⟩, 12, 65000, true⟩ =
    ⟨108000, ⟨[65000, 64000, 63000, 62000, 61000, 60000], true, 120000⟩, 12, 65000, true⟩ := by
  decide

set_option maxRecDepth 100000 in
lemma storm_seg_216 : stormRun 50 ⟨108000, ⟨[65000, 64000, 63000, 62000, 61000, 60000], true, 120000⟩, 12, 65000, true⟩ =
    ⟨108500, ⟨[65000, 64000, 63000, 62000, 61000, 60000], true, 120000⟩, 12, 65000, true⟩ := by
  decide

set_option maxRecDepth 100000 in
lemma storm_seg_217 : stormRun 50 ⟨108500, ⟨[65000, 64000, 63000, 62000, 61000, 60000], true, 120000⟩, 12, 65000, true⟩ =
    ⟨109000, ⟨[65000, 64000, 63000, 62000, 61000, 60000], true, 120000⟩, 12, 65000, true⟩ := by
  decide

set_option maxRecDepth 100000 in
lemma storm_seg_218 : stormRun 50 ⟨109000, ⟨[65000, 64000, 63000, 62000, 61000, 60000], true, 120000⟩, 12, 65000, true⟩ =
    ⟨109500, ⟨[65000, 64000, 63000, 62000, 61000, 60000], true, 120000⟩, 12, 65000, true⟩ := by
  decide

set_option maxRecDepth 100000 in
lemma storm_seg_219 : stormRun 50 ⟨109500, ⟨[65000, 64000, 63000, 62000, 61000, 60000], true, 120000⟩, 12, 65000, true⟩ =
    ⟨110000, ⟨[65000, 64000, 63000, 62000, 61000, 60000], true, 120000⟩, 12, 65000, true⟩ := by
  decide

set_option maxRecDepth 100000 in
lemma storm_seg_220 : stormRun 50 ⟨110000, ⟨[65000, 64000, 63000, 62000, 61000, 60000], true, 120000⟩, 12, 65000, true⟩ =
    ⟨110500, ⟨[65000, 64000, 63000, 62000, 61000, 60000], true, 120000⟩, 12, 65000, true⟩ := by
  decide

set_option maxRecDepth 100000 in
lemma storm_seg_221 : stormRun 50 ⟨110500, ⟨[65000, 64000, 63000, 62000, 61000, 60000], true, 120000⟩, 12, 65000, true⟩ =
    ⟨111000, ⟨[65000, 64000, 63000, 62000, 61000, 60000], true, 120000⟩, 12, 65000, true⟩ := by
  decide

set_option maxRecDepth 100000 in
lemma storm_seg_222 : stormRun 50 ⟨111000, ⟨[65000, 64000, 63000, 62000, 61000, 60000], true, 120000⟩, 12, 65000, true⟩ =
    ⟨111500, ⟨[65000, 64000, 63000, 62000, 61000, 60000], true, 120000⟩, 12, 65000, true⟩ := by
  decide

set_option maxRecDepth 100000 in
lemma storm_seg_223 : stormRun 50 ⟨111500, ⟨[65000, 64000, 63000, 62000, 61000, 60000], true, 120000⟩, 12, 65000, true⟩ =
    ⟨112000, ⟨[65000, 64000, 63000, 62000, 61000, 60000], true, 120000⟩, 12, 65000, true⟩ := by
  decide

set_option maxRecDepth 100000 in
lemma storm_seg_224 : stormRun 50 ⟨112000, ⟨[65000, 64000, 63000, 62000, 61000, 60000], true, 120000⟩, 12, 65000, true⟩ =
    ⟨112500, ⟨[65000, 64000, 63000, 62000, 61000, 60000], true, 120000⟩, 12, 65000, true⟩ := by
  decide

set_option maxRecDepth 100000 in
lemma storm_seg_225 : stormRun 50 ⟨112500, ⟨[65000, 64000, 63000, 62000, 61000, 60000], true, 120000⟩, 12, 65000, true⟩ =
    ⟨113000, ⟨[65000, 64000, 63000, 62000, 61000, 60000], true, 120000⟩, 12, 65000, true⟩ := by
  decide

set_option maxRecDepth 100000 in
lemma storm_seg_226 : stormRun 50 ⟨113000, ⟨[65000, 64000, 63000, 62000, 61000, 60000], true, 120000⟩, 12, 65000, true⟩ =
    ⟨113500, ⟨[65000, 64000, 63000, 62000, 61000, 60000], true, 120000⟩, 12, 65000, true⟩ := by
  decide

set_option maxRecDepth 100000 in
lemma storm_seg_227 : stormRun 50 ⟨113500, ⟨[65000, 64000, 63000, 62000, 61000, 60000], true, 120000⟩, 12, 65000, true⟩ =
    ⟨114000, ⟨[65000, 64000, 63000, 62000, 61000, 60000], true, 120000⟩, 12, 65000, true⟩ := by
  decide

set_option maxRecDepth 100000 in
lemma storm_seg_228 : stormRun 50 ⟨114000, ⟨[65000, 64000, 63000, 62000, 61000, 60000], true, 120000⟩, 12, 65000, true⟩ =
    ⟨114500, ⟨[65000, 64000, 63000, 62000, 61000, 60000], true, 120000⟩, 12, 65000, true⟩ := by
  decide

set_option maxRecDepth 100000 in
lemma storm_seg_229 : stormRun 50 ⟨114500, ⟨[65000, 64000, 63000, 62000, 61000, 60000], true, 120000⟩, 12, 65000, true⟩ =
    ⟨115000, ⟨[65000, 64000, 63000, 62000, 61000, 60000], true, 120000⟩, 12, 65000, true⟩ := by
  decide

set_option maxRecDepth 100000 in
lemma storm_seg_230 : stormRun 50 ⟨115000, ⟨[65000, 64000, 63000, 62000, 61000, 60000], true, 120000⟩, 12, 65000, true⟩ =
    ⟨115500, ⟨[65000, 64000, 63000, 62000, 61000, 60000], true, 120000⟩, 12, 65000, true⟩ := by
  decide

set_option maxRecDepth 100000 in
lemma storm_seg_231 : stormRun 50 ⟨115500, ⟨[65000, 64000, 63000, 62000, 61000, 60000], true, 120000⟩, 12, 65000, true⟩ =
    ⟨116000, ⟨[65000, 64000, 63000, 62000, 61000, 60000], true, 120000⟩, 12, 65000, true⟩ := by
  decide

set_option maxRecDepth 100000 in
lemma storm_seg_232 : stormRun 50 ⟨116000, ⟨[65000, 64000, 63000, 62000, 61000, 60000], true, 120000⟩, 12, 65000, true⟩ =
    ⟨116500, ⟨[65000, 64000, 63000, 62000, 61000, 60000], true, 120000⟩, 12, 65000, true⟩ := by
  decide

set_option maxRecDepth 100000 in
lemma storm_seg_233 : stormRun 50 ⟨116500, ⟨[65000, 64000, 63000, 62000, 61000, 60000], true, 120000⟩, 12, 65000, true⟩ =
    ⟨117000, ⟨[65000, 64000, 63000, 62000, 61000, 60000], true, 120000⟩, 12, 65000, true⟩ := by
  decide

set_option maxRecDepth 100000 in
lemma storm_seg_234 : stormRun 50 ⟨117000, ⟨[65000, 64000, 63000, 62000, 61000, 60000], true, 120000⟩, 12, 65000, true⟩ =
    ⟨117500, ⟨[65000, 64000, 63000, 62000, 61000, 60000], true, 120000⟩, 12, 65000, true⟩ := by
  decide

set_option maxRecDepth 100000 in
lemma storm_seg_235 : stormRun 50 ⟨117500, ⟨[65000, 64000, 63000, 62000, 61000, 60000], true, 120000⟩, 12, 65000, true⟩ =
    ⟨118000, ⟨[65000, 64000, 63000, 62000, 61000, 60000], true, 120000⟩, 12, 65000, true⟩ := by
  decide

set_option maxRecDepth 100000 in
lemma storm_seg_236 : stormRun 50 ⟨118000, ⟨[65000, 64000, 63000, 62000, 61000, 60000], true, 120000⟩, 12, 65000, true⟩ =
    ⟨118500, ⟨[65000, 64000, 63000, 62000, 61000, 60000], true, 120000⟩, 12, 65000, true⟩ := by
  decide

set_option maxRecDepth 100000 in
lemma storm_seg_237 : stormRun 50 ⟨118500, ⟨[65000, 64000, 63000, 62000, 61000, 60000], true, 120000⟩, 12, 65000, true⟩ =
    ⟨119000, ⟨[65000, 64000, 63000, 62000, 61000, 60000], true, 120000⟩, 12, 65000, true⟩ := by
  decide

set_option maxRecDepth 100000 in
lemma storm_seg_238 : stormRun 50 ⟨119000, ⟨[65000, 64000, 63000, 62000, 61000, 60000], true, 120000⟩, 12, 65000, true⟩ =
    ⟨119500, ⟨[65000, 64000, 63000, 62000, 61000, 60000], true, 120000⟩, 12, 65000, true⟩ := by
  decide

set_option maxRecDepth 100000 in
lemma storm_seg_239 : stormRun 50 ⟨119500, ⟨[65000, 64000, 63000, 62000, 61000, 60000], true, 120000⟩, 12, 65000, true⟩ =
    ⟨120000, ⟨[120000, 65000, 64000, 63000, 62000, 61000], false, 120000⟩, 13, 120000, true⟩ := by
  decide

set_option maxRecDepth 100000 in
lemma storm_seg_240 : stormRun 50 ⟨120000, ⟨[120000, 65000, 64000, 63000, 62000, 61000], false, 120000⟩, 13, 120000, true⟩ =
    ⟨120500, ⟨[120000, 65000, 64000, 63000, 62000, 61000], true, 121000⟩, 13, 120000, true⟩ := by
  decide

set_option maxRecDepth 100000 in
lemma storm_seg_241 : stormRun 50 ⟨120500, ⟨[120000, 65000, 64000, 63000, 62000, 61000], true, 121000⟩, 13, 120000, true⟩ =
    ⟨121000, ⟨[121000, 120000, 65000, 64000, 63000, 62000], false, 121000⟩, 14, 121000, true⟩ := by
  decide

set_option maxRecDepth 100000 in
lemma storm_seg_242 : stormRun 50 ⟨121000, ⟨[121000, 120000, 65000, 64000, 63000, 62000], false, 121000⟩, 14, 121000, true⟩ =
    ⟨121500, ⟨[121000, 120000, 65000, 64000, 63000, 62000], true, 122000⟩, 14, 121000, true⟩ := by
  decide

set_option maxRecDepth 100000 in
lemma storm_seg_243 : stormRun 50 ⟨121500, ⟨[121000, 120000, 65000, 64000, 63000, 62000], true, 122000⟩, 14, 121000, true⟩ =
    ⟨122000, ⟨[122000, 121000, 120000, 65000, 64000, 63000], false, 122000⟩, 15, 122000, true⟩ := by
  decide

set_option maxRecDepth 100000 in
lemma storm_seg_244 : stormRun 50 ⟨122000, ⟨[122000, 121000, 120000, 65000, 64000, 63000], false, 122000⟩, 15, 122000, true⟩ =
    ⟨122500, ⟨[122000, 121000, 120000, 65000, 64000, 63000], true, 123000⟩, 15, 122000, true⟩ := by
  decide

set_option maxRecDepth 100000 in
lemma storm_seg_245 : stormRun 50 ⟨122500, ⟨[122000, 121000, 120000, 65000, 64000, 63000], true, 123000⟩, 15, 122000, true⟩ =
    ⟨123000, ⟨[123000, 122000, 121000, 120000, 65000, 64000], false, 123000⟩, 16, 123000, true⟩ := by
  decide

set_option maxRecDepth 100000 in
lemma storm_seg_246 : stormRun 50 ⟨123000, ⟨[123000, 122000, 121000, 120000, 65000, 64000], false, 123000⟩, 16, 123000, true⟩ =
    ⟨123500, ⟨[123000, 122000, 121000, 120000, 65000, 64000], true, 124000⟩, 16, 123000, true⟩ := by
  decide

set_option maxRecDepth 100000 in
lemma storm_seg_247 : stormRun 50 ⟨123500, ⟨[123000, 122000, 121000, 120000, 65000, 64000], true, 124000⟩, 16, 123000, true⟩ =
    ⟨124000, ⟨[124000, 123000, 122000, 121000, 120000, 65000], false, 124000⟩, 17, 124000, true⟩ := by
  decide

set_option maxRecDepth 100000 in
lemma storm_seg_248 : stormRun 50 ⟨124000, ⟨[124000, 123000, 122000, 121000, 120000, 65000], false, 124000⟩, 17, 124000, true⟩ =
    ⟨124500, ⟨[124000, 123000, 122000, 121000, 120000, 65000], true, 125000⟩, 17, 124000, true⟩ := by
  decide

set_option maxRecDepth 100000 in
lemma storm_seg_249 : stormRun 50 ⟨124500, ⟨[124000, 123000, 122000, 121000, 120000, 65000], true, 125000⟩, 17, 124000, true⟩ =
    ⟨125000, ⟨[125000, 124000, 123000, 122000, 121000, 120000], false, 125000⟩, 18, 125000, true⟩ := by
  decide

set_option maxRecDepth 100000 in
lemma storm_seg_250 : stormRun 50 ⟨125000, ⟨[125000, 124000, 123000, 122000, 121000, 120000], false, 125000⟩, 18, 125000, true⟩ =
    ⟨125500, ⟨[125000, 124000, 123000, 122000, 121000, 120000], true, 180000⟩, 18, 125000, true⟩ := by
  decide

set_option maxRecDepth 100000 in
lemma storm_seg_251 : stormRun 50 ⟨125500, ⟨[125000, 124000, 123000, 122000, 121000, 120000], true, 180000⟩, 18, 125000, true⟩ =
    ⟨126000, ⟨[125000, 124000, 123000, 122000, 121000, 120000], true, 180000⟩, 18, 125000, true⟩ := by
  decide

set_option maxRecDepth 100000 in
lemma storm_seg_252 : stormRun 50 ⟨126000, ⟨[125000, 124000, 123000, 122000, 121000, 120000], true, 180000⟩, 18, 125000, true⟩ =
    ⟨126500, ⟨[125000, 124000, 123000, 122000, 121000, 120000], true, 180000⟩, 18, 125000, true⟩ := by
  decide

set_option maxRecDepth 100000 in
lemma storm_seg_253 : stormRun 50 ⟨126500, ⟨[125000, 124000, 123000, 122000, 121000, 120000], true, 180000⟩, 18, 125000, true⟩ =
    ⟨127000, ⟨[125000, 124000, 123000, 122000, 121000, 120000], true, 180000⟩, 18, 125000, true⟩ := by
  decide

set_option maxRecDepth 100000 in
lemma storm_seg_254 : stormRun 50 ⟨127000, ⟨[125000, 124000, 123000, 122000, 121000, 120000], true, 180000⟩, 18, 125000, true⟩ =
    ⟨127500, ⟨[125000, 124000, 123000, 122000, 121000, 120000], true, 180000⟩, 18, 125000, true⟩ := by
  decide

set_option maxRecDepth 100000 in
lemma storm_seg_255 : stormRun 50 ⟨127500, ⟨[125000, 124000, 123000, 122000, 121000, 120000], true, 180000⟩, 18, 125000, true⟩ =
    ⟨128000, ⟨[125000, 124000, 123000, 122000, 121000, 120000], true, 180000⟩, 18, 125000, true⟩ := by
  decide

set_option maxRecDepth 100000 in
lemma storm_seg_256 : stormRun 50 ⟨128000, ⟨[125000, 124000, 123000, 122000, 121000, 120000], true, 180000⟩, 18, 125000, true⟩ =
    ⟨128500, ⟨[125000, 124000, 123000, 122000, 121000, 120000], true, 180000⟩, 18, 125000, true⟩ := by
  decide

set_option maxRecDepth 100000 in
lemma storm_seg_257 : stormRun 50 ⟨128500, ⟨[125000, 124000, 123000, 122000, 121000, 120000], true, 180000⟩, 18, 125000, true⟩ =
    ⟨129000, ⟨[125000, 124000, 123000, 122000, 121000, 120000], true, 180000⟩, 18, 125000, true⟩ := by
  decide

set_option maxRecDepth 100000 in
lemma storm_seg_258 : stormRun 50 ⟨129000, ⟨[125000, 124000, 123000, 122000, 121000, 120000], true, 180000⟩, 18, 125000, true⟩ =
    ⟨129500, ⟨[125000, 124000, 123000, 122000, 121000, 120000], true, 180000⟩, 18, 125000, true⟩ := by
  decide

set_option maxRecDepth 100000 in
lemma storm_seg_259 : stormRun 50 ⟨129500, ⟨[125000, 124000, 123000, 122000, 121000, 120000], true, 180000⟩, 18, 125000, true⟩ =
    ⟨130000, ⟨[125000, 124000, 123000, 122000, 121000, 120000], true, 180000⟩, 18, 125000, true⟩ := by
  decide

set_option maxRecDepth 100000 in
lemma storm_seg_260 : stormRun 50 ⟨130000, ⟨[125000, 124000, 123000, 122000, 121000, 120000], true, 180000⟩, 18, 125000, true⟩ =
    ⟨130500, ⟨[125000, 124000, 123000, 122000, 121000, 120000], true, 180000⟩, 18, 125000, true⟩ := by
  decide

set_option maxRecDepth 100000 in
lemma storm_seg_261 : stormRun 50 ⟨130500, ⟨[125000, 124000, 123000, 122000, 121000, 120000], true, 180000⟩, 18, 125000, true⟩ =
    ⟨131000, ⟨[125000, 124000, 123000, 122000, 121000, 120000], true, 180000⟩, 18, 125000, true⟩ := by
  decide

set_option maxRecDepth 100000 in
lemma storm_seg_262 : stormRun 50 ⟨131000, ⟨[125000, 124000, 123000, 122000, 121000, 120000], true, 180000⟩, 18, 125000, true⟩ =
    ⟨131500, ⟨[125000, 124000, 123000, 122000, 121000, 120000], true, 180000⟩, 18, 125000, true⟩ := by
  decide

set_option maxRecDepth 100000 in
lemma storm_seg_263 : stormRun 50 ⟨131500, ⟨[125000, 124000, 123000, 122000, 121000, 120000], true, 180000⟩, 18, 125000, true⟩ =
    ⟨132000, ⟨[125000, 124000, 123000, 122000, 121000, 120000], true, 180000⟩, 18, 125000, true⟩ := by
  decide

set_option maxRecDepth 100000 in
lemma storm_seg_264 : stormRun 50 ⟨132000, ⟨[125000, 124000, 123000, 122000, 121000, 120000], true, 180000⟩, 18, 125000, true⟩ =
    ⟨132500, ⟨[125000, 124000, 123000, 122000, 121000, 120000], true, 180000⟩, 18, 125000, true⟩ := by
  decide

set_option maxRecDepth 100000 in
lemma storm_seg_265 : stormRun 50 ⟨132500, ⟨[125000, 124000, 123000, 122000, 121000, 120000], true, 180000⟩, 18, 125000, true⟩ =
    ⟨133000, ⟨[125000, 124000, 123000, 122000, 121000, 120000], true, 180000⟩, 18, 125000, true⟩ := by
  decide

set_option maxRecDepth 100000 in
lemma storm_seg_266 : stormRun 50 ⟨133000, ⟨[125000, 124000, 123000, 122000, 121000, 120000], true, 180000⟩, 18, 125000, true⟩ =
    ⟨133500, ⟨[125000, 124000, 123000, 122000, 121000, 120000], true, 180000⟩, 18, 125000, true⟩ := by
  decide

set_option maxRecDepth 100000 in
lemma storm_seg_267 : stormRun 50 ⟨133500, ⟨[125000, 124000, 123000, 122000, 121000, 120000], true, 180000⟩, 18, 125000, true⟩ =
    ⟨134000, ⟨[125000, 124000, 123000, 122000, 121000, 120000], true, 180000⟩, 18, 125000, true⟩ := by
  decide

set_option maxRecDepth 100000 in
lemma storm_seg_268 : stormRun 50 ⟨134000, ⟨[125000, 124000, 123000, 122000, 121000, 120000], true, 180000⟩, 18, 125000, true⟩ =
    ⟨134500, ⟨[125000, 124000, 123000, 122000, 121000, 120000], true, 180000⟩, 18, 125000, true⟩ := by
  decide

set_option maxRecDepth 100000 in
lemma storm_seg_269 : stormRun 50 ⟨134500, ⟨[125000, 124000, 123000, 122000, 121000, 120000], true, 180000⟩, 18, 125000, true⟩ =
    ⟨135000, ⟨[125000, 124000, 123000, 122000, 121000, 120000], true, 180000⟩, 18, 125000, true⟩ := by
  decide

set_option maxRecDepth 100000 in
lemma storm_seg_270 : stormRun 50 ⟨135000, ⟨[125000, 124000, 123000, 122000, 121000, 120000], true, 180000⟩, 18, 125000, true⟩ =
    ⟨135500, ⟨[125000, 124000, 123000, 122000, 121000, 120000], true, 180000⟩, 18, 125000, true⟩ := by
  decide

set_option maxRecDepth 100000 in
lemma storm_seg_271 : stormRun 50 ⟨135500, ⟨[125000, 124000, 123000, 122000, 121000, 120000], true, 180000⟩, 18, 125000, true⟩ =
    ⟨136000, ⟨[125000, 124000, 123000, 122000, 121000, 120000], true, 180000⟩, 18, 125000, true⟩ := by
  decide

set_option maxRecDepth 100000 in
lemma storm_seg_272 : stormRun 50 ⟨136000, ⟨[125000, 124000, 123000, 122000, 121000, 120000], true, 180000⟩, 18, 125000, true⟩ =
    ⟨136500, ⟨[125000, 124000, 123000, 122000, 121000, 120000], true, 180000⟩, 18, 125000, true⟩ := by
  decide

set_option maxRecDepth 100000 in
lemma storm_seg_273 : stormRun 50 ⟨136500, ⟨[125000, 124000, 123000, 122000, 121000, 120000], true, 180000⟩, 18, 125000, true⟩ =
    ⟨137000, ⟨[125000, 124000, 123000, 122000, 121000, 120000], true, 180000⟩, 18, 125000, true⟩ := by
  decide

set_option maxRecDepth 100000 in
lemma storm_seg_274 : stormRun 50 ⟨137000, ⟨[125000, 124000, 123000, 122000, 121000, 120000], true, 180000⟩, 18, 125000, true⟩ =
    ⟨137500, ⟨[125000, 124000, 123000, 122000, 121000, 120000], true, 180000⟩, 18, 125000, true⟩ := by
  decide

set_option maxRecDepth 100000 in
lemma storm_seg_275 : stormRun 50 ⟨137500, ⟨[125000, 124000, 123000, 122000, 121000, 120000], true, 180000⟩, 18, 125000, true⟩ =
    ⟨138000, ⟨[125000, 124000, 123000, 122000, 121000, 120000], true, 180000⟩, 18, 125000, true⟩ := by
  decide

set_option maxRecDepth 100000 in
lemma storm_seg_276 : stormRun 50 ⟨138000, ⟨[125000, 124000, 123000, 122000, 121000, 120000], true, 180000⟩, 18, 125000, true⟩ =
    ⟨138500, ⟨[125000, 124000, 123000, 122000, 121000, 120000], true, 180000⟩, 18, 125000, true⟩ := by
  decide

set_option maxRecDepth 100000 in
lemma storm_seg_277 : stormRun 50 ⟨138500, ⟨[125000, 124000, 123000, 122000, 121000, 120000], true, 180000⟩, 18, 125000, true⟩ =
    ⟨139000, ⟨[125000, 124000, 123000, 122000, 121000, 120000], true, 180000⟩, 18, 125000, true⟩ := by
  decide

set_option maxRecDepth 100000 in
lemma storm_seg_278 : stormRun 50 ⟨139000, ⟨[125000, 124000, 123000, 122000, 121000, 120000], true, 180000⟩, 18, 125000, true⟩ =
    ⟨139500, ⟨[125000, 124000, 123000, 122000, 121000, 120000], true, 180000⟩, 18, 125000, true⟩ := by
  decide

set_option maxRecDepth 100000 in
lemma storm_seg_279 : stormRun 50 ⟨139500, ⟨[125000, 124000, 123000, 122000, 121000, 120000], true, 180000⟩, 18, 125000, true⟩ =
    ⟨140000, ⟨[125000, 124000, 123000, 122000, 121000, 120000], true, 180000⟩, 18, 125000, true⟩ := by
  decide

set_option maxRecDepth 100000 in
lemma storm_seg_280 : stormRun 50 ⟨140000, ⟨[125000, 124000, 123000, 122000, 121000, 120000], true, 180000⟩, 18, 125000, true⟩ =
    ⟨140500, ⟨[125000, 124000, 123000, 122000, 121000, 120000], true, 180000⟩, 18, 125000, true⟩ := by
  decide

set_option maxRecDepth 100000 in
lemma storm_seg_281 : stormRun 50 ⟨140500, ⟨[125000, 124000, 123000, 122000, 121000, 120000], true, 180000⟩, 18, 125000, true⟩ =
    ⟨141000, ⟨[125000, 124000, 123000, 122000, 121000, 120000], true, 180000⟩, 18, 125000, true⟩ := by
  decide

set_option maxRecDepth 100000 in
lemma storm_seg_282 : stormRun 50 ⟨141000, ⟨[125000, 124000, 123000, 122000, 121000, 120000], true, 180000⟩, 18, 125000, true⟩ =
    ⟨141500, ⟨[125000, 124000, 123000, 122000, 121000, 120000], true, 180000⟩, 18, 125000, true⟩ := by
  decide

set_option maxRecDepth 100000 in
lemma storm_seg_283 : stormRun 50 ⟨141500, ⟨[125000, 124000, 123000, 122000, 121000, 120000], true, 180000⟩, 18, 125000, true⟩ =
    ⟨142000, ⟨[125000, 124000, 123000, 122000, 121000, 120000], true, 180000⟩, 18, 125000, true⟩ := by
  decide

set_option maxRecDepth 100000 in
lemma storm_seg_284 : stormRun 50 ⟨142000, ⟨[125000, 124000, 123000, 122000, 121000, 120000], true, 180000⟩, 18, 125000, true⟩ =
    ⟨142500, ⟨[125000, 124000, 123000, 122000, 121000, 120000], true, 180000⟩, 18, 125000, true⟩ := by
  decide

set_option maxRecDepth 100000 in
lemma storm_seg_285 : stormRun 50 ⟨142500, ⟨[125000, 124000, 123000, 122000, 121000, 120000], true, 180000⟩, 18, 125000, true⟩ =
    ⟨143000, ⟨[125000, 124000, 123000, 122000, 121000, 120000], true, 180000⟩, 18, 125000, true⟩ := by
  decide

set_option maxRecDepth 100000 in
lemma storm_seg_286 : stormRun 50 ⟨143000, ⟨[125000, 124000, 123000, 122000, 121000, 120000], true, 180000⟩, 18, 125000, true⟩ =
    ⟨143500, ⟨[125000, 124000, 123000, 122000, 121000, 120000], true, 180000⟩, 18, 125000, true⟩ := by
  decide

set_option maxRecDepth 100000 in
lemma storm_seg_287 : stormRun 50 ⟨143500, ⟨[125000, 124000, 123000, 122000, 121000, 120000], true, 180000⟩, 18, 125000, true⟩ =
    ⟨144000, ⟨[125000, 124000, 123000, 122000, 121000, 120000], true, 180000⟩, 18, 125000, true⟩ := by
  decide

set_option maxRecDepth 100000 in
lemma storm_seg_288 : stormRun 50 ⟨144000, ⟨[125000, 124000, 123000, 122000, 121000, 120000], true, 180000⟩, 18, 125000, true⟩ =
    ⟨144500, ⟨[125000, 124000, 123000, 122000, 121000, 120000], true, 180000⟩, 18, 125000, true⟩ := by
  decide

set_option maxRecDepth 100000 in
lemma storm_seg_289 : stormRun 50 ⟨144500, ⟨[125000, 124000, 123000, 122000, 121000, 120000], true, 180000⟩, 18, 125000, true⟩ =
    ⟨145000, ⟨[125000, 124000, 123000, 122000, 121000, 120000], true, 180000⟩, 18, 125000, true⟩ := by
  decide

set_option maxRecDepth 100000 in
lemma storm_seg_290 : stormRun 50 ⟨145000, ⟨[125000, 124000, 123000, 122000, 121000, 120000], true, 180000⟩, 18, 125000, true⟩ =
    ⟨145500, ⟨[125000, 124000, 123000, 122000, 121000, 120000], true, 180000⟩, 18, 125000, true⟩ := by
  decide

set_option maxRecDepth 100000 in
lemma storm_seg_291 : stormRun 50 ⟨145500, ⟨[125000, 124000, 123000, 122000, 121000, 120000], true, 180000⟩, 18, 125000, true⟩ =
    ⟨146000, ⟨[125000, 124000, 123000, 122000, 121000, 120000], true, 180000⟩, 18, 125000, true⟩ := by
  decide

set_option maxRecDepth 100000 in
lemma storm_seg_292 : stormRun 50 ⟨146000, ⟨[125000, 124000, 123000, 122000, 121000, 120000], true, 180000⟩, 18, 125000, true⟩ =
    ⟨146500, ⟨[125000, 124000, 123000, 122000, 121000, 120000], true, 180000⟩, 18, 125000, true⟩ := by
  decide

set_option maxRecDepth 100000 in
lemma storm_seg_293 : stormRun 50 ⟨146500, ⟨[125000, 124000, 123000, 122000, 121000, 120000], true, 180000⟩, 18, 125000, true⟩ =
    ⟨147000, ⟨[125000, 124000, 123000, 122000, 121000, 120000], true, 180000⟩, 18, 125000, true⟩ := by
  decide

set_option maxRecDepth 100000 in
lemma storm_seg_294 : stormRun 50 ⟨147000, ⟨[125000, 124000, 123000, 122000, 121000, 120000], true, 180000⟩, 18, 125000, true⟩ =
    ⟨147500, ⟨[125000, 124000, 123000, 122000, 121000, 120000], true, 180000⟩, 18, 125000, true⟩ := by
  decide

set_option maxRecDepth 100000 in
lemma storm_seg_295 : stormRun 50 ⟨147500, ⟨[125000, 124000, 123000, 122000, 121000, 120000], true, 180000⟩, 18, 125000, true⟩ =
    ⟨148000, ⟨[125000, 124000, 123000, 122000, 121000, 120000], true, 180000⟩, 18, 125000, true⟩ := by
  decide

set_option maxRecDepth 100000 in
lemma storm_seg_296 : stormRun 50 ⟨148000, ⟨[125000, 124000, 123000, 122000, 121000, 120000], true, 180000⟩, 18, 125000, true⟩ =
    ⟨148500, ⟨[125000, 124000, 123000, 122000, 121000, 120000], true, 180000⟩, 18, 125000, true⟩ := by
  decide

set_option maxRecDepth 100000 in
lemma storm_seg_297 : stormRun 50 ⟨148500, ⟨[125000, 124000, 123000, 122000, 121000, 120000], true, 180000⟩, 18, 125000, true⟩ =
    ⟨149000, ⟨[125000, 124000, 123000, 122000, 121000, 120000], true, 180000⟩, 18, 125000, true⟩ := by
  decide

set_option maxRecDepth 100000 in
lemma storm_seg_298 : stormRun 50 ⟨149000, ⟨[125000, 124000, 123000, 122000, 121000, 120000], true, 180000⟩, 18, 125000, true⟩ =
    ⟨149500, ⟨[125000, 124000, 123000, 122000, 121000, 120000], true, 180000⟩, 18, 125000, true⟩ := by
  decide

set_option maxRecDepth 100000 in
lemma storm_seg_299 : stormRun 50 ⟨149500, ⟨[125000, 124000, 123000, 122000, 121000, 120000], true, 180000⟩, 18, 125000, true⟩ =
    ⟨150000, ⟨[125000, 124000, 123000, 122000, 121000, 120000], true, 180000⟩, 18, 125000, true⟩ := by
  decide

set_option maxRecDepth 100000 in
lemma storm_seg_300 : stormRun 50 ⟨150000, ⟨[125000, 124000, 123000, 122000, 121000, 120000], true, 180000⟩, 18, 125000, true⟩ =
    ⟨150500, ⟨[125000, 124000, 123000, 122000, 121000, 120000], true, 180000⟩, 18, 125000, true⟩ := by
  decide

set_option maxRecDepth 100000 in
lemma storm_seg_301 : stormRun 50 ⟨150500, ⟨[125000, 124000, 123000, 122000, 121000, 120000], true, 180000⟩, 18, 125000, true⟩ =
    ⟨151000, ⟨[125000, 124000, 123000, 122000, 121000, 120000], true, 180000⟩, 18, 125000, true⟩ := by
  decide

set_option maxRecDepth 100000 in
lemma storm_seg_302 : stormRun 50 ⟨151000, ⟨[125000, 124000, 123000, 122000, 121000, 120000], true, 180000⟩, 18, 125000, true⟩ =
    ⟨151500, ⟨[125000, 124000, 123000, 122000, 121000, 120000], true, 180000⟩, 18, 125000, true⟩ := by
  decide

set_option maxRecDepth 100000 in
lemma storm_seg_303 : stormRun 50 ⟨151500, ⟨[125000, 124000, 123000, 122000, 121000, 120000], true, 180000⟩, 18, 125000, true⟩ =
    ⟨152000, ⟨[125000, 124000, 123000, 122000, 121000, 120000], true, 180000⟩, 18, 125000, true⟩ := by
  decide

set_option maxRecDepth 100000 in
lemma storm_seg_304 : stormRun 50 ⟨152000, ⟨[125000, 124000, 123000, 122000, 121000, 120000], true, 180000⟩, 18, 125000, true⟩ =
    ⟨152500, ⟨[125000, 124000, 123000, 122000, 121000, 120000], true, 180000⟩, 18, 125000, true⟩ := by
  decide

set_option maxRecDepth 100000 in
lemma storm_seg_305 : stormRun 50 ⟨152500, ⟨[125000, 124000, 123000, 122000, 121000, 120000], true, 180000⟩, 18, 125000, true⟩ =
    ⟨153000, ⟨[125000, 124000, 123000, 122000, 121000, 120000], true, 180000⟩, 18, 125000, true⟩ := by
  decide

set_option maxRecDepth 100000 in
lemma storm_seg_306 : stormRun 50 ⟨153000, ⟨[125000, 124000, 123000, 122000, 121000, 120000], true, 180000⟩, 18, 125000, true⟩ =
    ⟨153500, ⟨[125000, 124000, 123000, 122000, 121000, 120000], true, 180000⟩, 18, 125000, true⟩ := by
  decide

set_option maxRecDepth 100000 in
lemma storm_seg_307 : stormRun 50 ⟨153500, ⟨[125000, 124000, 123000, 122000, 121000, 120000], true, 180000⟩, 18, 125000, true⟩ =
    ⟨154000, ⟨[125000, 124000, 123000, 122000, 121000, 120000], true, 180000⟩, 18, 125000, true⟩ := by
  decide

set_option maxRecDepth 100000 in
lemma storm_seg_308 : stormRun 50 ⟨154000, ⟨[125000, 124000, 123000, 122000, 121000, 120000], true, 180000⟩, 18, 125000, true⟩ =
    ⟨154500, ⟨[125000, 124000, 123000, 122000, 121000, 120000], true, 180000⟩, 18, 125000, true⟩ := by
  decide

set_option maxRecDepth 100000 in
lemma storm_seg_309 : stormRun 50 ⟨154500, ⟨[125000, 124000, 123000, 122000, 121000, 120000], true, 180000⟩, 18, 125000, true⟩ =
    ⟨155000, ⟨[125000, 124000, 123000, 122000, 121000, 120000], true, 180000⟩, 18, 125000, true⟩ := by
  decide

set_option maxRecDepth 100000 in
lemma storm_seg_310 : stormRun 50 ⟨155000, ⟨[125000, 124000, 123000, 122000, 121000, 120000], true, 180000⟩, 18, 125000, true⟩ =
    ⟨155500, ⟨[125000, 124000, 123000, 122000, 121000, 120000], true, 180000⟩, 18, 125000, true⟩ := by
  decide

set_option maxRecDepth 100000 in
lemma storm_seg_311 : stormRun 50 ⟨155500, ⟨[125000, 124000, 123000, 122000, 121000, 120000], true, 180000⟩, 18, 125000, true⟩ =
    ⟨156000, ⟨[125000, 124000, 123000, 122000, 121000, 120000], true, 180000⟩, 18, 125000, true⟩ := by
  decide

set_option maxRecDepth 100000 in
lemma storm_seg_312 : stormRun 50 ⟨156000, ⟨[125000, 124000, 123000, 122000, 121000, 120000], true, 180000⟩, 18, 125000, true⟩ =
    ⟨156500, ⟨[125000, 124000, 123000, 122000, 121000, 120000], true, 180000⟩, 18, 125000, true⟩ := by
  decide

set_option maxRecDepth 100000 in
lemma storm_seg_313 : stormRun 50 ⟨156500, ⟨[125000, 124000, 123000, 122000, 121000, 120000], true, 180000⟩, 18, 125000, true⟩ =
    ⟨157000, ⟨[125000, 124000, 123000, 122000, 121000, 120000], true, 180000⟩, 18, 125000, true⟩ := by
  decide

set_option maxRecDepth 100000 in
lemma storm_seg_314 : stormRun 50 ⟨157000, ⟨[125000, 124000, 123000, 122000, 121000, 120000], true, 180000⟩, 18, 125000, true⟩ =
    ⟨157500, ⟨[125000, 124000, 123000, 122000, 121000, 120000], true, 180000⟩, 18, 125000, true⟩ := by
  decide

set_option maxRecDepth 100000 in
lemma storm_seg_315 : stormRun 50 ⟨157500, ⟨[125000, 124000, 123000, 122000, 121000, 120000], true, 180000⟩, 18, 125000, true⟩ =
    ⟨158000, ⟨[125000, 124000, 123000, 122000, 121000, 120000], true, 180000⟩, 18, 125000, true⟩ := by
  decide

set_option maxRecDepth 100000 in
lemma storm_seg_316 : stormRun 50 ⟨158000, ⟨[125000, 124000, 123000, 122000, 121000, 120000], true, 180000⟩, 18, 125000, true⟩ =
    ⟨158500, ⟨[125000, 124000, 123000, 122000, 121000, 120000], true, 180000⟩, 18, 125000, true⟩ := by
  decide

set_option maxRecDepth 100000 in
lemma storm_seg_317 : stormRun 50 ⟨158500, ⟨[125000, 124000, 123000, 122000, 121000, 120000], true, 180000⟩, 18, 125000, true⟩ =
    ⟨159000, ⟨[125000, 124000, 123000, 122000, 121000, 120000], true, 180000⟩, 18, 125000, true⟩ := by
  decide

set_option maxRecDepth 100000 in
lemma storm_seg_318 : stormRun 50 ⟨159000, ⟨[125000, 124000, 123000, 122000, 121000, 120000], true, 180000⟩, 18, 125000, true⟩ =
    ⟨159500, ⟨[125000, 124000, 123000, 122000, 121000, 120000], true, 180000⟩, 18, 125000, true⟩ := by
  decide

set_option maxRecDepth 100000 in
lemma storm_seg_319 : stormRun 50 ⟨159500, ⟨[125000, 124000, 123000, 122000, 121000, 120000], true, 180000⟩, 18, 125000, true⟩ =
    ⟨160000, ⟨[125000, 124000, 123000, 122000, 121000, 120000], true, 180000⟩, 18, 125000, true⟩ := by
  decide

set_option maxRecDepth 100000 in
lemma storm_seg_320 : stormRun 50 ⟨160000, ⟨[125000, 124000, 123000, 122000, 121000, 120000], true, 180000⟩, 18, 125000, true⟩ =
    ⟨160500, ⟨[125000, 124000, 123000, 122000, 121000, 120000], true, 180000⟩, 18, 125000, true⟩ := by
  decide

set_option maxRecDepth 100000 in
lemma storm_seg_321 : stormRun 50 ⟨160500, ⟨[125000, 124000, 123000, 122000, 121000, 120000], true, 180000⟩, 18, 125000, true⟩ =
    ⟨161000, ⟨[125000, 124000, 123000, 122000, 121000, 120000], true, 180000⟩, 18, 125000, true⟩ := by
  decide

set_option maxRecDepth 100000 in
lemma storm_seg_322 : stormRun 50 ⟨161000, ⟨[125000, 124000, 123000, 122000, 121000, 120000], true, 180000⟩, 18, 125000, true⟩ =
    ⟨161500, ⟨[125000, 124000, 123000, 122000, 121000, 120000], true, 180000⟩, 18, 125000, true⟩ := by
  decide

set_option maxRecDepth 100000 in
lemma storm_seg_323 : stormRun 50 ⟨161500, ⟨[125000, 124000, 123000, 122000, 121000, 120000], true, 180000⟩, 18, 125000, true⟩ =
    ⟨162000, ⟨[125000, 124000, 123000, 122000, 121000, 120000], true, 180000⟩, 18, 125000, true⟩ := by
  decide

set_option maxRecDepth 100000 in
lemma storm_seg_324 : stormRun 50 ⟨162000, ⟨[125000, 124000, 123000, 122000, 121000, 120000], true, 180000⟩, 18, 125000, true⟩ =
    ⟨162500, ⟨[125000, 124000, 123000, 122000, 121000, 120000], true, 180000⟩, 18, 125000, true⟩ := by
  decide

set_option maxRecDepth 100000 in
lemma storm_seg_325 : stormRun 50 ⟨162500, ⟨[125000, 124000, 123000, 122000, 121000, 120000], true, 180000⟩, 18, 125000, true⟩ =
    ⟨163000, ⟨[125000, 124000, 123000, 122000, 121000, 120000], true, 180000⟩, 18, 125000, true⟩ := by
  decide

set_option maxRecDepth 100000 in
lemma storm_seg_326 : stormRun 50 ⟨163000, ⟨[125000, 124000, 123000, 122000, 121000, 120000], true, 180000⟩, 18, 125000, true⟩ =
    ⟨163500, ⟨[125000, 124000, 123000, 122000, 121000, 120000], true, 180000⟩, 18, 125000, true⟩ := by
  decide

set_option maxRecDepth 100000 in
lemma storm_seg_327 : stormRun 50 ⟨163500, ⟨[125000, 124000, 123000, 122000, 121000, 120000], true, 180000⟩, 18, 125000, true⟩ =
    ⟨164000, ⟨[125000, 124000, 123000, 122000, 121000, 120000], true, 180000⟩, 18, 125000, true⟩ := by
  decide

set_option maxRecDepth 100000 in
lemma storm_seg_328 : stormRun 50 ⟨164000, ⟨[125000, 124000, 123000, 122000, 121000, 120000], true, 180000⟩, 18, 125000, true⟩ =
    ⟨164500, ⟨[125000, 124000, 123000, 122000, 121000, 120000], true, 180000⟩, 18, 125000, true⟩ := by
  decide

set_option maxRecDepth 100000 in
lemma storm_seg_329 : stormRun 50 ⟨164500, ⟨[125000, 124000, 123000, 122000, 121000, 120000], true, 180000⟩, 18, 125000, true⟩ =
    ⟨165000, ⟨[125000, 124000, 123000, 122000, 121000, 120000], true, 180000⟩, 18, 125000, true⟩ := by
  decide

set_option maxRecDepth 100000 in
lemma storm_seg_330 : stormRun 50 ⟨165000, ⟨[125000, 124000, 123000, 122000, 121000, 120000], true, 180000⟩, 18, 125000, true⟩ =
    ⟨165500, ⟨[125000, 124000, 123000, 122000, 121000, 120000], true, 180000⟩, 18, 125000, true⟩ := by
  decide

set_option maxRecDepth 100000 in
lemma storm_seg_331 : stormRun 50 ⟨165500, ⟨[125000, 124000, 123000, 122000, 121000, 120000], true, 180000⟩, 18, 125000, true⟩ =
    ⟨166000, ⟨[125000, 124000, 123000, 122000, 121000, 120000], true, 180000⟩, 18, 125000, true⟩ := by
  decide

set_option maxRecDepth 100000 in
lemma storm_seg_332 : stormRun 50 ⟨166000, ⟨[125000, 124000, 123000, 122000, 121000, 120000], true, 180000⟩, 18, 125000, true⟩ =
    ⟨166500, ⟨[125000, 124000, 123000, 122000, 121000, 120000], true, 180000⟩, 18, 125000, true⟩ := by
  decide

set_option maxRecDepth 100000 in
lemma storm_seg_333 : stormRun 50 ⟨166500, ⟨[125000, 124000, 123000, 122000, 121000, 120000], true, 180000⟩, 18, 125000, true⟩ =
    ⟨167000, ⟨[125000, 124000, 123000, 122000, 121000, 120000], true, 180000⟩, 18, 125000, true⟩ := by
  decide

set_option maxRecDepth 100000 in
lemma storm_seg_334 : stormRun 50 ⟨167000, ⟨[125000, 124000, 123000, 122000, 121000, 120000], true, 180000⟩, 18, 125000, true⟩ =
    ⟨167500, ⟨[125000, 124000, 123000, 122000, 121000, 120000], true, 180000⟩, 18, 125000, true⟩ := by
  decide

set_option maxRecDepth 100000 in
lemma storm_seg_335 : stormRun 50 ⟨167500, ⟨[125000, 124000, 123000, 122000, 121000, 120000], true, 180000⟩, 18, 125000, true⟩ =
    ⟨168000, ⟨[125000, 124000, 123000, 122000, 121000, 120000], true, 180000⟩, 18, 125000, true⟩ := by
  decide

set_option maxRecDepth 100000 in
lemma storm_seg_336 : stormRun 50 ⟨168000, ⟨[125000, 124000, 123000, 122000, 121000, 120000], true, 180000⟩, 18, 125000, true⟩ =
    ⟨168500, ⟨[125000, 124000, 123000, 122000, 121000, 120000], true, 180000⟩, 18, 125000, true⟩ := by
  decide

set_option maxRecDepth 100000 in
lemma storm_seg_337 : stormRun 50 ⟨168500, ⟨[125000, 124000, 123000, 122000, 121000, 120000], true, 180000⟩, 18, 125000, true⟩ =
    ⟨169000, ⟨[125000, 124000, 123000, 122000, 121000, 120000], true, 180000⟩, 18, 125000, true⟩ := by
  decide

set_option maxRecDepth 100000 in
lemma storm_seg_338 : stormRun 50 ⟨169000, ⟨[125000, 124000, 123000, 122000, 121000, 120000], true, 180000⟩, 18, 125000, true⟩ =
    ⟨169500, ⟨[125000, 124000, 123000, 122000, 121000, 120000], true, 180000⟩, 18, 125000, true⟩ := by
  decide

set_option maxRecDepth 100000 in
lemma storm_seg_339 : stormRun 50 ⟨169500, ⟨[125000, 124000, 123000, 122000, 121000, 120000], true, 180000⟩, 18, 125000, true⟩ =
    ⟨170000, ⟨[125000, 124000, 123000, 122000, 121000, 120000], true, 180000⟩, 18, 125000, true⟩ := by
  decide

set_option maxRecDepth 100000 in
lemma storm_seg_340 : stormRun 50 ⟨170000, ⟨[125000, 124000, 123000, 122000, 121000, 120000], true, 180000⟩, 18, 125000, true⟩ =
    ⟨170500, ⟨[125000, 124000, 123000, 122000, 121000, 120000], true, 180000⟩, 18, 125000, true⟩ := by
  decide

set_option maxRecDepth 100000 in
lemma storm_seg_341 : stormRun 50 ⟨170500, ⟨[125000, 124000, 123000, 122000, 121000, 120000], true, 180000⟩, 18, 125000, true⟩ =
    ⟨171000, ⟨[125000, 124000, 123000, 122000, 121000, 120000], true, 180000⟩, 18, 125000, true⟩ := by
  decide

set_option maxRecDepth 100000 in
lemma storm_seg_342 : stormRun 50 ⟨171000, ⟨[125000, 124000, 123000, 122000, 121000, 120000], true, 180000⟩, 18, 125000, true⟩ =
    ⟨171500, ⟨[125000, 124000, 123000, 122000, 121000, 120000], true, 180000⟩, 18, 125000, true⟩ := by
  decide

set_option maxRecDepth 100000 in
lemma storm_seg_343 : stormRun 50 ⟨171500, ⟨[125000, 124000, 123000, 122000, 121000, 120000], true, 180000⟩, 18, 125000, true⟩ =
    ⟨172000, ⟨[125000, 124000, 123000, 122000, 121000, 120000], true, 180000⟩, 18, 125000, true⟩ := by
  decide

set_option maxRecDepth 100000 in
lemma storm_seg_344 : stormRun 50 ⟨172000, ⟨[125000, 124000, 123000, 122000, 121000, 120000], true, 180000⟩, 18, 125000, true⟩ =
    ⟨172500, ⟨[125000, 124000, 123000, 122000, 121000, 120000], true, 180000⟩, 18, 125000, true⟩ := by
  decide

set_option maxRecDepth 100000 in
lemma storm_seg_345 : stormRun 50 ⟨172500, ⟨[125000, 124000, 123000, 122000, 121000, 120000], true, 180000⟩, 18, 125000, true⟩ =
    ⟨173000, ⟨[125000, 124000, 123000, 122000, 121000, 120000], true, 180000⟩, 18, 125000, true⟩ := by
  decide

set_option maxRecDepth 100000 in
lemma storm_seg_346 : stormRun 50 ⟨173000, ⟨[125000, 124000, 123000, 122000, 121000, 120000], true, 180000⟩, 18, 125000, true⟩ =
    ⟨173500, ⟨[125000, 124000, 123000, 122000, 121000, 120000], true, 180000⟩, 18, 125000, true⟩ := by
  decide

set_option maxRecDepth 100000 in
lemma storm_seg_347 : stormRun 50 ⟨173500, ⟨[125000, 124000, 123000, 122000, 121000, 120000], true, 180000⟩, 18, 125000, true⟩ =
    ⟨174000, ⟨[125000, 124000, 123000, 122000, 121000, 120000], true, 180000⟩, 18, 125000, true⟩ := by
  decide

set_option maxRecDepth 100000 in
lemma storm_seg_348 : stormRun 50 ⟨174000, ⟨[125000, 124000, 123000, 122000, 121000, 120000], true, 180000⟩, 18, 125000, true⟩ =
    ⟨174500, ⟨[125000, 124000, 123000, 122000, 121000, 120000], true, 180000⟩, 18, 125000, true⟩ := by
  decide

set_option maxRecDepth 100000 in
lemma storm_seg_349 : stormRun 50 ⟨174500, ⟨[125000, 124000, 123000, 122000, 121000, 120000], true, 180000⟩, 18, 125000, true⟩ =
    ⟨175000, ⟨[125000, 124000, 123000, 122000, 121000, 120000], true, 180000⟩, 18, 125000, true⟩ := by
  decide

set_option maxRecDepth 100000 in
lemma storm_seg_350 : stormRun 50 ⟨175000, ⟨[125000, 124000, 123000, 122000, 121000, 120000], true, 180000⟩, 18, 125000, true⟩ =
    ⟨175500, ⟨[125000, 124000, 123000, 122000, 121000, 120000], true, 180000⟩, 18, 125000, true⟩ := by
  decide

set_option maxRecDepth 100000 in
lemma storm_seg_351 : stormRun 50 ⟨175500, ⟨[125000, 124000, 123000, 122000, 121000, 120000], true, 180000⟩, 18, 125000, true⟩ =
    ⟨176000, ⟨[125000, 124000, 123000, 122000, 121000, 120000], true, 180000⟩, 18, 125000, true⟩ := by
  decide

set_option maxRecDepth 100000 in
lemma storm_seg_352 : stormRun 50 ⟨176000, ⟨[125000, 124000, 123000, 122000, 121000, 120000], true, 180000⟩, 18, 125000, true⟩ =
    ⟨176500, ⟨[125000, 124000, 123000, 122000, 121000, 120000], true, 180000⟩, 18, 125000, true⟩ := by
  decide

set_option maxRecDepth 100000 in
lemma storm_seg_353 : stormRun 50 ⟨176500, ⟨[125000, 124000, 123000, 122000, 121000, 120000], true, 180000⟩, 18, 125000, true⟩ =
    ⟨177000, ⟨[125000, 124000, 123000, 122000, 121000, 120000], true, 180000⟩, 18, 125000, true⟩ := by
  decide

set_option maxRecDepth 100000 in
lemma storm_seg_354 : stormRun 50 ⟨177000, ⟨[125000, 124000, 123000, 122000, 121000, 120000], true, 180000⟩, 18, 125000, true⟩ =
    ⟨177500, ⟨[125000, 124000, 123000, 122000, 121000, 120000], true, 180000⟩, 18, 125000, true⟩ := by
  decide

set_option maxRecDepth 100000 in
lemma storm_seg_355 : stormRun 50 ⟨177500, ⟨[125000, 124000, 123000, 122000, 121000, 120000], true, 180000⟩, 18, 125000, true⟩ =
    ⟨178000, ⟨[125000, 124000, 123000, 122000, 121000, 120000], true, 180000⟩, 18, 125000, true⟩ := by
  decide

set_option maxRecDepth 100000 in
lemma storm_seg_356 : stormRun 50 ⟨178000, ⟨[125000, 124000, 123000, 122000, 121000, 120000], true, 180000⟩, 18, 125000, true⟩ =
    ⟨178500, ⟨[125000, 124000, 123000, 122000, 121000, 120000], true, 180000⟩, 18, 125000, true⟩ := by
  decide

set_option maxRecDepth 100000 in
lemma storm_seg_357 : stormRun 50 ⟨178500, ⟨[125000, 124000, 123000, 122000, 121000, 120000], true, 180000⟩, 18, 125000, true⟩ =
    ⟨179000, ⟨[125000, 124000, 123000, 122000, 121000, 120000], true, 180000⟩, 18, 125000, true⟩ := by
  decide

set_option maxRecDepth 100000 in
lemma storm_seg_358 : stormRun 50 ⟨179000, ⟨[125000, 124000, 123000, 122000, 121000, 120000], true, 180000⟩, 18, 125000, true⟩ =
    ⟨179500, ⟨[125000, 124000, 123000, 122000, 121000, 120000], true, 180000⟩, 18, 125000, true⟩ := by
  decide

set_option maxRecDepth 100000 in
lemma storm_seg_359 : stormRun 50 ⟨179500, ⟨[125000, 124000, 123000, 122000, 121000, 120000], true, 180000⟩, 18, 125000, true⟩ =
    ⟨180000, ⟨[180000, 125000, 124000, 123000, 122000, 121000], false, 180000⟩, 19, 180000, true⟩ := by
  decide

set_option maxRecDepth 100000 in
lemma storm_seg_360 : stormRun 50 ⟨180000, ⟨[180000, 125000, 124000, 123000, 122000, 121000], false, 180000⟩, 19, 180000, true⟩ =
    ⟨180500, ⟨[180000, 125000, 124000, 123000, 122000, 121000], true, 181000⟩, 19, 180000, true⟩ := by
  decide

set_option maxRecDepth 100000 in
lemma storm_seg_361 : stormRun 50 ⟨180500, ⟨[180000, 125000, 124000, 123000, 122000, 121000], true, 181000⟩, 19, 180000, true⟩ =
    ⟨181000, ⟨[181000, 180000, 125000, 124000, 123000, 122000], false, 181000⟩, 20, 181000, true⟩ := by
  decide

set_option maxRecDepth 100000 in
lemma storm_seg_362 : stormRun 50 ⟨181000, ⟨[181000, 180000, 125000, 124000, 123000, 122000], false, 181000⟩, 20, 181000, true⟩ =
    ⟨181500, ⟨[181000, 180000, 125000, 124000, 123000, 122000], true, 182000⟩, 20, 181000, true⟩ := by
  decide

set_option maxRecDepth 100000 in
lemma storm_seg_363 : stormRun 50 ⟨181500, ⟨[181000, 180000, 125000, 124000, 123000, 122000], true, 182000⟩, 20, 181000, true⟩ =
    ⟨182000, ⟨[182000, 181000, 180000, 125000, 124000, 123000], false, 182000⟩, 21, 182000, true⟩ := by
  decide

set_option maxRecDepth 100000 in
lemma storm_seg_364 : stormRun 50 ⟨182000, ⟨[182000, 181000, 180000, 125000, 124000, 123000], false, 182000⟩, 21, 182000, true⟩ =
    ⟨182500, ⟨[182000, 181000, 180000, 125000, 124000, 123000], true, 183000⟩, 21, 182000, true⟩ := by
  decide

set_option maxRecDepth 100000 in
lemma storm_seg_365 : stormRun 50 ⟨182500, ⟨[182000, 181000, 180000, 125000, 124000, 123000], true, 183000⟩, 21, 182000, true⟩ =
    ⟨183000, ⟨[183000, 182000, 181000, 180000, 125000, 124000], false, 183000⟩, 22, 183000, true⟩ := by
  decide

set_option maxRecDepth 100000 in
lemma storm_seg_366 : stormRun 50 ⟨183000, ⟨[183000, 182000, 181000, 180000, 125000, 124000], false, 183000⟩, 22, 183000, true⟩ =
    ⟨183500, ⟨[183000, 182000, 181000, 180000, 125000, 124000], true, 184000⟩, 22, 183000, true⟩ := by
  decide

set_option maxRecDepth 100000 in
lemma storm_seg_367 : stormRun 50 ⟨183500, ⟨[183000, 182000, 181000, 180000, 125000, 124000], true, 184000⟩, 22, 183000, true⟩ =
    ⟨184000, ⟨[184000, 183000, 182000, 181000, 180000, 125000], false, 184000⟩, 23, 184000, true⟩ := by
  decide

set_option maxRecDepth 100000 in
lemma storm_seg_368 : stormRun 50 ⟨184000, ⟨[184000, 183000, 182000, 181000, 180000, 125000], false, 184000⟩, 23, 184000, true⟩ =
    ⟨184500, ⟨[184000, 183000, 182000, 181000, 180000, 125000], true, 185000⟩, 23, 184000, true⟩ := by
  decide

set_option maxRecDepth 100000 in
lemma storm_seg_369 : stormRun 50 ⟨184500, ⟨[184000, 183000, 182000, 181000, 180000, 125000], true, 185000⟩, 23, 184000, true⟩ =
    ⟨185000, ⟨[185000, 184000, 183000, 182000, 181000, 180000], false, 185000⟩, 24, 185000, true⟩ := by
  decide

set_option maxRecDepth 100000 in
lemma storm_seg_370 : stormRun 50 ⟨185000, ⟨[185000, 184000, 183000, 182000, 181000, 180000], false, 185000⟩, 24, 185000, true⟩ =
    ⟨185500, ⟨[185000, 184000, 183000, 182000, 181000, 180000], true, 240000⟩, 24, 185000, true⟩ := by
  decide

set_option maxRecDepth 100000 in
lemma storm_seg_371 : stormRun 50 ⟨185500, ⟨[185000, 184000, 183000, 182000, 181000, 180000], true, 240000⟩, 24, 185000, true⟩ =
    ⟨186000, ⟨[185000, 184000, 183000, 182000, 181000, 180000], true, 240000⟩, 24, 185000, true⟩ := by
  decide

set_option maxRecDepth 100000 in
lemma storm_seg_372 : stormRun 50 ⟨186000, ⟨[185000, 184000, 183000, 182000, 181000, 180000], true, 240000⟩, 24, 185000, true⟩ =
    ⟨186500, ⟨[185000, 184000, 183000, 182000, 181000, 180000], true, 240000⟩, 24, 185000, true⟩ := by
  decide

set_option maxRecDepth 100000 in
lemma storm_seg_373 : stormRun 50 ⟨186500, ⟨[185000, 184000, 183000, 182000, 181000, 180000], true, 240000⟩, 24, 185000, true⟩ =
    ⟨187000, ⟨[185000, 184000, 183000, 182000, 181000, 180000], true, 240000⟩, 24, 185000, true⟩ := by
  decide

set_option maxRecDepth 100000 in
lemma storm_seg_374 : stormRun 50 ⟨187000, ⟨[185000, 184000, 183000, 182000, 181000, 180000], true, 240000⟩, 24, 185000, true⟩ =
    ⟨187500, ⟨[185000, 184000, 183000, 182000, 181000, 180000], true, 240000⟩, 24, 185000, true⟩ := by
  decide

set_option maxRecDepth 100000 in
lemma storm_seg_375 : stormRun 50 ⟨187500, ⟨[185000, 184000, 183000, 182000, 181000, 180000], true, 240000⟩, 24, 185000, true⟩ =
    ⟨188000, ⟨[185000, 184000, 183000, 182000, 181000, 180000], true, 240000⟩, 24, 185000, true⟩ := by
  decide

set_option maxRecDepth 100000 in
lemma storm_seg_376 : stormRun 50 ⟨188000, ⟨[185000, 184000, 183000, 182000, 181000, 180000], true, 240000⟩, 24, 185000, true⟩ =
    ⟨188500, ⟨[185000, 184000, 183000, 182000, 181000, 180000], true, 240000⟩, 24, 185000, true⟩ := by
  decide

set_option maxRecDepth 100000 in
lemma storm_seg_377 : stormRun 50 ⟨188500, ⟨[185000, 184000, 183000, 182000, 181000, 180000], true, 240000⟩, 24, 185000, true⟩ =
    ⟨189000, ⟨[185000, 184000, 183000, 182000, 181000, 180000], true, 240000⟩, 24, 185000, true⟩ := by
  decide

set_option maxRecDepth 100000 in
lemma storm_seg_378 : stormRun 50 ⟨189000, ⟨[185000, 184000, 183000, 182000, 181000, 180000], true, 240000⟩, 24, 185000, true⟩ =
    ⟨189500, ⟨[185000, 184000, 183000, 182000, 181000, 180000], true, 240000⟩, 24, 185000, true⟩ := by
  decide

set_option maxRecDepth 100000 in
lemma storm_seg_379 : stormRun 50 ⟨189500, ⟨[185000, 184000, 183000, 182000, 181000, 180000], true, 240000⟩, 24, 185000, true⟩ =
    ⟨190000, ⟨[185000, 184000, 183000, 182000, 181000, 180000], true, 240000⟩, 24, 185000, true⟩ := by
  decide

set_option maxRecDepth 100000 in
lemma storm_seg_380 : stormRun 50 ⟨190000, ⟨[185000, 184000, 183000, 182000, 181000, 180000], true, 240000⟩, 24, 185000, true⟩ =
    ⟨190500, ⟨[185000, 184000, 183000, 182000, 181000, 180000], true, 240000⟩, 24, 185000, true⟩ := by
  decide

set_option maxRecDepth 100000 in
lemma storm_seg_381 : stormRun 50 ⟨190500, ⟨[185000, 184000, 183000, 182000, 181000, 180000], true, 240000⟩, 24, 185000, true⟩ =
    ⟨191000, ⟨[185000, 184000, 183000, 182000, 181000, 180000], true, 240000⟩, 24, 185000, true⟩ := by
  decide

set_option maxRecDepth 100000 in
lemma storm_seg_382 : stormRun 50 ⟨191000, ⟨[185000, 184000, 183000, 182000, 181000, 180000], true, 240000⟩, 24, 185000, true⟩ =
    ⟨191500, ⟨[185000, 184000, 183000, 182000, 181000, 180000], true, 240000⟩, 24, 185000, true⟩ := by
  decide

set_option maxRecDepth 100000 in
lemma storm_seg_383 : stormRun 50 ⟨191500, ⟨[185000, 184000, 183000, 182000, 181000, 180000], true, 240000⟩, 24, 185000, true⟩ =
    ⟨192000, ⟨[185000, 184000, 183000, 182000, 181000, 180000], true, 240000⟩, 24, 185000, true⟩ := by
  decide

set_option maxRecDepth 100000 in
lemma storm_seg_384 : stormRun 50 ⟨192000, ⟨[185000, 184000, 183000, 182000, 181000, 180000], true, 240000⟩, 24, 185000, true⟩ =
    ⟨192500, ⟨[185000, 184000, 183000, 182000, 181000, 180000], true, 240000⟩, 24, 185000, true⟩ := by
  decide

set_option maxRecDepth 100000 in
lemma storm_seg_385 : stormRun 50 ⟨192500, ⟨[185000, 184000, 183000, 182000, 181000, 180000], true, 240000⟩, 24, 185000, true⟩ =
    ⟨193000, ⟨[185000, 184000, 183000, 182000, 181000, 180000], true, 240000⟩, 24, 185000, true⟩ := by
  decide

set_option maxRecDepth 100000 in
lemma storm_seg_386 : stormRun 50 ⟨193000, ⟨[185000, 184000, 183000, 182000, 181000, 180000], true, 240000⟩, 24, 185000, true⟩ =
    ⟨193500, ⟨[185000, 184000, 183000, 182000, 181000, 180000], true, 240000⟩, 24, 185000, true⟩ := by
  decide

set_option maxRecDepth 100000 in
lemma storm_seg_387 : stormRun 50 ⟨193500, ⟨[185000, 184000, 183000, 182000, 181000, 180000], true, 240000⟩, 24, 185000, true⟩ =
    ⟨194000, ⟨[185000, 184000, 183000, 182000, 181000, 180000], true, 240000⟩, 24, 185000, true⟩ := by
  decide

set_option maxRecDepth 100000 in
lemma storm_seg_388 : stormRun 50 ⟨194000, ⟨[185000, 184000, 183000, 182000, 181000, 180000], true, 240000⟩, 24, 185000, true⟩ =
    ⟨194500, ⟨[185000, 184000, 183000, 182000, 181000, 180000], true, 240000⟩, 24, 185000, true⟩ := by
  decide

set_option maxRecDepth 100000 in
lemma storm_seg_389 : stormRun 50 ⟨194500, ⟨[185000, 184000, 183000, 182000, 181000, 180000], true, 240000⟩, 24, 185000, true⟩ =
    ⟨195000, ⟨[185000, 184000, 183000, 182000, 181000, 180000], true, 240000⟩, 24, 185000, true⟩ := by
  decide

set_option maxRecDepth 100000 in
lemma storm_seg_390 : stormRun 50 ⟨195000, ⟨[185000, 184000, 183000, 182000, 181000, 180000], true, 240000⟩, 24, 185000, true⟩ =
    ⟨195500, ⟨[185000, 184000, 183000, 182000, 181000, 180000], true, 240000⟩, 24, 185000, true⟩ := by
  decide

set_option maxRecDepth 100000 in
lemma storm_seg_391 : stormRun 50 ⟨195500, ⟨[185000, 184000, 183000, 182000, 181000, 180000], true, 240000⟩, 24, 185000, true⟩ =
    ⟨196000, ⟨[185000, 184000, 183000, 182000, 181000, 180000], true, 240000⟩, 24, 185000, true⟩ := by
  decide

set_option maxRecDepth 100000 in
lemma storm_seg_392 : stormRun 50 ⟨196000, ⟨[185000, 184000, 183000, 182000, 181000, 180000], true, 240000⟩, 24, 185000, true⟩ =
    ⟨196500, ⟨[185000, 184000, 183000, 182000, 181000, 180000], true, 240000⟩, 24, 185000, true⟩ := by
  decide

set_option maxRecDepth 100000 in
lemma storm_seg_393 : stormRun 50 ⟨196500, ⟨[185000, 184000, 183000, 182000, 181000, 180000], true, 240000⟩, 24, 185000, true⟩ =
    ⟨197000, ⟨[185000, 184000, 183000, 182000, 181000, 180000], true, 240000⟩, 24, 185000, true⟩ := by
  decide

set_option maxRecDepth 100000 in
lemma storm_seg_394 : stormRun 50 ⟨197000, ⟨[185000, 184000, 183000, 182000, 181000, 180000], true, 240000⟩, 24, 185000, true⟩ =
    ⟨197500, ⟨[185000, 184000, 183000, 182000, 181000, 180000], true, 240000⟩, 24, 185000, true⟩ := by
  decide

set_option maxRecDepth 100000 in
lemma storm_seg_395 : stormRun 50 ⟨197500, ⟨[185000, 184000, 183000, 182000, 181000, 180000], true, 240000⟩, 24, 185000, true⟩ =
    ⟨198000, ⟨[185000, 184000, 183000, 182000, 181000, 180000], true, 240000⟩, 24, 185000, true⟩ := by
  decide

set_option maxRecDepth 100000 in
lemma storm_seg_396 : stormRun 50 ⟨198000, ⟨[185000, 184000, 183000, 182000, 181000, 180000], true, 240000⟩, 24, 185000, true⟩ =
    ⟨198500, ⟨[185000, 184000, 183000, 182000, 181000, 180000], true, 240000⟩, 24, 185000, true⟩ := by
  decide

set_option maxRecDepth 100000 in
lemma storm_seg_397 : stormRun 50 ⟨198500, ⟨[185000, 184000, 183000, 182000, 181000, 180000], true, 240000⟩, 24, 185000, true⟩ =
    ⟨199000, ⟨[185000, 184000, 183000, 182000, 181000, 180000], true, 240000⟩, 24, 185000, true⟩ := by
  decide

set_option maxRecDepth 100000 in
lemma storm_seg_398 : stormRun 50 ⟨199000, ⟨[185000, 184000, 183000, 182000, 181000, 180000], true, 240000⟩, 24, 185000, true⟩ =
    ⟨199500, ⟨[185000, 184000, 183000, 182000, 181000, 180000], true, 240000⟩, 24, 185000, true⟩ := by
  decide

set_option maxRecDepth 100000 in
lemma storm_seg_399 : stormRun 50 ⟨199500, ⟨[185000, 184000, 183000, 182000, 181000, 180000], true, 240000⟩, 24, 185000, true⟩ =
    ⟨200000, ⟨[185000, 184000, 183000, 182000, 181000, 180000], true, 240000⟩, 24, 185000, true⟩ := by
  decide

set_option maxRecDepth 100000 in
lemma storm_seg_400 : stormRun 50 ⟨200000, ⟨[185000, 184000, 183000, 182000, 181000, 180000], true, 240000⟩, 24, 185000, true⟩ =
    ⟨200500, ⟨[185000, 184000, 183000, 182000, 181000, 180000], true, 240000⟩, 24, 185000, true⟩ := by
  decide

set_option maxRecDepth 100000 in
lemma storm_seg_401 : stormRun 50 ⟨200500, ⟨[185000, 184000, 183000, 182000, 181000, 180000], true, 240000⟩, 24, 185000, true⟩ =
    ⟨201000, ⟨[185000, 184000, 183000, 182000, 181000, 180000], true, 240000⟩, 24, 185000, true⟩ := by
  decide

set_option maxRecDepth 100000 in
lemma storm_seg_402 : stormRun 50 ⟨201000, ⟨[185000, 184000, 183000, 182000, 181000, 180000], true, 240000⟩, 24, 185000, true⟩ =
    ⟨201500, ⟨[185000, 184000, 183000, 182000, 181000, 180000], true, 240000⟩, 24, 185000, true⟩ := by
  decide

set_option maxRecDepth 100000 in
lemma storm_seg_403 : stormRun 50 ⟨201500, ⟨[185000, 184000, 183000, 182000, 181000, 180000], true, 240000⟩, 24, 185000, true⟩ =
    ⟨202000, ⟨[185000, 184000, 183000, 182000, 181000, 180000], true, 240000⟩, 24, 185000, true⟩ := by
  decide

set_option maxRecDepth 100000 in
lemma storm_seg_404 : stormRun 50 ⟨202000, ⟨[185000, 184000, 183000, 182000, 181000, 180000], true, 240000⟩, 24, 185000, true⟩ =
    ⟨202500, ⟨[185000, 184000, 183000, 182000, 181000, 180000], true, 240000⟩, 24, 185000, true⟩ := by
  decide

set_option maxRecDepth 100000 in
lemma storm_seg_405 : stormRun 50 ⟨202500, ⟨[185000, 184000, 183000, 182000, 181000, 180000], true, 240000⟩, 24, 185000, true⟩ =
    ⟨203000, ⟨[185000, 184000, 183000, 182000, 181000, 180000], true, 240000⟩, 24, 185000, true⟩ := by
  decide

set_option maxRecDepth 100000 in
lemma storm_seg_406 : stormRun 50 ⟨203000, ⟨[185000, 184000, 183000, 182000, 181000, 180000], true, 240000⟩, 24, 185000, true⟩ =
    ⟨203500, ⟨[185000, 184000, 183000, 182000, 181000, 180000], true, 240000⟩, 24, 185000, true⟩ := by
  decide

set_option maxRecDepth 100000 in
lemma storm_seg_407 : stormRun 50 ⟨203500, ⟨[185000, 184000, 183000, 182000, 181000, 180000], true, 240000⟩, 24, 185000, true⟩ =
    ⟨204000, ⟨[185000, 184000, 183000, 182000, 181000, 180000], true, 240000⟩, 24, 185000, true⟩ := by
  decide

set_option maxRecDepth 100000 in
lemma storm_seg_408 : stormRun 50 ⟨204000, ⟨[185000, 184000, 183000, 182000, 181000, 180000], true, 240000⟩, 24, 185000, true⟩ =
    ⟨204500, ⟨[185000, 184000, 183000, 182000, 181000, 180000], true, 240000⟩, 24, 185000, true⟩ := by
  decide

set_option maxRecDepth 100000 in
lemma storm_seg_409 : stormRun 50 ⟨204500, ⟨[185000, 184000, 183000, 182000, 181000, 180000], true, 240000⟩, 24, 185000, true⟩ =
    ⟨205000, ⟨[185000, 184000, 183000, 182000, 181000, 180000], true, 240000⟩, 24, 185000, true⟩ := by
  decide

set_option maxRecDepth 100000 in
lemma storm_seg_410 : stormRun 50 ⟨205000, ⟨[185000, 184000, 183000, 182000, 181000, 180000], true, 240000⟩, 24, 185000, true⟩ =
    ⟨205500, ⟨[185000, 184000, 183000, 182000, 181000, 180000], true, 240000⟩, 24, 185000, true⟩ := by
  decide

set_option maxRecDepth 100000 in
lemma storm_seg_411 : stormRun 50 ⟨205500, ⟨[185000, 184000, 183000, 182000, 181000, 180000], true, 240000⟩, 24, 185000, true⟩ =
    ⟨206000, ⟨[185000, 184000, 183000, 182000, 181000, 180000], true, 240000⟩, 24, 185000, true⟩ := by
  decide

set_option maxRecDepth 100000 in
lemma storm_seg_412 : stormRun 50 ⟨206000, ⟨[185000, 184000, 183000, 182000, 181000, 180000], true, 240000⟩, 24, 185000, true⟩ =
    ⟨206500, ⟨[185000, 184000, 183000, 182000, 181000, 180000], true, 240000⟩, 24, 185000, true⟩ := by
  decide

set_option maxRecDepth 100000 in
lemma storm_seg_413 : stormRun 50 ⟨206500, ⟨[185000, 184000, 183000, 182000, 181000, 180000], true, 240000⟩, 24, 185000, true⟩ =
    ⟨207000, ⟨[185000, 184000, 183000, 182000, 181000, 180000], true, 240000⟩, 24, 185000, true⟩ := by
  decide

set_option maxRecDepth 100000 in
lemma storm_seg_414 : stormRun 50 ⟨207000, ⟨[185000, 184000, 183000, 182000, 181000, 180000], true, 240000⟩, 24, 185000, true⟩ =
    ⟨207500, ⟨[185000, 184000, 183000, 182000, 181000, 180000], true, 240000⟩, 24, 185000, true⟩ := by
  decide

set_option maxRecDepth 100000 in
lemma storm_seg_415 : stormRun 50 ⟨207500, ⟨[185000, 184000, 183000, 182000, 181000, 180000], true, 240000⟩, 24, 185000, true⟩ =
    ⟨208000, ⟨[185000, 184000, 183000, 182000, 181000, 180000], true, 240000⟩, 24, 185000, true⟩ := by
  decide

set_option maxRecDepth 100000 in
lemma storm_seg_416 : stormRun 50 ⟨208000, ⟨[185000, 184000, 183000, 182000, 181000, 180000], true, 240000⟩, 24, 185000, true⟩ =
    ⟨208500, ⟨[185000, 184000, 183000, 182000, 181000, 180000], true, 240000⟩, 24, 185000, true⟩ := by
  decide

set_option maxRecDepth 100000 in
lemma storm_seg_417 : stormRun 50 ⟨208500, ⟨[185000, 184000, 183000, 182000, 181000, 180000], true, 240000⟩, 24, 185000, true⟩ =
    ⟨209000, ⟨[185000, 184000, 183000, 182000, 181000, 180000], true, 240000⟩, 24, 185000, true⟩ := by
  decide

set_option maxRecDepth 100000 in
lemma storm_seg_418 : stormRun 50 ⟨209000, ⟨[185000, 184000, 183000, 182000, 181000, 180000], true, 240000⟩, 24, 185000, true⟩ =
    ⟨209500, ⟨[185000, 184000, 183000, 182000, 181000, 180000], true, 240000⟩, 24, 185000, true⟩ := by
  decide

set_option maxRecDepth 100000 in
lemma storm_seg_419 : stormRun 50 ⟨209500, ⟨[185000, 184000, 183000, 182000, 181000, 180000], true, 240000⟩, 24, 185000, true⟩ =
    ⟨210000, ⟨[185000, 184000, 183000, 182000, 181000, 180000], true, 240000⟩, 24, 185000, true⟩ := by
  decide

set_option maxRecDepth 100000 in
lemma storm_seg_420 : stormRun 50 ⟨210000, ⟨[185000, 184000, 183000, 182000, 181000, 180000], true, 240000⟩, 24, 185000, true⟩ =
    ⟨210500, ⟨[185000, 184000, 183000, 182000, 181000, 180000], true, 240000⟩, 24, 185000, true⟩ := by
  decide

set_option maxRecDepth 100000 in
lemma storm_seg_421 : stormRun 50 ⟨210500, ⟨[185000, 184000, 183000, 182000, 181000, 180000], true, 240000⟩, 24, 185000, true⟩ =
    ⟨211000, ⟨[185000, 184000, 183000, 182000, 181000, 180000], true, 240000⟩, 24, 185000, true⟩ := by
  decide

set_option maxRecDepth 100000 in
lemma storm_seg_422 : stormRun 50 ⟨211000, ⟨[185000, 184000, 183000, 182000, 181000, 180000], true, 240000⟩, 24, 185000, true⟩ =
    ⟨211500, ⟨[185000, 184000, 183000, 182000, 181000, 180000], true, 240000⟩, 24, 185000, true⟩ := by
  decide

set_option maxRecDepth 100000 in
lemma storm_seg_423 : stormRun 50 ⟨211500, ⟨[185000, 184000, 183000, 182000, 181000, 180000], true, 240000⟩, 24, 185000, true⟩ =
    ⟨212000, ⟨[185000, 184000, 183000, 182000, 181000, 180000], true, 240000⟩, 24, 185000, true⟩ := by
  decide

set_option maxRecDepth 100000 in
lemma storm_seg_424 : stormRun 50 ⟨212000, ⟨[185000, 184000, 183000, 182000, 181000, 180000], true, 240000⟩, 24, 185000, true⟩ =
    ⟨212500, ⟨[185000, 184000, 183000, 182000, 181000, 180000], true, 240000⟩, 24, 185000, true⟩ := by
  decide

set_option maxRecDepth 100000 in
lemma storm_seg_425 : stormRun 50 ⟨212500, ⟨[185000, 184000, 183000, 182000, 181000, 180000], true, 240000⟩, 24, 185000, true⟩ =
    ⟨213000, ⟨[185000, 184000, 183000, 182000, 181000, 180000], true, 240000⟩, 24, 185000, true⟩ := by
  decide

set_option maxRecDepth 100000 in
lemma storm_seg_426 : stormRun 50 ⟨213000, ⟨[185000, 184000, 183000, 182000, 181000, 180000], true, 240000⟩, 24, 185000, true⟩ =
    ⟨213500, ⟨[185000, 184000, 183000, 182000, 181000, 180000], true, 240000⟩, 24, 185000, true⟩ := by
  decide

set_option maxRecDepth 100000 in
lemma storm_seg_427 : stormRun 50 ⟨213500, ⟨[185000, 184000, 183000, 182000, 181000, 180000], true, 240000⟩, 24, 185000, true⟩ =
    ⟨214000, ⟨[185000, 184000, 183000, 182000, 181000, 180000], true, 240000⟩, 24, 185000, true⟩ := by
  decide

set_option maxRecDepth 100000 in
lemma storm_seg_428 : stormRun 50 ⟨214000, ⟨[185000, 184000, 183000, 182000, 181000, 180000], true, 240000⟩, 24, 185000, true⟩ =
    ⟨214500, ⟨[185000, 184000, 183000, 182000, 181000, 180000], true, 240000⟩, 24, 185000, true⟩ := by
  decide

set_option maxRecDepth 100000 in
lemma storm_seg_429 : stormRun 50 ⟨214500, ⟨[185000, 184000, 183000, 182000, 181000, 180000], true, 240000⟩, 24, 185000, true⟩ =
    ⟨215000, ⟨[185000, 184000, 183000, 182000, 181000, 180000], true, 240000⟩, 24, 185000, true⟩ := by
  decide

set_option maxRecDepth 100000 in
lemma storm_seg_430 : stormRun 50 ⟨215000, ⟨[185000, 184000, 183000, 182000, 181000, 180000], true, 240000⟩, 24, 185000, true⟩ =
    ⟨215500, ⟨[185000, 184000, 183000, 182000, 181000, 180000], true, 240000⟩, 24, 185000, true⟩ := by
  decide

set_option maxRecDepth 100000 in
lemma storm_seg_431 : stormRun 50 ⟨215500, ⟨[185000, 184000, 183000, 182000, 181000, 180000], true, 240000⟩, 24, 185000, true⟩ =
    ⟨216000, ⟨[185000, 184000, 183000, 182000, 181000, 180000], true, 240000⟩, 24, 185000, true⟩ := by
  decide

set_option maxRecDepth 100000 in
lemma storm_seg_432 : stormRun 50 ⟨216000, ⟨[185000, 184000, 183000, 182000, 181000, 180000], true, 240000⟩, 24, 185000, true⟩ =
    ⟨216500, ⟨[185000, 184000, 183000, 182000, 181000, 180000], true, 240000⟩, 24, 185000, true⟩ := by
  decide

set_option maxRecDepth 100000 in
lemma storm_seg_433 : stormRun 50 ⟨216500, ⟨[185000, 184000, 183000, 182000, 181000, 180000], true, 240000⟩, 24, 185000, true⟩ =
    ⟨217000, ⟨[185000, 184000, 183000, 182000, 181000, 180000], true, 240000⟩, 24, 185000, true⟩ := by
  decide

set_option maxRecDepth 100000 in
lemma storm_seg_434 : stormRun 50 ⟨217000, ⟨[185000, 184000, 183000, 182000, 181000, 180000], true, 240000⟩, 24, 185000, true⟩ =
    ⟨217500, ⟨[185000, 184000, 183000, 182000, 181000, 180000], true, 240000⟩, 24, 185000, true⟩ := by
  decide

set_option maxRecDepth 100000 in
lemma storm_seg_435 : stormRun 50 ⟨217500, ⟨[185000, 184000, 183000, 182000, 181000, 180000], true, 240000⟩, 24, 185000, true⟩ =
    ⟨218000, ⟨[185000, 184000, 183000, 182000, 181000, 180000], true, 240000⟩, 24, 185000, true⟩ := by
  decide

set_option maxRecDepth 100000 in
lemma storm_seg_436 : stormRun 50 ⟨218000, ⟨[185000, 184000, 183000, 182000, 181000, 180000], true, 240000⟩, 24, 185000, true⟩ =
    ⟨218500, ⟨[185000, 184000, 183000, 182000, 181000, 180000], true, 240000⟩, 24, 185000, true⟩ := by
  decide

set_option maxRecDepth 100000 in
lemma storm_seg_437 : stormRun 50 ⟨218500, ⟨[185000, 184000, 183000, 182000, 181000, 180000], true, 240000⟩, 24, 185000, true⟩ =
    ⟨219000, ⟨[185000, 184000, 183000, 182000, 181000, 180000], true, 240000⟩, 24, 185000, true⟩ := by
  decide

set_option maxRecDepth 100000 in
lemma storm_seg_438 : stormRun 50 ⟨219000, ⟨[185000, 184000, 183000, 182000, 181000, 180000], true, 240000⟩, 24, 185000, true⟩ =
    ⟨219500, ⟨[185000, 184000, 183000, 182000, 181000, 180000], true, 240000⟩, 24, 185000, true⟩ := by
  decide

set_option maxRecDepth 100000 in
lemma storm_seg_439 : stormRun 50 ⟨219500, ⟨[185000, 184000, 183000, 182000, 181000, 180000], true, 240000⟩, 24, 185000, true⟩ =
    ⟨220000, ⟨[185000, 184000, 183000, 182000, 181000, 180000], true, 240000⟩, 24, 185000, true⟩ := by
  decide

set_option maxRecDepth 100000 in
lemma storm_seg_440 : stormRun 50 ⟨220000, ⟨[185000, 184000, 183000, 182000, 181000, 180000], true, 240000⟩, 24, 185000, true⟩ =
    ⟨220500, ⟨[185000, 184000, 183000, 182000, 181000, 180000], true, 240000⟩, 24, 185000, true⟩ := by
  decide

set_option maxRecDepth 100000 in
lemma storm_seg_441 : stormRun 50 ⟨220500, ⟨[185000, 184000, 183000, 182000, 181000, 180000], true, 240000⟩, 24, 185000, true⟩ =
    ⟨221000, ⟨[185000, 184000, 183000, 182000, 181000, 180000], true, 240000⟩, 24, 185000, true⟩ := by
  decide

set_option maxRecDepth 100000 in
lemma storm_seg_442 : stormRun 50 ⟨221000, ⟨[185000, 184000, 183000, 182000, 181000, 180000], true, 240000⟩, 24, 185000, true⟩ =
    ⟨221500, ⟨[185000, 184000, 183000, 182000, 181000, 180000], true, 240000⟩, 24, 185000, true⟩ := by
  decide

set_option maxRecDepth 100000 in
lemma storm_seg_443 : stormRun 50 ⟨221500, ⟨[185000, 184000, 183000, 182000, 181000, 180000], true, 240000⟩, 24, 185000, true⟩ =
    ⟨222000, ⟨[185000, 184000, 183000, 182000, 181000, 180000], true, 240000⟩, 24, 185000, true⟩ := by
  decide

set_option maxRecDepth 100000 in
lemma storm_seg_444 : stormRun 50 ⟨222000, ⟨[185000, 184000, 183000, 182000, 181000, 180000], true, 240000⟩, 24, 185000, true⟩ =
    ⟨222500, ⟨[185000, 184000, 183000, 182000, 181000, 180000], true, 240000⟩, 24, 185000, true⟩ := by
  decide

set_option maxRecDepth 100000 in
lemma storm_seg_445 : stormRun 50 ⟨222500, ⟨[185000, 184000, 183000, 182000, 181000, 180000], true, 240000⟩, 24, 185000, true⟩ =
    ⟨223000, ⟨[185000, 184000, 183000, 182000, 181000, 180000], true, 240000⟩, 24, 185000, true⟩ := by
  decide

set_option maxRecDepth 100000 in
lemma storm_seg_446 : stormRun 50 ⟨223000, ⟨[185000, 184000, 183000, 182000, 181000, 180000], true, 240000⟩, 24, 185000, true⟩ =
    ⟨223500, ⟨[185000, 184000, 183000, 182000, 181000, 180000], true, 240000⟩, 24, 185000, true⟩ := by
  decide

set_option maxRecDepth 100000 in
lemma storm_seg_447 : stormRun 50 ⟨223500, ⟨[185000, 184000, 183000, 182000, 181000, 180000], true, 240000⟩, 24, 185000, true⟩ =
    ⟨224000, ⟨[185000, 184000, 183000, 182000, 181000, 180000], true, 240000⟩, 24, 185000, true⟩ := by
  decide

set_option maxRecDepth 100000 in
lemma storm_seg_448 : stormRun 50 ⟨224000, ⟨[185000, 184000, 183000, 182000, 181000, 180000], true, 240000⟩, 24, 185000, true⟩ =
    ⟨224500, ⟨[185000, 184000, 183000, 182000, 181000, 180000], true, 240000⟩, 24, 185000, true⟩ := by
  decide

set_option maxRecDepth 100000 in
lemma storm_seg_449 : stormRun 50 ⟨224500, ⟨[185000, 184000, 183000, 182000, 181000, 180000], true, 240000⟩, 24, 185000, true⟩ =
    ⟨225000, ⟨[185000, 184000, 183000, 182000, 181000, 180000], true, 240000⟩, 24, 185000, true⟩ := by
  decide

set_option maxRecDepth 100000 in
lemma storm_seg_450 : stormRun 50 ⟨225000, ⟨[185000, 184000, 183000, 182000, 181000, 180000], true, 240000⟩, 24, 185000, true⟩ =
    ⟨225500, ⟨[185000, 184000, 183000, 182000, 181000, 180000], true, 240000⟩, 24, 185000, true⟩ := by
  decide

set_option maxRecDepth 100000 in
lemma storm_seg_451 : stormRun 50 ⟨225500, ⟨[185000, 184000, 183000, 182000, 181000, 180000], true, 240000⟩, 24, 185000, true⟩ =
    ⟨226000, ⟨[185000, 184000, 183000, 182000, 181000, 180000], true, 240000⟩, 24, 185000, true⟩ := by
  decide

set_option maxRecDepth 100000 in
lemma storm_seg_452 : stormRun 50 ⟨226000, ⟨[185000, 184000, 183000, 182000, 181000, 180000], true, 240000⟩, 24, 185000, true⟩ =
    ⟨226500, ⟨[185000, 184000, 183000, 182000, 181000, 180000], true, 240000⟩, 24, 185000, true⟩ := by
  decide

set_option maxRecDepth 100000 in
lemma storm_seg_453 : stormRun 50 ⟨226500, ⟨[185000, 184000, 183000, 182000, 181000, 180000], true, 240000⟩, 24, 185000, true⟩ =
    ⟨227000, ⟨[185000, 184000, 183000, 182000, 181000, 180000], true, 240000⟩, 24, 185000, true⟩ := by
  decide

set_option maxRecDepth 100000 in
lemma storm_seg_454 : stormRun 50 ⟨227000, ⟨[185000, 184000, 183000, 182000, 181000, 180000], true, 240000⟩, 24, 185000, true⟩ =
    ⟨227500, ⟨[185000, 184000, 183000, 182000, 181000, 180000], true, 240000⟩, 24, 185000, true⟩ := by
  decide

set_option maxRecDepth 100000 in
lemma storm_seg_455 : stormRun 50 ⟨227500, ⟨[185000, 184000, 183000, 182000, 181000, 180000], true, 240000⟩, 24, 185000, true⟩ =
    ⟨228000, ⟨[185000, 184000, 183000, 182000, 181000, 180000], true, 240000⟩, 24, 185000, true⟩ := by
  decide

set_option maxRecDepth 100000 in
lemma storm_seg_456 : stormRun 50 ⟨228000, ⟨[185000, 184000, 183000, 182000, 181000, 180000], true, 240000⟩, 24, 185000, true⟩ =
    ⟨228500, ⟨[185000, 184000, 183000, 182000, 181000, 180000], true, 240000⟩, 24, 185000, true⟩ := by
  decide

set_option maxRecDepth 100000 in
lemma storm_seg_457 : stormRun 50 ⟨228500, ⟨[185000, 184000, 183000, 182000, 181000, 180000], true, 240000⟩, 24, 185000, true⟩ =
    ⟨229000, ⟨[185000, 184000, 183000, 182000, 181000, 180000], true, 240000⟩, 24, 185000, true⟩ := by
  decide

set_option maxRecDepth 100000 in
lemma storm_seg_458 : stormRun 50 ⟨229000, ⟨[185000, 184000, 183000, 182000, 181000, 180000], true, 240000⟩, 24, 185000, true⟩ =
    ⟨229500, ⟨[185000, 184000, 183000, 182000, 181000, 180000], true, 240000⟩, 24, 185000, true⟩ := by
  decide

set_option maxRecDepth 100000 in
lemma storm_seg_459 : stormRun 50 ⟨229500, ⟨[185000, 184000, 183000, 182000, 181000, 180000], true, 240000⟩, 24, 185000, true⟩ =
    ⟨230000, ⟨[185000, 184000, 183000, 182000, 181000, 180000], true, 240000⟩, 24, 185000, true⟩ := by
  decide

set_option maxRecDepth 100000 in
lemma storm_seg_460 : stormRun 50 ⟨230000, ⟨[185000, 184000, 183000, 182000, 181000, 180000], true, 240000⟩, 24, 185000, true⟩ =
    ⟨230500, ⟨[185000, 184000, 183000, 182000, 181000, 180000], true, 240000⟩, 24, 185000, true⟩ := by
  decide

set_option maxRecDepth 100000 in
lemma storm_seg_461 : stormRun 50 ⟨230500, ⟨[185000, 184000, 183000, 182000, 181000, 180000], true, 240000⟩, 24, 185000, true⟩ =
    ⟨231000, ⟨[185000, 184000, 183000, 182000, 181000, 180000], true, 240000⟩, 24, 185000, true⟩ := by
  decide

set_option maxRecDepth 100000 in
lemma storm_seg_462 : stormRun 50 ⟨231000, ⟨[185000, 184000, 183000, 182000, 181000, 180000], true, 240000⟩, 24, 185000, true⟩ =
    ⟨231500, ⟨[185000, 184000, 183000, 182000, 181000, 180000], true, 240000⟩, 24, 185000, true⟩ := by
  decide

set_option maxRecDepth 100000 in
lemma storm_seg_463 : stormRun 50 ⟨231500, ⟨[185000, 184000, 183000, 182000, 181000, 180000], true, 240000⟩, 24, 185000, true⟩ =
    ⟨232000, ⟨[185000, 184000, 183000, 182000, 181000, 180000], true, 240000⟩, 24, 185000, true⟩ := by
  decide

set_option maxRecDepth 100000 in
lemma storm_seg_464 : stormRun 50 ⟨232000, ⟨[185000, 184000, 183000, 182000, 181000, 180000], true, 240000⟩, 24, 185000, true⟩ =
    ⟨232500, ⟨[185000, 184000, 183000, 182000, 181000, 180000], true, 240000⟩, 24, 185000, true⟩ := by
  decide

set_option maxRecDepth 100000 in
lemma storm_seg_465 : stormRun 50 ⟨232500, ⟨[185000, 184000, 183000, 182000, 181000, 180000], true, 240000⟩, 24, 185000, true⟩ =
    ⟨233000, ⟨[185000, 184000, 183000, 182000, 181000, 180000], true, 240000⟩, 24, 185000, true⟩ := by
  decide

set_option maxRecDepth 100000 in
lemma storm_seg_466 : stormRun 50 ⟨233000, ⟨[185000, 184000, 183000, 182000, 181000, 180000], true, 240000⟩, 24, 185000, true⟩ =
    ⟨233500, ⟨[185000, 184000, 183000, 182000, 181000, 180000], true, 240000⟩, 24, 185000, true⟩ := by
  decide

set_option maxRecDepth 100000 in
lemma storm_seg_467 : stormRun 50 ⟨233500, ⟨[185000, 184000, 183000, 182000, 181000, 180000], true, 240000⟩, 24, 185000, true⟩ =
    ⟨234000, ⟨[185000, 184000, 183000, 182000, 181000, 180000], true, 240000⟩, 24, 185000, true⟩ := by
  decide

set_option maxRecDepth 100000 in
lemma storm_seg_468 : stormRun 50 ⟨234000, ⟨[185000, 184000, 183000, 182000, 181000, 180000], true, 240000⟩, 24, 185000, true⟩ =
    ⟨234500, ⟨[185000, 184000, 183000, 182000, 181000, 180000], true, 240000⟩, 24, 185000, true⟩ := by
  decide

set_option maxRecDepth 100000 in
lemma storm_seg_469 : stormRun 50 ⟨234500, ⟨[185000, 184000, 183000, 182000, 181000, 180000], true, 240000⟩, 24, 185000, true⟩ =
    ⟨235000, ⟨[185000, 184000, 183000, 182000, 181000, 180000], true, 240000⟩, 24, 185000, true⟩ := by
  decide

set_option maxRecDepth 100000 in
lemma storm_seg_470 : stormRun 50 ⟨235000, ⟨[185000, 184000, 183000, 182000, 181000, 180000], true, 240000⟩, 24, 185000, true⟩ =
    ⟨235500, ⟨[185000, 184000, 183000, 182000, 181000, 180000], true, 240000⟩, 24, 185000, true⟩ := by
  decide

set_option maxRecDepth 100000 in
lemma storm_seg_471 : stormRun 50 ⟨235500, ⟨[185000, 184000, 183000, 182000, 181000, 180000], true, 240000⟩, 24, 185000, true⟩ =
    ⟨236000, ⟨[185000, 184000, 183000, 182000, 181000, 180000], true, 240000⟩, 24, 185000, true⟩ := by
  decide

set_option maxRecDepth 100000 in
lemma storm_seg_472 : stormRun 50 ⟨236000, ⟨[185000, 184000, 183000, 182000, 181000, 180000], true, 240000⟩, 24, 185000, true⟩ =
    ⟨236500, ⟨[185000, 184000, 183000, 182000, 181000, 180000], true, 240000⟩, 24, 185000, true⟩ := by
  decide

set_option maxRecDepth 100000 in
lemma storm_seg_473 : stormRun 50 ⟨236500, ⟨[185000, 184000, 183000, 182000, 181000, 180000], true, 240000⟩, 24, 185000, true⟩ =
    ⟨237000, ⟨[185000, 184000, 183000, 182000, 181000, 180000], true, 240000⟩, 24, 185000, true⟩ := by
  decide

set_option maxRecDepth 100000 in
lemma storm_seg_474 : stormRun 50 ⟨237000, ⟨[185000, 184000, 183000, 182000, 181000, 180000], true, 240000⟩, 24, 185000, true⟩ =
    ⟨237500, ⟨[185000, 184000, 183000, 182000, 181000, 180000], true, 240000⟩, 24, 185000, true⟩ := by
  decide

set_option maxRecDepth 100000 in
lemma storm_seg_475 : stormRun 50 ⟨237500, ⟨[185000, 184000, 183000, 182000, 181000, 180000], true, 240000⟩, 24, 185000, true⟩ =
    ⟨238000, ⟨[185000, 184000, 183000, 182000, 181000, 180000], true, 240000⟩, 24, 185000, true⟩ := by
  decide

set_option maxRecDepth 100000 in
lemma storm_seg_476 : stormRun 50 ⟨238000, ⟨[185000, 184000, 183000, 182000, 181000, 180000], true, 240000⟩, 24, 185000, true⟩ =
    ⟨238500, ⟨[185000, 184000, 183000, 182000, 181000, 180000], true, 240000⟩, 24, 185000, true⟩ := by
  decide

set_option maxRecDepth 100000 in
lemma storm_seg_477 : stormRun 50 ⟨238500, ⟨[185000, 184000, 183000, 182000, 181000, 180000], true, 240000⟩, 24, 185000, true⟩ =
    ⟨239000, ⟨[185000, 184000, 183000, 182000, 181000, 180000], true, 240000⟩, 24, 185000, true⟩ := by
  decide

set_option maxRecDepth 100000 in
lemma storm_seg_478 : stormRun 50 ⟨239000, ⟨[185000, 184000, 183000, 182000, 181000, 180000], true, 240000⟩, 24, 185000, true⟩ =
    ⟨239500, ⟨[185000, 184000, 183000, 182000, 181000, 180000], true, 240000⟩, 24, 185000, true⟩ := by
  decide

set_option maxRecDepth 100000 in
lemma storm_seg_479 : stormRun 50 ⟨239500, ⟨[185000, 184000, 183000, 182000, 181000, 180000], true, 240000⟩, 24, 185000, true⟩ =
    ⟨240000, ⟨[240000, 185000, 184000, 183000, 182000, 181000], false, 240000⟩, 25, 240000, true⟩ := by
  decide

set_option maxRecDepth 100000 in
lemma storm_seg_480 : stormRun 50 ⟨240000, ⟨[240000, 185000, 184000, 183000, 182000, 181000], false, 240000⟩, 25, 240000, true⟩ =
    ⟨240500, ⟨[240000, 185000, 184000, 183000, 182000, 181000], true, 241000⟩, 25, 240000, true⟩ := by
  decide

set_option maxRecDepth 100000 in
lemma storm_seg_481 : stormRun 50 ⟨240500, ⟨[240000, 185000, 184000, 183000, 182000, 181000], true, 241000⟩, 25, 240000, true⟩ =
    ⟨241000, ⟨[241000, 240000, 185000, 184000, 183000, 182000], false, 241000⟩, 26, 241000, true⟩ := by
  decide

set_option maxRecDepth 100000 in
lemma storm_seg_482 : stormRun 50 ⟨241000, ⟨[241000, 240000, 185000, 184000, 183000, 182000], false, 241000⟩, 26, 241000, true⟩ =
    ⟨241500, ⟨[241000, 240000, 185000, 184000, 183000, 182000], true, 242000⟩, 26, 241000, true⟩ := by
  decide

set_option maxRecDepth 100000 in
lemma storm_seg_483 : stormRun 50 ⟨241500, ⟨[241000, 240000, 185000, 184000, 183000, 182000], true, 242000⟩, 26, 241000, true⟩ =
    ⟨242000, ⟨[242000, 241000, 240000, 185000, 184000, 183000], false, 242000⟩, 27, 242000, true⟩ := by
  decide

set_option maxRecDepth 100000 in
lemma storm_seg_484 : stormRun 50 ⟨242000, ⟨[242000, 241000, 240000, 185000, 184000, 183000], false, 242000⟩, 27, 242000, true⟩ =
    ⟨242500, ⟨[242000, 241000, 240000, 185000, 184000, 183000], true, 243000⟩, 27, 242000, true⟩ := by
  decide

set_option maxRecDepth 100000 in
lemma storm_seg_485 : stormRun 50 ⟨242500, ⟨[242000, 241000, 240000, 185000, 184000, 183000], true, 243000⟩, 27, 242000, true⟩ =
    ⟨243000, ⟨[243000, 242000, 241000, 240000, 185000, 184000], false, 243000⟩, 28, 243000, true⟩ := by
  decide

set_option maxRecDepth 100000 in
lemma storm_seg_486 : stormRun 50 ⟨243000, ⟨[243000, 242000, 241000, 240000, 185000, 184000], false, 243000⟩, 28, 243000, true⟩ =
    ⟨243500, ⟨[243000, 242000, 241000, 240000, 185000, 184000], true, 244000⟩, 28, 243000, true⟩ := by
  decide

set_option maxRecDepth 100000 in
lemma storm_seg_487 : stormRun 50 ⟨243500, ⟨[243000, 242000, 241000, 240000, 185000, 184000], true, 244000⟩, 28, 243000, true⟩ =
    ⟨244000, ⟨[244000, 243000, 242000, 241000, 240000, 185000], false, 244000⟩, 29, 244000, true⟩ := by
  decide

set_option maxRecDepth 100000 in
lemma storm_seg_488 : stormRun 50 ⟨244000, ⟨[244000, 243000, 242000, 241000, 240000, 185000], false, 244000⟩, 29, 244000, true⟩ =
    ⟨244500, ⟨[244000, 243000, 242000, 241000, 240000, 185000], true, 245000⟩, 29, 244000, true⟩ := by
  decide

set_option maxRecDepth 100000 in
lemma storm_seg_489 : stormRun 50 ⟨244500, ⟨[244000, 243000, 242000, 241000, 240000, 185000], true, 245000⟩, 29, 244000, true⟩ =
    ⟨245000, ⟨[245000, 244000, 243000, 242000, 241000, 240000], false, 245000⟩, 30, 245000, true⟩ := by
  decide

set_option maxRecDepth 100000 in
lemma storm_seg_490 : stormRun 50 ⟨245000, ⟨[245000, 244000, 243000, 242000, 241000, 240000], false, 245000⟩, 30, 245000, true⟩ =
    ⟨245500, ⟨[245000, 244000, 243000, 242000, 241000, 240000], true, 300000⟩, 30, 245000, true⟩ := by
  decide

set_option maxRecDepth 100000 in
lemma storm_seg_491 : stormRun 50 ⟨245500, ⟨[245000, 244000, 243000, 242000, 241000, 240000], true, 300000⟩, 30, 245000, true⟩ =
    ⟨246000, ⟨[245000, 244000, 243000, 242000, 241000, 240000], true, 300000⟩, 30, 245000, true⟩ := by
  decide

set_option maxRecDepth 100000 in
lemma storm_seg_492 : stormRun 50 ⟨246000, ⟨[245000, 244000, 243000, 242000, 241000, 240000], true, 300000⟩, 30, 245000, true⟩ =
    ⟨246500, ⟨[245000, 244000, 243000, 242000, 241000, 240000], true, 300000⟩, 30, 245000, true⟩ := by
  decide

set_option maxRecDepth 100000 in
lemma storm_seg_493 : stormRun 50 ⟨246500, ⟨[245000, 244000, 243000, 242000, 241000, 240000], true, 300000⟩, 30, 245000, true⟩ =
    ⟨247000, ⟨[245000, 244000, 243000, 242000, 241000, 240000], true, 300000⟩, 30, 245000, true⟩ := by
  decide

set_option maxRecDepth 100000 in
lemma storm_seg_494 : stormRun 50 ⟨247000, ⟨[245000, 244000, 243000, 242000, 241000, 240000], true, 300000⟩, 30, 245000, true⟩ =
    ⟨247500, ⟨[245000, 244000, 243000, 242000, 241000, 240000], true, 300000⟩, 30, 245000, true⟩ := by
  decide

set_option maxRecDepth 100000 in
lemma storm_seg_495 : stormRun 50 ⟨247500, ⟨[245000, 244000, 243000, 242000, 241000, 240000], true, 300000⟩, 30, 245000, true⟩ =
    ⟨248000, ⟨[245000, 244000, 243000, 242000, 241000, 240000], true, 300000⟩, 30, 245000, true⟩ := by
  decide

set_option maxRecDepth 100000 in
lemma storm_seg_496 : stormRun 50 ⟨248000, ⟨[245000, 244000, 243000, 242000, 241000, 240000], true, 300000⟩, 30, 245000, true⟩ =
    ⟨248500, ⟨[245000, 244000, 243000, 242000, 241000, 240000], true, 300000⟩, 30, 245000, true⟩ := by
  decide

set_option maxRecDepth 100000 in
lemma storm_seg_497 : stormRun 50 ⟨248500, ⟨[245000, 244000, 243000, 242000, 241000, 240000], true, 300000⟩, 30, 245000, true⟩ =
    ⟨249000, ⟨[245000, 244000, 243000, 242000, 241000, 240000], true, 300000⟩, 30, 245000, true⟩ := by
  decide

set_option maxRecDepth 100000 in
lemma storm_seg_498 : stormRun 50 ⟨249000, ⟨[245000, 244000, 243000, 242000, 241000, 240000], true, 300000⟩, 30, 245000, true⟩ =
    ⟨249500, ⟨[245000, 244000, 243000, 242000, 241000, 240000], true, 300000⟩, 30, 245000, true⟩ := by
  decide

set_option maxRecDepth 100000 in
lemma storm_seg_499 : stormRun 50 ⟨249500, ⟨[245000, 244000, 243000, 242000, 241000, 240000], true, 300000⟩, 30, 245000, true⟩ =
    ⟨250000, ⟨[245000, 244000, 243000, 242000, 241000, 240000], true, 300000⟩, 30, 245000, true⟩ := by
  decide

set_option maxRecDepth 100000 in
lemma storm_seg_500 : stormRun 50 ⟨250000, ⟨[245000, 244000, 243000, 242000, 241000, 240000], true, 300000⟩, 30, 245000, true⟩ =
    ⟨250500, ⟨[245000, 244000, 243000, 242000, 241000, 240000], true, 300000⟩, 30, 245000, true⟩ := by
  decide

set_option maxRecDepth 100000 in
lemma storm_seg_501 : stormRun 50 ⟨250500, ⟨[245000, 244000, 243000, 242000, 241000, 240000], true, 300000⟩, 30, 245000, true⟩ =
    ⟨251000, ⟨[245000, 244000, 243000, 242000, 241000, 240000], true, 300000⟩, 30, 245000, true⟩ := by
  decide

set_option maxRecDepth 100000 in
lemma storm_seg_502 : stormRun 50 ⟨251000, ⟨[245000, 244000, 243000, 242000, 241000, 240000], true, 300000⟩, 30, 245000, true⟩ =
    ⟨251500, ⟨[245000, 244000, 243000, 242000, 241000, 240000], true, 300000⟩, 30, 245000, true⟩ := by
  decide

set_option maxRecDepth 100000 in
lemma storm_seg_503 : stormRun 50 ⟨251500, ⟨[245000, 244000, 243000, 242000, 241000, 240000], true, 300000⟩, 30, 245000, true⟩ =
    ⟨252000, ⟨[245000, 244000, 243000, 242000, 241000, 240000], true, 300000⟩, 30, 245000, true⟩ := by
  decide

set_option maxRecDepth 100000 in
lemma storm_seg_504 : stormRun 50 ⟨252000, ⟨[245000, 244000, 243000, 242000, 241000, 240000], true, 300000⟩, 30, 245000, true⟩ =
    ⟨252500, ⟨[245000, 244000, 243000, 242000, 241000, 240000], true, 300000⟩, 30, 245000, true⟩ := by
  decide

set_option maxRecDepth 100000 in
lemma storm_seg_505 : stormRun 50 ⟨252500, ⟨[245000, 244000, 243000, 242000, 241000, 240000], true, 300000⟩, 30, 245000, true⟩ =
    ⟨253000, ⟨[245000, 244000, 243000, 242000, 241000, 240000], true, 300000⟩, 30, 245000, true⟩ := by
  decide

set_option maxRecDepth 100000 in
lemma storm_seg_506 : stormRun 50 ⟨253000, ⟨[245000, 244000, 243000, 242000, 241000, 240000], true, 300000⟩, 30, 245000, true⟩ =
    ⟨253500, ⟨[245000, 244000, 243000, 242000, 241000, 240000], true, 300000⟩, 30, 245000, true⟩ := by
  decide

set_option maxRecDepth 100000 in
lemma storm_seg_507 : stormRun 50 ⟨253500, ⟨[245000, 244000, 243000, 242000, 241000, 240000], true, 300000⟩, 30, 245000, true⟩ =
    ⟨254000, ⟨[245000, 244000, 243000, 242000, 241000, 240000], true, 300000⟩, 30, 245000, true⟩ := by
  decide

set_option maxRecDepth 100000 in
lemma storm_seg_508 : stormRun 50 ⟨254000, ⟨[245000, 244000, 243000, 242000, 241000, 240000], true, 300000⟩, 30, 245000, true⟩ =
    ⟨254500, ⟨[245000, 244000, 243000, 242000, 241000, 240000], true, 300000⟩, 30, 245000, true⟩ := by
  decide

set_option maxRecDepth 100000 in
lemma storm_seg_509 : stormRun 50 ⟨254500, ⟨[245000, 244000, 243000, 242000, 241000, 240000], true, 300000⟩, 30, 245000, true⟩ =
    ⟨255000, ⟨[245000, 244000, 243000, 242000, 241000, 240000], true, 300000⟩, 30, 245000, true⟩ := by
  decide

set_option maxRecDepth 100000 in
lemma storm_seg_510 : stormRun 50 ⟨255000, ⟨[245000, 244000, 243000, 242000, 241000, 240000], true, 300000⟩, 30, 245000, true⟩ =
    ⟨255500, ⟨[245000, 244000, 243000, 242000, 241000, 240000], true, 300000⟩, 30, 245000, true⟩ := by
  decide

set_option maxRecDepth 100000 in
lemma storm_seg_511 : stormRun 50 ⟨255500, ⟨[245000, 244000, 243000, 242000, 241000, 240000], true, 300000⟩, 30, 245000, true⟩ =
    ⟨256000, ⟨[245000, 244000, 243000, 242000, 241000, 240000], true, 300000⟩, 30, 245000, true⟩ := by
  decide

set_option maxRecDepth 100000 in
lemma storm_seg_512 : stormRun 50 ⟨256000, ⟨[245000, 244000, 243000, 242000, 241000, 240000], true, 300000⟩, 30, 245000, true⟩ =
    ⟨256500, ⟨[245000, 244000, 243000, 242000, 241000, 240000], true, 300000⟩, 30, 245000, true⟩ := by
  decide

set_option maxRecDepth 100000 in
lemma storm_seg_513 : stormRun 50 ⟨256500, ⟨[245000, 244000, 243000, 242000, 241000, 240000], true, 300000⟩, 30, 245000, true⟩ =
    ⟨257000, ⟨[245000, 244000, 243000, 242000, 241000, 240000], true, 300000⟩, 30, 245000, true⟩ := by
  decide

set_option maxRecDepth 100000 in
lemma storm_seg_514 : stormRun 50 ⟨257000, ⟨[245000, 244000, 243000, 242000, 241000, 240000], true, 300000⟩, 30, 245000, true⟩ =
    ⟨257500, ⟨[245000, 244000, 243000, 242000, 241000, 240000], true, 300000⟩, 30, 245000, true⟩ := by
  decide

set_option maxRecDepth 100000 in
lemma storm_seg_515 : stormRun 50 ⟨257500, ⟨[245000, 244000, 243000, 242000, 241000, 240000], true, 300000⟩, 30, 245000, true⟩ =
    ⟨258000, ⟨[245000, 244000, 243000, 242000, 241000, 240000], true, 300000⟩, 30, 245000, true⟩ := by
  decide

set_option maxRecDepth 100000 in
lemma storm_seg_516 : stormRun 50 ⟨258000, ⟨[245000, 244000, 243000, 242000, 241000, 240000], true, 300000⟩, 30, 245000, true⟩ =
    ⟨258500, ⟨[245000, 244000, 243000, 242000, 241000, 240000], true, 300000⟩, 30, 245000, true⟩ := by
  decide

set_option maxRecDepth 100000 in
lemma storm_seg_517 : stormRun 50 ⟨258500, ⟨[245000, 244000, 243000, 242000, 241000, 240000], true, 300000⟩, 30, 245000, true⟩ =
    ⟨259000, ⟨[245000, 244000, 243000, 242000, 241000, 240000], true, 300000⟩, 30, 245000, true⟩ := by
  decide

set_option maxRecDepth 100000 in
lemma storm_seg_518 : stormRun 50 ⟨259000, ⟨[245000, 244000, 243000, 242000, 241000, 240000], true, 300000⟩, 30, 245000, true⟩ =
    ⟨259500, ⟨[245000, 244000, 243000, 242000, 241000, 240000], true, 300000⟩, 30, 245000, true⟩ := by
  decide

set_option maxRecDepth 100000 in
lemma storm_seg_519 : stormRun 50 ⟨259500, ⟨[245000, 244000, 243000, 242000, 241000, 240000], true, 300000⟩, 30, 245000, true⟩ =
    ⟨260000, ⟨[245000, 244000, 243000, 242000, 241000, 240000], true, 300000⟩, 30, 245000, true⟩ := by
  decide

set_option maxRecDepth 100000 in
lemma storm_seg_520 : stormRun 50 ⟨260000, ⟨[245000, 244000, 243000, 242000, 241000, 240000], true, 300000⟩, 30, 245000, true⟩ =
    ⟨260500, ⟨[245000, 244000, 243000, 242000, 241000, 240000], true, 300000⟩, 30, 245000, true⟩ := by
  decide

set_option maxRecDepth 100000 in
lemma storm_seg_521 : stormRun 50 ⟨260500, ⟨[245000, 244000, 243000, 242000, 241000, 240000], true, 300000⟩, 30, 245000, true⟩ =
    ⟨261000, ⟨[245000, 244000, 243000, 242000, 241000, 240000], true, 300000⟩, 30, 245000, true⟩ := by
  decide

set_option maxRecDepth 100000 in
lemma storm_seg_522 : stormRun 50 ⟨261000, ⟨[245000, 244000, 243000, 242000, 241000, 240000], true, 300000⟩, 30, 245000, true⟩ =
    ⟨261500, ⟨[245000, 244000, 243000, 242000, 241000, 240000], true, 300000⟩, 30, 245000, true⟩ := by
  decide

set_option maxRecDepth 100000 in
lemma storm_seg_523 : stormRun 50 ⟨261500, ⟨[245000, 244000, 243000, 242000, 241000, 240000], true, 300000⟩, 30, 245000, true⟩ =
    ⟨262000, ⟨[245000, 244000, 243000, 242000, 241000, 240000], true, 300000⟩, 30, 245000, true⟩ := by
  decide

set_option maxRecDepth 100000 in
lemma storm_seg_524 : stormRun 50 ⟨262000, ⟨[245000, 244000, 243000, 242000, 241000, 240000], true, 300000⟩, 30, 245000, true⟩ =
    ⟨262500, ⟨[245000, 244000, 243000, 242000, 241000, 240000], true, 300000⟩, 30, 245000, true⟩ := by
  decide

set_option maxRecDepth 100000 in
lemma storm_seg_525 : stormRun 50 ⟨262500, ⟨[245000, 244000, 243000, 242000, 241000, 240000], true, 300000⟩, 30, 245000, true⟩ =
    ⟨263000, ⟨[245000, 244000, 243000, 242000, 241000, 240000], true, 300000⟩, 30, 245000, true⟩ := by
  decide

set_option maxRecDepth 100000 in
lemma storm_seg_526 : stormRun 50 ⟨263000, ⟨[245000, 244000, 243000, 242000, 241000, 240000], true, 300000⟩, 30, 245000, true⟩ =
    ⟨263500, ⟨[245000, 244000, 243000, 242000, 241000, 240000], true, 300000⟩, 30, 245000, true⟩ := by
  decide

set_option maxRecDepth 100000 in
lemma storm_seg_527 : stormRun 50 ⟨263500, ⟨[245000, 244000, 243000, 242000, 241000, 240000], true, 300000⟩, 30, 245000, true⟩ =
    ⟨264000, ⟨[245000, 244000, 243000, 242000, 241000, 240000], true, 300000⟩, 30, 245000, true⟩ := by
  decide

set_option maxRecDepth 100000 in
lemma storm_seg_528 : stormRun 50 ⟨264000, ⟨[245000, 244000, 243000, 242000, 241000, 240000], true, 300000⟩, 30, 245000, true⟩ =
    ⟨264500, ⟨[245000, 244000, 243000, 242000, 241000, 240000], true, 300000⟩, 30, 245000, true⟩ := by
  decide

set_option maxRecDepth 100000 in
lemma storm_seg_529 : stormRun 50 ⟨264500, ⟨[245000, 244000, 243000, 242000, 241000, 240000], true, 300000⟩, 30, 245000, true⟩ =
    ⟨265000, ⟨[245000, 244000, 243000, 242000, 241000, 240000], true, 300000⟩, 30, 245000, true⟩ := by
  decide

set_option maxRecDepth 100000 in
lemma storm_seg_530 : stormRun 50 ⟨265000, ⟨[245000, 244000, 243000, 242000, 241000, 240000], true, 300000⟩, 30, 245000, true⟩ =
    ⟨265500, ⟨[245000, 244000, 243000, 242000, 241000, 240000], true, 300000⟩, 30, 245000, true⟩ := by
  decide

set_option maxRecDepth 100000 in
lemma storm_seg_531 : stormRun 50 ⟨265500, ⟨[245000, 244000, 243000, 242000, 241000, 240000], true, 300000⟩, 30, 245000, true⟩ =
    ⟨266000, ⟨[245000, 244000, 243000, 242000, 241000, 240000], true, 300000⟩, 30, 245000, true⟩ := by
  decide

set_option maxRecDepth 100000 in
lemma storm_seg_532 : stormRun 50 ⟨266000, ⟨[245000, 244000, 243000, 242000, 241000, 240000], true, 300000⟩, 30, 245000, true⟩ =
    ⟨266500, ⟨[245000, 244000, 243000, 242000, 241000, 240000], true, 300000⟩, 30, 245000, true⟩ := by
  decide

set_option maxRecDepth 100000 in
lemma storm_seg_533 : stormRun 50 ⟨266500, ⟨[245000, 244000, 243000, 242000, 241000, 240000], true, 300000⟩, 30, 245000, true⟩ =
    ⟨267000, ⟨[245000, 244000, 243000, 242000, 241000, 240000], true, 300000⟩, 30, 245000, true⟩ := by
  decide

set_option maxRecDepth 100000 in
lemma storm_seg_534 : stormRun 50 ⟨267000, ⟨[245000, 244000, 243000, 242000, 241000, 240000], true, 300000⟩, 30, 245000, true⟩ =
    ⟨267500, ⟨[245000, 244000, 243000, 242000, 241000, 240000], true, 300000⟩, 30, 245000, true⟩ := by
  decide

set_option maxRecDepth 100000 in
lemma storm_seg_535 : stormRun 50 ⟨267500, ⟨[245000, 244000, 243000, 242000, 241000, 240000], true, 300000⟩, 30, 245000, true⟩ =
    ⟨268000, ⟨[245000, 244000, 243000, 242000, 241000, 240000], true, 300000⟩, 30, 245000, true⟩ := by
  decide

set_option maxRecDepth 100000 in
lemma storm_seg_536 : stormRun 50 ⟨268000, ⟨[245000, 244000, 243000, 242000, 241000, 240000], true, 300000⟩, 30, 245000, true⟩ =
    ⟨268500, ⟨[245000, 244000, 243000, 242000, 241000, 240000], true, 300000⟩, 30, 245000, true⟩ := by
  decide

set_option maxRecDepth 100000 in
lemma storm_seg_537 : stormRun 50 ⟨268500, ⟨[245000, 244000, 243000, 242000, 241000, 240000], true, 300000⟩, 30, 245000, true⟩ =
    ⟨269000, ⟨[245000, 244000, 243000, 242000, 241000, 240000], true, 300000⟩, 30, 245000, true⟩ := by
  decide

set_option maxRecDepth 100000 in
lemma storm_seg_538 : stormRun 50 ⟨269000, ⟨[245000, 244000, 243000, 242000, 241000, 240000], true, 300000⟩, 30, 245000, true⟩ =
    ⟨269500, ⟨[245000, 244000, 243000, 242000, 241000, 240000], true, 300000⟩, 30, 245000, true⟩ := by
  decide

set_option maxRecDepth 100000 in
lemma storm_seg_539 : stormRun 50 ⟨269500, ⟨[245000, 244000, 243000, 242000, 241000, 240000], true, 300000⟩, 30, 245000, true⟩ =
    ⟨270000, ⟨[245000, 244000, 243000, 242000, 241000, 240000], true, 300000⟩, 30, 245000, true⟩ := by
  decide

set_option maxRecDepth 100000 in
lemma storm_seg_540 : stormRun 50 ⟨270000, ⟨[245000, 244000, 243000, 242000, 241000, 240000], true, 300000⟩, 30, 245000, true⟩ =
    ⟨270500, ⟨[245000, 244000, 243000, 242000, 241000, 240000], true, 300000⟩, 30, 245000, true⟩ := by
  decide

set_option maxRecDepth 100000 in
lemma storm_seg_541 : stormRun 50 ⟨270500, ⟨[245000, 244000, 243000, 242000, 241000, 240000], true, 300000⟩, 30, 245000, true⟩ =
    ⟨271000, ⟨[245000, 244000, 243000, 242000, 241000, 240000], true, 300000⟩, 30, 245000, true⟩ := by
  decide

set_option maxRecDepth 100000 in
lemma storm_seg_542 : stormRun 50 ⟨271000, ⟨[245000, 244000, 243000, 242000, 241000, 240000], true, 300000⟩, 30, 245000, true⟩ =
    ⟨271500, ⟨[245000, 244000, 243000, 242000, 241000, 240000], true, 300000⟩, 30, 245000, true⟩ := by
  decide

set_option maxRecDepth 100000 in
lemma storm_seg_543 : stormRun 50 ⟨271500, ⟨[245000, 244000, 243000, 242000, 241000, 240000], true, 300000⟩, 30, 245000, true⟩ =
    ⟨272000, ⟨[245000, 244000, 243000, 242000, 241000, 240000], true, 300000⟩, 30, 245000, true⟩ := by
  decide

set_option maxRecDepth 100000 in
lemma storm_seg_544 : stormRun 50 ⟨272000, ⟨[245000, 244000, 243000, 242000, 241000, 240000], true, 300000⟩, 30, 245000, true⟩ =
    ⟨272500, ⟨[245000, 244000, 243000, 242000, 241000, 240000], true, 300000⟩, 30, 245000, true⟩ := by
  decide

set_option maxRecDepth 100000 in
lemma storm_seg_545 : stormRun 50 ⟨272500, ⟨[245000, 244000, 243000, 242000, 241000, 240000], true, 300000⟩, 30, 245000, true⟩ =
    ⟨273000, ⟨[245000, 244000, 243000, 242000, 241000, 240000], true, 300000⟩, 30, 245000, true⟩ := by
  decide

set_option maxRecDepth 100000 in
lemma storm_seg_546 : stormRun 50 ⟨273000, ⟨[245000, 244000, 243000, 242000, 241000, 240000], true, 300000⟩, 30, 245000, true⟩ =
    ⟨273500, ⟨[245000, 244000, 243000, 242000, 241000, 240000], true, 300000⟩, 30, 245000, true⟩ := by
  decide

set_option maxRecDepth 100000 in
lemma storm_seg_547 : stormRun 50 ⟨273500, ⟨[245000, 244000, 243000, 242000, 241000, 240000], true, 300000⟩, 30, 245000, true⟩ =
    ⟨274000, ⟨[245000, 244000, 243000, 242000, 241000, 240000], true, 300000⟩, 30, 245000, true⟩ := by
  decide

set_option maxRecDepth 100000 in
lemma storm_seg_548 : stormRun 50 ⟨274000, ⟨[245000, 244000, 243000, 242000, 241000, 240000], true, 300000⟩, 30, 245000, true⟩ =
    ⟨274500, ⟨[245000, 244000, 243000, 242000, 241000, 240000], true, 300000⟩, 30, 245000, true⟩ := by
  decide

set_option maxRecDepth 100000 in
lemma storm_seg_549 : stormRun 50 ⟨274500, ⟨[245000, 244000, 243000, 242000, 241000, 240000], true, 300000⟩, 30, 245000, true⟩ =
    ⟨275000, ⟨[245000, 244000, 243000, 242000, 241000, 240000], true, 300000⟩, 30, 245000, true⟩ := by
  decide

set_option maxRecDepth 100000 in
lemma storm_seg_550 : stormRun 50 ⟨275000, ⟨[245000, 244000, 243000, 242000, 241000, 240000], true, 300000⟩, 30, 245000, true⟩ =
    ⟨275500, ⟨[245000, 244000, 243000, 242000, 241000, 240000], true, 300000⟩, 30, 245000, true⟩ := by
  decide

set_option maxRecDepth 100000 in
lemma storm_seg_551 : stormRun 50 ⟨275500, ⟨[245000, 244000, 243000, 242000, 241000, 240000], true, 300000⟩, 30, 245000, true⟩ =
    ⟨276000, ⟨[245000, 244000, 243000, 242000, 241000, 240000], true, 300000⟩, 30, 245000, true⟩ := by
  decide

set_option maxRecDepth 100000 in
lemma storm_seg_552 : stormRun 50 ⟨276000, ⟨[245000, 244000, 243000, 242000, 241000, 240000], true, 300000⟩, 30, 245000, true⟩ =
    ⟨276500, ⟨[245000, 244000, 243000, 242000, 241000, 240000], true, 300000⟩, 30, 245000, true⟩ := by
  decide

set_option maxRecDepth 100000 in
lemma storm_seg_553 : stormRun 50 ⟨276500, ⟨[245000, 244000, 243000, 242000, 241000, 240000], true, 300000⟩, 30, 245000, true⟩ =
    ⟨277000, ⟨[245000, 244000, 243000, 242000, 241000, 240000], true, 300000⟩, 30, 245000, true⟩ := by
  decide

set_option maxRecDepth 100000 in
lemma storm_seg_554 : stormRun 50 ⟨277000, ⟨[245000, 244000, 243000, 242000, 241000, 240000], true, 300000⟩, 30, 245000, true⟩ =
    ⟨277500, ⟨[245000, 244000, 243000, 242000, 241000, 240000], true, 300000⟩, 30, 245000, true⟩ := by
  decide

set_option maxRecDepth 100000 in
lemma storm_seg_555 : stormRun 50 ⟨277500, ⟨[245000, 244000, 243000, 242000, 241000, 240000], true, 300000⟩, 30, 245000, true⟩ =
    ⟨278000, ⟨[245000, 244000, 243000, 242000, 241000, 240000], true, 300000⟩, 30, 245000, true⟩ := by
  decide

set_option maxRecDepth 100000 in
lemma storm_seg_556 : stormRun 50 ⟨278000, ⟨[245000, 244000, 243000, 242000, 241000, 240000], true, 300000⟩, 30, 245000, true⟩ =
    ⟨278500, ⟨[245000, 244000, 243000, 242000, 241000, 240000], true, 300000⟩, 30, 245000, true⟩ := by
  decide

set_option maxRecDepth 100000 in
lemma storm_seg_557 : stormRun 50 ⟨278500, ⟨[245000, 244000, 243000, 242000, 241000, 240000], true, 300000⟩, 30, 245000, true⟩ =
    ⟨279000, ⟨[245000, 244000, 243000, 242000, 241000, 240000], true, 300000⟩, 30, 245000, true⟩ := by
  decide

set_option maxRecDepth 100000 in
lemma storm_seg_558 : stormRun 50 ⟨279000, ⟨[245000, 244000, 243000, 242000, 241000, 240000], true, 300000⟩, 30, 245000, true⟩ =
    ⟨279500, ⟨[245000, 244000, 243000, 242000, 241000, 240000], true, 300000⟩, 30, 245000, true⟩ := by
  decide

set_option maxRecDepth 100000 in
lemma storm_seg_559 : stormRun 50 ⟨279500, ⟨[245000, 244000, 243000, 242000, 241000, 240000], true, 300000⟩, 30, 245000, true⟩ =
    ⟨280000, ⟨[245000, 244000, 243000, 242000, 241000, 240000], true, 300000⟩, 30, 245000, true⟩ := by
  decide

set_option maxRecDepth 100000 in
lemma storm_seg_560 : stormRun 50 ⟨280000, ⟨[245000, 244000, 243000, 242000, 241000, 240000], true, 300000⟩, 30, 245000, true⟩ =
    ⟨280500, ⟨[245000, 244000, 243000, 242000, 241000, 240000], true, 300000⟩, 30, 245000, true⟩ := by
  decide

set_option maxRecDepth 100000 in
lemma storm_seg_561 : stormRun 50 ⟨280500, ⟨[245000, 244000, 243000, 242000, 241000, 240000], true, 300000⟩, 30, 245000, true⟩ =
    ⟨281000, ⟨[245000, 244000, 243000, 242000, 241000, 240000], true, 300000⟩, 30, 245000, true⟩ := by
  decide

set_option maxRecDepth 100000 in
lemma storm_seg_562 : stormRun 50 ⟨281000, ⟨[245000, 244000, 243000, 242000, 241000, 240000], true, 300000⟩, 30, 245000, true⟩ =
    ⟨281500, ⟨[245000, 244000, 243000, 242000, 241000, 240000], true, 300000⟩, 30, 245000, true⟩ := by
  decide

set_option maxRecDepth 100000 in
lemma storm_seg_563 : stormRun 50 ⟨281500, ⟨[245000, 244000, 243000, 242000, 241000, 240000], true, 300000⟩, 30, 245000, true⟩ =
    ⟨282000, ⟨[245000, 244000, 243000, 242000, 241000, 240000], true, 300000⟩, 30, 245000, true⟩ := by
  decide

set_option maxRecDepth 100000 in
lemma storm_seg_564 : stormRun 50 ⟨282000, ⟨[245000, 244000, 243000, 242000, 241000, 240000], true, 300000⟩, 30, 245000, true⟩ =
    ⟨282500, ⟨[245000, 244000, 243000, 242000, 241000, 240000], true, 300000⟩, 30, 245000, true⟩ := by
  decide

set_option maxRecDepth 100000 in
lemma storm_seg_565 : stormRun 50 ⟨282500, ⟨[245000, 244000, 243000, 242000, 241000, 240000], true, 300000⟩, 30, 245000, true⟩ =
    ⟨283000, ⟨[245000, 244000, 243000, 242000, 241000, 240000], true, 300000⟩, 30, 245000, true⟩ := by
  decide

set_option maxRecDepth 100000 in
lemma storm_seg_566 : stormRun 50 ⟨283000, ⟨[245000, 244000, 243000, 242000, 241000, 240000], true, 300000⟩, 30, 245000, true⟩ =
    ⟨283500, ⟨[245000, 244000, 243000, 242000, 241000, 240000], true, 300000⟩, 30, 245000, true⟩ := by
  decide

set_option maxRecDepth 100000 in
lemma storm_seg_567 : stormRun 50 ⟨283500, ⟨[245000, 244000, 243000, 242000, 241000, 240000], true, 300000⟩, 30, 245000, true⟩ =
    ⟨284000, ⟨[245000, 244000, 243000, 242000, 241000, 240000], true, 300000⟩, 30, 245000, true⟩ := by
  decide

set_option maxRecDepth 100000 in
lemma storm_seg_568 : stormRun 50 ⟨284000, ⟨[245000, 244000, 243000, 242000, 241000, 240000], true, 300000⟩, 30, 245000, true⟩ =
    ⟨284500, ⟨[245000, 244000, 243000, 242000, 241000, 240000], true, 300000⟩, 30, 245000, true⟩ := by
  decide

set_option maxRecDepth 100000 in
lemma storm_seg_569 : stormRun 50 ⟨284500, ⟨[245000, 244000, 243000, 242000, 241000, 240000], true, 300000⟩, 30, 245000, true⟩ =
    ⟨285000, ⟨[245000, 244000, 243000, 242000, 241000, 240000], true, 300000⟩, 30, 245000, true⟩ := by
  decide

set_option maxRecDepth 100000 in
lemma storm_seg_570 : stormRun 50 ⟨285000, ⟨[245000, 244000, 243000, 242000, 241000, 240000], true, 300000⟩, 30, 245000, true⟩ =
    ⟨285500, ⟨[245000, 244000, 243000, 242000, 241000, 240000], true, 300000⟩, 30, 245000, true⟩ := by
  decide

set_option maxRecDepth 100000 in
lemma storm_seg_571 : stormRun 50 ⟨285500, ⟨[245000, 244000, 243000, 242000, 241000, 240000], true, 300000⟩, 30, 245000, true⟩ =
    ⟨286000, ⟨[245000, 244000, 243000, 242000, 241000, 240000], true, 300000⟩, 30, 245000, true⟩ := by
  decide

set_option maxRecDepth 100000 in
lemma storm_seg_572 : stormRun 50 ⟨286000, ⟨[245000, 244000, 243000, 242000, 241000, 240000], true, 300000⟩, 30, 245000, true⟩ =
    ⟨286500, ⟨[245000, 244000, 243000, 242000, 241000, 240000], true, 300000⟩, 30, 245000, true⟩ := by
  decide

set_option maxRecDepth 100000 in
lemma storm_seg_573 : stormRun 50 ⟨286500, ⟨[245000, 244000, 243000, 242000, 241000, 240000], true, 300000⟩, 30, 245000, true⟩ =
    ⟨287000, ⟨[245000, 244000, 243000, 242000, 241000, 240000], true, 300000⟩, 30, 245000, true⟩ := by
  decide

set_option maxRecDepth 100000 in
lemma storm_seg_574 : stormRun 50 ⟨287000, ⟨[245000, 244000, 243000, 242000, 241000, 240000], true, 300000⟩, 30, 245000, true⟩ =
    ⟨287500, ⟨[245000, 244000, 243000, 242000, 241000, 240000], true, 300000⟩, 30, 245000, true⟩ := by
  decide

set_option maxRecDepth 100000 in
lemma storm_seg_575 : stormRun 50 ⟨287500, ⟨[245000, 244000, 243000, 242000, 241000, 240000], true, 300000⟩, 30, 245000, true⟩ =
    ⟨288000, ⟨[245000, 244000, 243000, 242000, 241000, 240000], true, 300000⟩, 30, 245000, true⟩ := by
  decide

set_option maxRecDepth 100000 in
lemma storm_seg_576 : stormRun 50 ⟨288000, ⟨[245000, 244000, 243000, 242000, 241000, 240000], true, 300000⟩, 30, 245000, true⟩ =
    ⟨288500, ⟨[245000, 244000, 243000, 242000, 241000, 240000], true, 300000⟩, 30, 245000, true⟩ := by
  decide

set_option maxRecDepth 100000 in
lemma storm_seg_577 : stormRun 50 ⟨288500, ⟨[245000, 244000, 243000, 242000, 241000, 240000], true, 300000⟩, 30, 245000, true⟩ =
    ⟨289000, ⟨[245000, 244000, 243000, 242000, 241000, 240000], true, 300000⟩, 30, 245000, true⟩ := by
  decide

set_option maxRecDepth 100000 in
lemma storm_seg_578 : stormRun 50 ⟨289000, ⟨[245000, 244000, 243000, 242000, 241000, 240000], true, 300000⟩, 30, 245000, true⟩ =
    ⟨289500, ⟨[245000, 244000, 243000, 242000, 241000, 240000], true, 300000⟩, 30, 245000, true⟩ := by
  decide

set_option maxRecDepth 100000 in
lemma storm_seg_579 : stormRun 50 ⟨289500, ⟨[245000, 244000, 243000, 242000, 241000, 240000], true, 300000⟩, 30, 245000, true⟩ =
    ⟨290000, ⟨[245000, 244000, 243000, 242000, 241000, 240000], true, 300000⟩, 30, 245000, true⟩ := by
  decide

set_option maxRecDepth 100000 in
lemma storm_seg_580 : stormRun 50 ⟨290000, ⟨[245000, 244000, 243000, 242000, 241000, 240000], true, 300000⟩, 30, 245000, true⟩ =
    ⟨290500, ⟨[245000, 244000, 243000, 242000, 241000, 240000], true, 300000⟩, 30, 245000, true⟩ := by
  decide

set_option maxRecDepth 100000 in
lemma storm_seg_581 : stormRun 50 ⟨290500, ⟨[245000, 244000, 243000, 242000, 241000, 240000], true, 300000⟩, 30, 245000, true⟩ =
    ⟨291000, ⟨[245000, 244000, 243000, 242000, 241000, 240000], true, 300000⟩, 30, 245000, true⟩ := by
  decide

set_option maxRecDepth 100000 in
lemma storm_seg_582 : stormRun 50 ⟨291000, ⟨[245000, 244000, 243000, 242000, 241000, 240000], true, 300000⟩, 30, 245000, true⟩ =
    ⟨291500, ⟨[245000, 244000, 243000, 242000, 241000, 240000], true, 300000⟩, 30, 245000, true⟩ := by
  decide

set_option maxRecDepth 100000 in
lemma storm_seg_583 : stormRun 50 ⟨291500, ⟨[245000, 244000, 243000, 242000, 241000, 240000], true, 300000⟩, 30, 245000, true⟩ =
    ⟨292000, ⟨[245000, 244000, 243000, 242000, 241000, 240000], true, 300000⟩, 30, 245000, true⟩ := by
  decide

set_option maxRecDepth 100000 in
lemma storm_seg_584 : stormRun 50 ⟨292000, ⟨[245000, 244000, 243000, 242000, 241000, 240000], true, 300000⟩, 30, 245000, true⟩ =
    ⟨292500, ⟨[245000, 244000, 243000, 242000, 241000, 240000], true, 300000⟩, 30, 245000, true⟩ := by
  decide

set_option maxRecDepth 100000 in
lemma storm_seg_585 : stormRun 50 ⟨292500, ⟨[245000, 244000, 243000, 242000, 241000, 240000], true, 300000⟩, 30, 245000, true⟩ =
    ⟨293000, ⟨[245000, 244000, 243000, 242000, 241000, 240000], true, 300000⟩, 30, 245000, true⟩ := by
  decide

set_option maxRecDepth 100000 in
lemma storm_seg_586 : stormRun 50 ⟨293000, ⟨[245000, 244000, 243000, 242000, 241000, 240000], true, 300000⟩, 30, 245000, true⟩ =
    ⟨293500, ⟨[245000, 244000, 243000, 242000, 241000, 240000], true, 300000⟩, 30, 245000, true⟩ := by
  decide

set_option maxRecDepth 100000 in
lemma storm_seg_587 : stormRun 50 ⟨293500, ⟨[245000, 244000, 243000, 242000, 241000, 240000], true, 300000⟩, 30, 245000, true⟩ =
    ⟨294000, ⟨[245000, 244000, 243000, 242000, 241000, 240000], true, 300000⟩, 30, 245000, true⟩ := by
  decide

set_option maxRecDepth 100000 in
lemma storm_seg_588 : stormRun 50 ⟨294000, ⟨[245000, 244000, 243000, 242000, 241000, 240000], true, 300000⟩, 30, 245000, true⟩ =
    ⟨294500, ⟨[245000, 244000, 243000, 242000, 241000, 240000], true, 300000⟩, 30, 245000, true⟩ := by
  decide

set_option maxRecDepth 100000 in
lemma storm_seg_589 : stormRun 50 ⟨294500, ⟨[245000, 244000, 243000, 242000, 241000, 240000], true, 300000⟩, 30, 245000, true⟩ =
    ⟨295000, ⟨[245000, 244000, 243000, 242000, 241000, 240000], true, 300000⟩, 30, 245000, true⟩ := by
  decide

set_option maxRecDepth 100000 in
lemma storm_seg_590 : stormRun 50 ⟨295000, ⟨[245000, 244000, 243000, 242000, 241000, 240000], true, 300000⟩, 30, 245000, true⟩ =
    ⟨295500, ⟨[245000, 244000, 243000, 242000, 241000, 240000], true, 300000⟩, 30, 245000, true⟩ := by
  decide

set_option maxRecDepth 100000 in
lemma storm_seg_591 : stormRun 50 ⟨295500, ⟨[245000, 244000, 243000, 242000, 241000, 240000], true, 300000⟩, 30, 245000, true⟩ =
    ⟨296000, ⟨[245000, 244000, 243000, 242000, 241000, 240000], true, 300000⟩, 30, 245000, true⟩ := by
  decide

set_option maxRecDepth 100000 in
lemma storm_seg_592 : stormRun 50 ⟨296000, ⟨[245000, 244000, 243000, 242000, 241000, 240000], true, 300000⟩, 30, 245000, true⟩ =
    ⟨296500, ⟨[245000, 244000, 243000, 242000, 241000, 240000], true, 300000⟩, 30, 245000, true⟩ := by
  decide

set_option maxRecDepth 100000 in
lemma storm_seg_593 : stormRun 50 ⟨296500, ⟨[245000, 244000, 243000, 242000, 241000, 240000], true, 300000⟩, 30, 245000, true⟩ =
    ⟨297000, ⟨[245000, 244000, 243000, 242000, 241000, 240000], true, 300000⟩, 30, 245000, true⟩ := by
  decide

set_option maxRecDepth 100000 in
lemma storm_seg_594 : stormRun 50 ⟨297000, ⟨[245000, 244000, 243000, 242000, 241000, 240000], true, 300000⟩, 30, 245000, true⟩ =
    ⟨297500, ⟨[245000, 244000, 243000, 242000, 241000, 240000], true, 300000⟩, 30, 245000, true⟩ := by
  decide

set_option maxRecDepth 100000 in
lemma storm_seg_595 : stormRun 50 ⟨297500, ⟨[245000, 244000, 243000, 242000, 241000, 240000], true, 300000⟩, 30, 245000, true⟩ =
    ⟨298000, ⟨[245000, 244000, 243000, 242000, 241000, 240000], true, 300000⟩, 30, 245000, true⟩ := by
  decide

set_option maxRecDepth 100000 in
lemma storm_seg_596 : stormRun 50 ⟨298000, ⟨[245000, 244000, 243000, 242000, 241000, 240000], true, 300000⟩, 30, 245000, true⟩ =
    ⟨298500, ⟨[245000, 244000, 243000, 242000, 241000, 240000], true, 300000⟩, 30, 245000, true⟩ := by
  decide

set_option maxRecDepth 100000 in
lemma storm_seg_597 : stormRun 50 ⟨298500, ⟨[245000, 244000, 243000, 242000, 241000, 240000], true, 300000⟩, 30, 245000, true⟩ =
    ⟨299000, ⟨[245000, 244000, 243000, 242000, 241000, 240000], true, 300000⟩, 30, 245000, true⟩ := by
  decide

set_option maxRecDepth 100000 in
lemma storm_seg_598 : stormRun 50 ⟨299000, ⟨[245000, 244000, 243000, 242000, 241000, 240000], true, 300000⟩, 30, 245000, true⟩ =
    ⟨299500, ⟨[245000, 244000, 243000, 242000, 241000, 240000], true, 300000⟩, 30, 245000, true⟩ := by
  decide

set_option maxRecDepth 100000 in
lemma storm_seg_599 : stormRun 50 ⟨299500, ⟨[245000, 244000, 243000, 242000, 241000, 240000], true, 300000⟩, 30, 245000, true⟩ =
    ⟨300000, ⟨[300000, 245000, 244000, 243000, 242000, 241000], false, 300000⟩, 31, 300000, true⟩ := by
  decide

/-- The full five-minute storm: 30000 iterations at 10 ms intervals yield
exactly 31 listener invocations, every one at least a second after the
previous, ending exactly on the minute boundary at t = 300000 ms. -/
lemma storm_total : stormRun 30000 stormInit = ⟨300000, ⟨[300000, 245000, 244000, 243000, 242000, 241000], false, 300000⟩, 31, 300000, true⟩ := by
  have h := storm_seg_0
  have h := storm_comp (by norm_num : 50 * 1 + 50 = 50 * 2) h storm_seg_1
  have h := storm_comp (by norm_num : 50 * 2 + 50 = 50 * 3) h storm_seg_2
  have h := storm_comp (by norm_num : 50 * 3 + 50 = 50 * 4) h storm_seg_3
  have h := storm_comp (by norm_num : 50 * 4 + 50 = 50 * 5) h storm_seg_4
  have h := storm_comp (by norm_num : 50 * 5 + 50 = 50 * 6) h storm_seg_5
  have h := storm_comp (by norm_num : 50 * 6 + 50 = 50 * 7) h storm_seg_6
  have h := storm_comp (by norm_num : 50 * 7 + 50 = 50 * 8) h storm_seg_7
  have h := storm_comp (by norm_num : 50 * 8 + 50 = 50 * 9) h storm_seg_8
  have h := storm_comp (by norm_num : 50 * 9 + 50 = 50 * 10) h storm_seg_9
  have h := storm_comp (by norm_num : 50 * 10 + 50 = 50 * 11) h storm_seg_10
  have h := storm_comp (by norm_num : 50 * 11 + 50 = 50 * 12) h storm_seg_11
  have h := storm_comp (by norm_num : 50 * 12 + 50 = 50 * 13) h storm_seg_12
  have h := storm_comp (by norm_num : 50 * 13 + 50 = 50 * 14) h storm_seg_13
  have h := storm_comp (by norm_num : 50 * 14 + 50 = 50 * 15) h storm_seg_14
  have h := storm_comp (by norm_num : 50 * 15 + 50 = 50 * 16) h storm_seg_15
  have h := storm_comp (by norm_num : 50 * 16 + 50 = 50 * 17) h storm_seg_16
  have h := storm_comp (by norm_num : 50 * 17 + 50 = 50 * 18) h storm_seg_17
  have h := storm_comp (by norm_num : 50 * 18 + 50 = 50 * 19) h storm_seg_18
  have h := storm_comp (by norm_num : 50 * 19 + 50 = 50 * 20) h storm_seg_19
  have h := storm_comp (by norm_num : 50 * 20 + 50 = 50 * 21) h storm_seg_20
  have h := storm_comp (by norm_num : 50 * 21 + 50 = 50 * 22) h storm_seg_21
  have h := storm_comp (by norm_num : 50 * 22 + 50 = 50 * 23) h storm_seg_22
  have h := storm_comp (by norm_num : 50 * 23 + 50 = 50 * 24) h storm_seg_23
  have h := storm_comp (by norm_num : 50 * 24 + 50 = 50 * 25) h storm_seg_24
  have h := storm_comp (by norm_num : 50 * 25 + 50 = 50 * 26) h storm_seg_25
  have h := storm_comp (by norm_num : 50 * 26 + 50 = 50 * 27) h storm_seg_26
  have h := storm_comp (by norm_num : 50 * 27 + 50 = 50 * 28) h storm_seg_27
  have h := storm_comp (by norm_num : 50 * 28 + 50 = 50 * 29) h storm_seg_28
  have h := storm_comp (by norm_num : 50 * 29 + 50 = 50 * 30) h storm_seg_29
  have h := storm_comp (by norm_num : 50 * 30 + 50 = 50 * 31) h storm_seg_30
  have h := storm_comp (by norm_num : 50 * 31 + 50 = 50 * 32) h storm_seg_31
  have h := storm_comp (by norm_num : 50 * 32 + 50 = 50 * 33) h storm_seg_32
  have h := storm_comp (by norm_num : 50 * 33 + 50 = 50 * 34) h storm_seg_33
  have h := storm_comp (by norm_num : 50 * 34 + 50 = 50 * 35) h storm_seg_34
  have h := storm_comp (by norm_num : 50 * 35 + 50 = 50 * 36) h storm_seg_35
  have h := storm_comp (by norm_num : 50 * 36 + 50 = 50 * 37) h storm_seg_36
  have h := storm_comp (by norm_num : 50 * 37 + 50 = 50 * 38) h storm_seg_37
  have h := storm_comp (by norm_num : 50 * 38 + 50 = 50 * 39) h storm_seg_38
  have h := storm_comp (by norm_num : 50 * 39 + 50 = 50 * 40) h storm_seg_39
  have h := storm_comp (by norm_num : 50 * 40 + 50 = 50 * 41) h storm_seg_40
  have h := storm_comp (by norm_num : 50 * 41 + 50 = 50 * 42) h storm_seg_41
  have h := storm_comp (by norm_num : 50 * 42 + 50 = 50 * 43) h storm_seg_42
  have h := storm_comp (by norm_num : 50 * 43 + 50 = 50 * 44) h storm_seg_43
  have h := storm_comp (by norm_num : 50 * 44 + 50 = 50 * 45) h storm_seg_44
  have h := storm_comp (by norm_num : 50 * 45 + 50 = 50 * 46) h storm_seg_45
  have h := storm_comp (by norm_num : 50 * 46 + 50 = 50 * 47) h storm_seg_46
  have h := storm_comp (by norm_num : 50 * 47 + 50 = 50 * 48) h storm_seg_47
  have h := storm_comp (by norm_num : 50 * 48 + 50 = 50 * 49) h storm_seg_48
  have h := storm_comp (by norm_num : 50 * 49 + 50 = 50 * 50) h storm_seg_49
  have h := storm_comp (by norm_num : 50 * 50 + 50 = 50 * 51) h storm_seg_50
  have h := storm_comp (by norm_num : 50 * 51 + 50 = 50 * 52) h storm_seg_51
  have h := storm_comp (by norm_num : 50 * 52 + 50 = 50 * 53) h storm_seg_52
  have h := storm_comp (by norm_num : 50 * 53 + 50 = 50 * 54) h storm_seg_53
  have h := storm_comp (by norm_num : 50 * 54 + 50 = 50 * 55) h storm_seg_54
  have h := storm_comp (by norm_num : 50 * 55 + 50 = 50 * 56) h storm_seg_55
  have h := storm_comp (by norm_num : 50 * 56 + 50 = 50 * 57) h storm_seg_56
  have h := storm_comp (by norm_num : 50 * 57 + 50 = 50 * 58) h storm_seg_57
  have h := storm_comp (by norm_num : 50 * 58 + 50 = 50 * 59) h storm_seg_58
  have h := storm_comp (by norm_num : 50 * 59 + 50 = 50 * 60) h storm_seg_59
  have h := storm_comp (by norm_num : 50 * 60 + 50 = 50 * 61) h storm_seg_60
  have h := storm_comp (by norm_num : 50 * 61 + 50 = 50 * 62) h storm_seg_61
  have h := storm_comp (by norm_num : 50 * 62 + 50 = 50 * 63) h storm_seg_62
  have h := storm_comp (by norm_num : 50 * 63 + 50 = 50 * 64) h storm_seg_63
  have h := storm_comp (by norm_num : 50 * 64 + 50 = 50 * 65) h storm_seg_64
  have h := storm_comp (by norm_num : 50 * 65 + 50 = 50 * 66) h storm_seg_65
  have h := storm_comp (by norm_num : 50 * 66 + 50 = 50 * 67) h storm_seg_66
  have h := storm_comp (by norm_num : 50 * 67 + 50 = 50 * 68) h storm_seg_67
  have h := storm_comp (by norm_num : 50 * 68 + 50 = 50 * 69) h storm_seg_68
  have h := storm_comp (by norm_num : 50 * 69 + 50 = 50 * 70) h storm_seg_69
  have h := storm_comp (by norm_num : 50 * 70 + 50 = 50 * 71) h storm_seg_70
  have h := storm_comp (by norm_num : 50 * 71 + 50 = 50 * 72) h storm_seg_71
  have h := storm_comp (by norm_num : 50 * 72 + 50 = 50 * 73) h storm_seg_72
  have h := storm_comp (by norm_num : 50 * 73 + 50 = 50 * 74) h storm_seg_73
  have h := storm_comp (by norm_num : 50 * 74 + 50 = 50 * 75) h storm_seg_74
  have h := storm_comp (by norm_num : 50 * 75 + 50 = 50 * 76) h storm_seg_75
  have h := storm_comp (by norm_num : 50 * 76 + 50 = 50 * 77) h storm_seg_76
  have h := storm_comp (by norm_num : 50 * 77 + 50 = 50 * 78) h storm_seg_77
  have h := storm_comp (by norm_num : 50 * 78 + 50 = 50 * 79) h storm_seg_78
  have h := storm_comp (by norm_num : 50 * 79 + 50 = 50 * 80) h storm_seg_79
  have h := storm_comp (by norm_num : 50 * 80 + 50 = 50 * 81) h storm_seg_80
  have h := storm_comp (by norm_num : 50 * 81 + 50 = 50 * 82) h storm_seg_81
  have h := storm_comp (by norm_num : 50 * 82 + 50 = 50 * 83) h storm_seg_82
  have h := storm_comp (by norm_num : 50 * 83 + 50 = 50 * 84) h storm_seg_83
  have h := storm_comp (by norm_num : 50 * 84 + 50 = 50 * 85) h storm_seg_84
  have h := storm_comp (by norm_num : 50 * 85 + 50 = 50 * 86) h storm_seg_85
  have h := storm_comp (by norm_num : 50 * 86 + 50 = 50 * 87) h storm_seg_86
  have h := storm_comp (by norm_num : 50 * 87 + 50 = 50 * 88) h storm_seg_87
  have h := storm_comp (by norm_num : 50 * 88 + 50 = 50 * 89) h storm_seg_88
  have h := storm_comp (by norm_num : 50 * 89 + 50 = 50 * 90) h storm_seg_89
  have h := storm_comp (by norm_num : 50 * 90 + 50 = 50 * 91) h storm_seg_90
  have h := storm_comp (by norm_num : 50 * 91 + 50 = 50 * 92) h storm_seg_91
  have h := storm_comp (by norm_num : 50 * 92 + 50 = 50 * 93) h storm_seg_92
  have h := storm_comp (by norm_num : 50 * 93 + 50 = 50 * 94) h storm_seg_93
  have h := storm_comp (by norm_num : 50 * 94 + 50 = 50 * 95) h storm_seg_94
  have h := storm_comp (by norm_num : 50 * 95 + 50 = 50 * 96) h storm_seg_95
  have h := storm_comp (by norm_num : 50 * 96 + 50 = 50 * 97) h storm_seg_96
  have h := storm_comp (by norm_num : 50 * 97 + 50 = 50 * 98) h storm_seg_97
  have h := storm_comp (by norm_num : 50 * 98 + 50 = 50 * 99) h storm_seg_98
  have h := storm_comp (by norm_num : 50 * 99 + 50 = 50 * 100) h storm_seg_99
  have h := storm_comp (by norm_num : 50 * 100 + 50 = 50 * 101) h storm_seg_100
  have h := storm_comp (by norm_num : 50 * 101 + 50 = 50 * 102) h storm_seg_101
  have h := storm_comp (by norm_num : 50 * 102 + 50 = 50 * 103) h storm_seg_102
  have h := storm_comp (by norm_num : 50 * 103 + 50 = 50 * 104) h storm_seg_103
  have h := storm_comp (by norm_num : 50 * 104 + 50 = 50 * 105) h storm_seg_104
  have h := storm_comp (by norm_num : 50 * 105 + 50 = 50 * 106) h storm_seg_105
  have h := storm_comp (by norm_num : 50 * 106 + 50 = 50 * 107) h storm_seg_106
  have h := storm_comp (by norm_num : 50 * 107 + 50 = 50 * 108) h storm_seg_107
  have h := storm_comp (by norm_num : 50 * 108 + 50 = 50 * 109) h storm_seg_108
  have h := storm_comp (by norm_num : 50 * 109 + 50 = 50 * 110) h storm_seg_109
  have h := storm_comp (by norm_num : 50 * 110 + 50 = 50 * 111) h storm_seg_110
  have h := storm_comp (by norm_num : 50 * 111 + 50 = 50 * 112) h storm_seg_111
  have h := storm_comp (by norm_num : 50 * 112 + 50 = 50 * 113) h storm_seg_112
  have h := storm_comp (by norm_num : 50 * 113 + 50 = 50 * 114) h storm_seg_113
  have h := storm_comp (by norm_num : 50 * 114 + 50 = 50 * 115) h storm_seg_114
  have h := storm_comp (by norm_num : 50 * 115 + 50 = 50 * 116) h storm_seg_115
  have h := storm_comp (by norm_num : 50 * 116 + 50 = 50 * 117) h storm_seg_116
  have h := storm_comp (by norm_num : 50 * 117 + 50 = 50 * 118) h storm_seg_117
  have h := storm_comp (by norm_num : 50 * 118 + 50 = 50 * 119) h storm_seg_118
  have h := storm_comp (by norm_num : 50 * 119 + 50 = 50 * 120) h storm_seg_119
  have h := storm_comp (by norm_num : 50 * 120 + 50 = 50 * 121) h storm_seg_120
  have h := storm_comp (by norm_num : 50 * 121 + 50 = 50 * 122) h storm_seg_121
  have h := storm_comp (by norm_num : 50 * 122 + 50 = 50 * 123) h storm_seg_122
  have h := storm_comp (by norm_num : 50 * 123 + 50 = 50 * 124) h storm_seg_123
  have h := storm_comp (by norm_num : 50 * 124 + 50 = 50 * 125) h storm_seg_124
  have h := storm_comp (by norm_num : 50 * 125 + 50 = 50 * 126) h storm_seg_125
  have h := storm_comp (by norm_num : 50 * 126 + 50 = 50 * 127) h storm_seg_126
  have h := storm_comp (by norm_num : 50 * 127 + 50 = 50 * 128) h storm_seg_127
  have h := storm_comp (by norm_num : 50 * 128 + 50 = 50 * 129) h storm_seg_128
  have h := storm_comp (by norm_num : 50 * 129 + 50 = 50 * 130) h storm_seg_129
  have h := storm_comp (by norm_num : 50 * 130 + 50 = 50 * 131) h storm_seg_130
  have h := storm_comp (by norm_num : 50 * 131 + 50 = 50 * 132) h storm_seg_131
  have h := storm_comp (by norm_num : 50 * 132 + 50 = 50 * 133) h storm_seg_132
  have h := storm_comp (by norm_num : 50 * 133 + 50 = 50 * 134) h storm_seg_133
  have h := storm_comp (by norm_num : 50 * 134 + 50 = 50 * 135) h storm_seg_134
  have h := storm_comp (by norm_num : 50 * 135 + 50 = 50 * 136) h storm_seg_135
  have h := storm_comp (by norm_num : 50 * 136 + 50 = 50 * 137) h storm_seg_136
  have h := storm_comp (by norm_num : 50 * 137 + 50 = 50 * 138) h storm_seg_137
  have h := storm_comp (by norm_num : 50 * 138 + 50 = 50 * 139) h storm_seg_138
  have h := storm_comp (by norm_num : 50 * 139 + 50 = 50 * 140) h storm_seg_139
  have h := storm_comp (by norm_num : 50 * 140 + 50 = 50 * 141) h storm_seg_140
  have h := storm_comp (by norm_num : 50 * 141 + 50 = 50 * 142) h storm_seg_141
  have h := storm_comp (by norm_num : 50 * 142 + 50 = 50 * 143) h storm_seg_142
  have h := storm_comp (by norm_num : 50 * 143 + 50 = 50 * 144) h storm_seg_143
  have h := storm_comp (by norm_num : 50 * 144 + 50 = 50 * 145) h storm_seg_144
  have h := storm_comp (by norm_num : 50 * 145 + 50 = 50 * 146) h storm_seg_145
  have h := storm_comp (by norm_num : 50 * 146 + 50 = 50 * 147) h storm_seg_146
  have h := storm_comp (by norm_num : 50 * 147 + 50 = 50 * 148) h storm_seg_147
  have h := storm_comp (by norm_num : 50 * 148 + 50 = 50 * 149) h storm_seg_148
  have h := storm_comp (by norm_num : 50 * 149 + 50 = 50 * 150) h storm_seg_149
  have h := storm_comp (by norm_num : 50 * 150 + 50 = 50 * 151) h storm_seg_150
  have h := storm_comp (by norm_num : 50 * 151 + 50 = 50 * 152) h storm_seg_151
  have h := storm_comp (by norm_num : 50 * 152 + 50 = 50 * 153) h storm_seg_152
  have h := storm_comp (by norm_num : 50 * 153 + 50 = 50 * 154) h storm_seg_153
  have h := storm_comp (by norm_num : 50 * 154 + 50 = 50 * 155) h storm_seg_154
  have h := storm_comp (by norm_num : 50 * 155 + 50 = 50 * 156) h storm_seg_155
  have h := storm_comp (by norm_num : 50 * 156 + 50 = 50 * 157) h storm_seg_156
  have h := storm_comp (by norm_num : 50 * 157 + 50 = 50 * 158) h storm_seg_157
  have h := storm_comp (by norm_num : 50 * 158 + 50 = 50 * 159) h storm_seg_158
  have h := storm_comp (by norm_num : 50 * 159 + 50 = 50 * 160) h storm_seg_159
  have h := storm_comp (by norm_num : 50 * 160 + 50 = 50 * 161) h storm_seg_160
  have h := storm_comp (by norm_num : 50 * 161 + 50 = 50 * 162) h storm_seg_161
  have h := storm_comp (by norm_num : 50 * 162 + 50 = 50 * 163) h storm_seg_162
  have h := storm_comp (by norm_num : 50 * 163 + 50 = 50 * 164) h storm_seg_163
  have h := storm_comp (by norm_num : 50 * 164 + 50 = 50 * 165) h storm_seg_164
  have h := storm_comp (by norm_num : 50 * 165 + 50 = 50 * 166) h storm_seg_165
  have h := storm_comp (by norm_num : 50 * 166 + 50 = 50 * 167) h storm_seg_166
  have h := storm_comp (by norm_num : 50 * 167 + 50 = 50 * 168) h storm_seg_167
  have h := storm_comp (by norm_num : 50 * 168 + 50 = 50 * 169) h storm_seg_168
  have h := storm_comp (by norm_num : 50 * 169 + 50 = 50 * 170) h storm_seg_169
  have h := storm_comp (by norm_num : 50 * 170 + 50 = 50 * 171) h storm_seg_170
  have h := storm_comp (by norm_num : 50 * 171 + 50 = 50 * 172) h storm_seg_171
  have h := storm_comp (by norm_num : 50 * 172 + 50 = 50 * 173) h storm_seg_172
  have h := storm_comp (by norm_num : 50 * 173 + 50 = 50 * 174) h storm_seg_173
  have h := storm_comp (by norm_num : 50 * 174 + 50 = 50 * 175) h storm_seg_174
  have h := storm_comp (by norm_num : 50 * 175 + 50 = 50 * 176) h storm_seg_175
  have h := storm_comp (by norm_num : 50 * 176 + 50 = 50 * 177) h storm_seg_176
  have h := storm_comp (by norm_num : 50 * 177 + 50 = 50 * 178) h storm_seg_177
  have h := storm_comp (by norm_num : 50 * 178 + 50 = 50 * 179) h storm_seg_178
  have h := storm_comp (by norm_num : 50 * 179 + 50 = 50 * 180) h storm_seg_179
  have h := storm_comp (by norm_num : 50 * 180 + 50 = 50 * 181) h storm_seg_180
  have h := storm_comp (by norm_num : 50 * 181 + 50 = 50 * 182) h storm_seg_181
  have h := storm_comp (by norm_num : 50 * 182 + 50 = 50 * 183) h storm_seg_182
  have h := storm_comp (by norm_num : 50 * 183 + 50 = 50 * 184) h storm_seg_183
  have h := storm_comp (by norm_num : 50 * 184 + 50 = 50 * 185) h storm_seg_184
  have h := storm_comp (by norm_num : 50 * 185 + 50 = 50 * 186) h storm_seg_185
  have h := storm_comp (by norm_num : 50 * 186 + 50 = 50 * 187) h storm_seg_186
  have h := storm_comp (by norm_num : 50 * 187 + 50 = 50 * 188) h storm_seg_187
  have h := storm_comp (by norm_num : 50 * 188 + 50 = 50 * 189) h storm_seg_188
  have h := storm_comp (by norm_num : 50 * 189 + 50 = 50 * 190) h storm_seg_189
  have h := storm_comp (by norm_num : 50 * 190 + 50 = 50 * 191) h storm_seg_190
  have h := storm_comp (by norm_num : 50 * 191 + 50 = 50 * 192) h storm_seg_191
  have h := storm_comp (by norm_num : 50 * 192 + 50 = 50 * 193) h storm_seg_192
  have h := storm_comp (by norm_num : 50 * 193 + 50 = 50 * 194) h storm_seg_193
  have h := storm_comp (by norm_num : 50 * 194 + 50 = 50 * 195) h storm_seg_194
  have h := storm_comp (by norm_num : 50 * 195 + 50 = 50 * 196) h storm_seg_195
  have h := storm_comp (by norm_num : 50 * 196 + 50 = 50 * 197) h storm_seg_196
  have h := storm_comp (by norm_num : 50 * 197 + 50 = 50 * 198) h storm_seg_197
  have h := storm_comp (by norm_num : 50 * 198 + 50 = 50 * 199) h storm_seg_198
  have h := storm_comp (by norm_num : 50 * 199 + 50 = 50 * 200) h storm_seg_199
  have h := storm_comp (by norm_num : 50 * 200 + 50 = 50 * 201) h storm_seg_200
  have h := storm_comp (by norm_num : 50 * 201 + 50 = 50 * 202) h storm_seg_201
  have h := storm_comp (by norm_num : 50 * 202 + 50 = 50 * 203) h storm_seg_202
  have h := storm_comp (by norm_num : 50 * 203 + 50 = 50 * 204) h storm_seg_203
  have h := storm_comp (by norm_num : 50 * 204 + 50 = 50 * 205) h storm_seg_204
  have h := storm_comp (by norm_num : 50 * 205 + 50 = 50 * 206) h storm_seg_205
  have h := storm_comp (by norm_num : 50 * 206 + 50 = 50 * 207) h storm_seg_206
  have h := storm_comp (by norm_num : 50 * 207 + 50 = 50 * 208) h storm_seg_207
  have h := storm_comp (by norm_num : 50 * 208 + 50 = 50 * 209) h storm_seg_208
  have h := storm_comp (by norm_num : 50 * 209 + 50 = 50 * 210) h storm_seg_209
  have h := storm_comp (by norm_num : 50 * 210 + 50 = 50 * 211) h storm_seg_210
  have h := storm_comp (by norm_num : 50 * 211 + 50 = 50 * 212) h storm_seg_211
  have h := storm_comp (by norm_num : 50 * 212 + 50 = 50 * 213) h storm_seg_212
  have h := storm_comp (by norm_num : 50 * 213 + 50 = 50 * 214) h storm_seg_213
  have h := storm_comp (by norm_num : 50 * 214 + 50 = 50 * 215) h storm_seg_214
  have h := storm_comp (by norm_num : 50 * 215 + 50 = 50 * 216) h storm_seg_215
  have h := storm_comp (by norm_num : 50 * 216 + 50 = 50 * 217) h storm_seg_216
  have h := storm_comp (by norm_num : 50 * 217 + 50 = 50 * 218) h storm_seg_217
  have h := storm_comp (by norm_num : 50 * 218 + 50 = 50 * 219) h storm_seg_218
  have h := storm_comp (by norm_num : 50 * 219 + 50 = 50 * 220) h storm_seg_219
  have h := storm_comp (by norm_num : 50 * 220 + 50 = 50 * 221) h storm_seg_220
  have h := storm_comp (by norm_num : 50 * 221 + 50 = 50 * 222) h storm_seg_221
  have h := storm_comp (by norm_num : 50 * 222 + 50 = 50 * 223) h storm_seg_222
  have h := storm_comp (by norm_num : 50 * 223 + 50 = 50 * 224) h storm_seg_223
  have h := storm_comp (by norm_num : 50 * 224 + 50 = 50 * 225) h storm_seg_224
  have h := storm_comp (by norm_num : 50 * 225 + 50 = 50 * 226) h storm_seg_225
  have h := storm_comp (by norm_num : 50 * 226 + 50 = 50 * 227) h storm_seg_226
  have h := storm_comp (by norm_num : 50 * 227 + 50 = 50 * 228) h storm_seg_227
  have h := storm_comp (by norm_num : 50 * 228 + 50 = 50 * 229) h storm_seg_228
  have h := storm_comp (by norm_num : 50 * 229 + 50 = 50 * 230) h storm_seg_229
  have h := storm_comp (by norm_num : 50 * 230 + 50 = 50 * 231) h storm_seg_230
  have h := storm_comp (by norm_num : 50 * 231 + 50 = 50 * 232) h storm_seg_231
  have h := storm_comp (by norm_num : 50 * 232 + 50 = 50 * 233) h storm_seg_232
  have h := storm_comp (by norm_num : 50 * 233 + 50 = 50 * 234) h storm_seg_233
  have h := storm_comp (by norm_num : 50 * 234 + 50 = 50 * 235) h storm_seg_234
  have h := storm_comp (by norm_num : 50 * 235 + 50 = 50 * 236) h storm_seg_235
  have h := storm_comp (by norm_num : 50 * 236 + 50 = 50 * 237) h storm_seg_236
  have h := storm_comp (by norm_num : 50 * 237 + 50 = 50 * 238) h storm_seg_237
  have h := storm_comp (by norm_num : 50 * 238 + 50 = 50 * 239) h storm_seg_238
  have h := storm_comp (by norm_num : 50 * 239 + 50 = 50 * 240) h storm_seg_239
  have h := storm_comp (by norm_num : 50 * 240 + 50 = 50 * 241) h storm_seg_240
  have h := storm_comp (by norm_num : 50 * 241 + 50 = 50 * 242) h storm_seg_241
  have h := storm_comp (by norm_num : 50 * 242 + 50 = 50 * 243) h storm_seg_242
  have h := storm_comp (by norm_num : 50 * 243 + 50 = 50 * 244) h storm_seg_243
  have h := storm_comp (by norm_num : 50 * 244 + 50 = 50 * 245) h storm_seg_244
  have h := storm_comp (by norm_num : 50 * 245 + 50 = 50 * 246) h storm_seg_245
  have h := storm_comp (by norm_num : 50 * 246 + 50 = 50 * 247) h storm_seg_246
  have h := storm_comp (by norm_num : 50 * 247 + 50 = 50 * 248) h storm_seg_247
  have h := storm_comp (by norm_num : 50 * 248 + 50 = 50 * 249) h storm_seg_248
  have h := storm_comp (by norm_num : 50 * 249 + 50 = 50 * 250) h storm_seg_249
  have h := storm_comp (by norm_num : 50 * 250 + 50 = 50 * 251) h storm_seg_250
  have h := storm_comp (by norm_num : 50 * 251 + 50 = 50 * 252) h storm_seg_251
  have h := storm_comp (by norm_num : 50 * 252 + 50 = 50 * 253) h storm_seg_252
  have h := storm_comp (by norm_num : 50 * 253 + 50 = 50 * 254) h storm_seg_253
  have h := storm_comp (by norm_num : 50 * 254 + 50 = 50 * 255) h storm_seg_254
  have h := storm_comp (by norm_num : 50 * 255 + 50 = 50 * 256) h storm_seg_255
  have h := storm_comp (by norm_num : 50 * 256 + 50 = 50 * 257) h storm_seg_256
  have h := storm_comp (by norm_num : 50 * 257 + 50 = 50 * 258) h storm_seg_257
  have h := storm_comp (by norm_num : 50 * 258 + 50 = 50 * 259) h storm_seg_258
  have h := storm_comp (by norm_num : 50 * 259 + 50 = 50 * 260) h storm_seg_259
  have h := storm_comp (by norm_num : 50 * 260 + 50 = 50 * 261) h storm_seg_260
  have h := storm_comp (by norm_num : 50 * 261 + 50 = 50 * 262) h storm_seg_261
  have h := storm_comp (by norm_num : 50 * 262 + 50 = 50 * 263) h storm_seg_262
  have h := storm_comp (by norm_num : 50 * 263 + 50 = 50 * 264) h storm_seg_263
  have h := storm_comp (by norm_num : 50 * 264 + 50 = 50 * 265) h storm_seg_264
  have h := storm_comp (by norm_num : 50 * 265 + 50 = 50 * 266) h storm_seg_265
  have h := storm_comp (by norm_num : 50 * 266 + 50 = 50 * 267) h storm_seg_266
  have h := storm_comp (by norm_num : 50 * 267 + 50 = 50 * 268) h storm_seg_267
  have h := storm_comp (by norm_num : 50 * 268 + 50 = 50 * 269) h storm_seg_268
  have h := storm_comp (by norm_num : 50 * 269 + 50 = 50 * 270) h storm_seg_269
  have h := storm_comp (by norm_num : 50 * 270 + 50 = 50 * 271) h storm_seg_270
  have h := storm_comp (by norm_num : 50 * 271 + 50 = 50 * 272) h storm_seg_271
  have h := storm_comp (by norm_num : 50 * 272 + 50 = 50 * 273) h storm_seg_272
  have h := storm_comp (by norm_num : 50 * 273 + 50 = 50 * 274) h storm_seg_273
  have h := storm_comp (by norm_num : 50 * 274 + 50 = 50 * 275) h storm_seg_274
  have h := storm_comp (by norm_num : 50 * 275 + 50 = 50 * 276) h storm_seg_275
  have h := storm_comp (by norm_num : 50 * 276 + 50 = 50 * 277) h storm_seg_276
  have h := storm_comp (by norm_num : 50 * 277 + 50 = 50 * 278) h storm_seg_277
  have h := storm_comp (by norm_num : 50 * 278 + 50 = 50 * 279) h storm_seg_278
  have h := storm_comp (by norm_num : 50 * 279 + 50 = 50 * 280) h storm_seg_279
  have h := storm_comp (by norm_num : 50 * 280 + 50 = 50 * 281) h storm_seg_280
  have h := storm_comp (by norm_num : 50 * 281 + 50 = 50 * 282) h storm_seg_281
  have h := storm_comp (by norm_num : 50 * 282 + 50 = 50 * 283) h storm_seg_282
  have h := storm_comp (by norm_num : 50 * 283 + 50 = 50 * 284) h storm_seg_283
  have h := storm_comp (by norm_num : 50 * 284 + 50 = 50 * 285) h storm_seg_284
  have h := storm_comp (by norm_num : 50 * 285 + 50 = 50 * 286) h storm_seg_285
  have h := storm_comp (by norm_num : 50 * 286 + 50 = 50 * 287) h storm_seg_286
  have h := storm_comp (by norm_num : 50 * 287 + 50 = 50 * 288) h storm_seg_287
  have h := storm_comp (by norm_num : 50 * 288 + 50 = 50 * 289) h storm_seg_288
  have h := storm_comp (by norm_num : 50 * 289 + 50 = 50 * 290) h storm_seg_289
  have h := storm_comp (by norm_num : 50 * 290 + 50 = 50 * 291) h storm_seg_290
  have h := storm_comp (by norm_num : 50 * 291 + 50 = 50 * 292) h storm_seg_291
  have h := storm_comp (by norm_num : 50 * 292 + 50 = 50 * 293) h storm_seg_292
  have h := storm_comp (by norm_num : 50 * 293 + 50 = 50 * 294) h storm_seg_293
  have h := storm_comp (by norm_num : 50 * 294 + 50 = 50 * 295) h storm_seg_294
  have h := storm_comp (by norm_num : 50 * 295 + 50 = 50 * 296) h storm_seg_295
  have h := storm_comp (by norm_num : 50 * 296 + 50 = 50 * 297) h storm_seg_296
  have h := storm_comp (by norm_num : 50 * 297 + 50 = 50 * 298) h storm_seg_297
  have h := storm_comp (by norm_num : 50 * 298 + 50 = 50 * 299) h storm_seg_298
  have h := storm_comp (by norm_num : 50 * 299 + 50 = 50 * 300) h storm_seg_299
  have h := storm_comp (by norm_num : 50 * 300 + 50 = 50 * 301) h storm_seg_300
  have h := storm_comp (by norm_num : 50 * 301 + 50 = 50 * 302) h storm_seg_301
  have h := storm_comp (by norm_num : 50 * 302 + 50 = 50 * 303) h storm_seg_302
  have h := storm_comp (by norm_num : 50 * 303 + 50 = 50 * 304) h storm_seg_303
  have h := storm_comp (by norm_num : 50 * 304 + 50 = 50 * 305) h storm_seg_304
  have h := storm_comp (by norm_num : 50 * 305 + 50 = 50 * 306) h storm_seg_305
  have h := storm_comp (by norm_num : 50 * 306 + 50 = 50 * 307) h storm_seg_306
  have h := storm_comp (by norm_num : 50 * 307 + 50 = 50 * 308) h storm_seg_307
  have h := storm_comp (by norm_num : 50 * 308 + 50 = 50 * 309) h storm_seg_308
  have h := storm_comp (by norm_num : 50 * 309 + 50 = 50 * 310) h storm_seg_309
  have h := storm_comp (by norm_num : 50 * 310 + 50 = 50 * 311) h storm_seg_310
  have h := storm_comp (by norm_num : 50 * 311 + 50 = 50 * 312) h storm_seg_311
  have h := storm_comp (by norm_num : 50 * 312 + 50 = 50 * 313) h storm_seg_312
  have h := storm_comp (by norm_num : 50 * 313 + 50 = 50 * 314) h storm_seg_313
  have h := storm_comp (by norm_num : 50 * 314 + 50 = 50 * 315) h storm_seg_314
  have h := storm_comp (by norm_num : 50 * 315 + 50 = 50 * 316) h storm_seg_315
  have h := storm_comp (by norm_num : 50 * 316 + 50 = 50 * 317) h storm_seg_316
  have h := storm_comp (by norm_num : 50 * 317 + 50 = 50 * 318) h storm_seg_317
  have h := storm_comp (by norm_num : 50 * 318 + 50 = 50 * 319) h storm_seg_318
  have h := storm_comp (by norm_num : 50 * 319 + 50 = 50 * 320) h storm_seg_319
  have h := storm_comp (by norm_num : 50 * 320 + 50 = 50 * 321) h storm_seg_320
  have h := storm_comp (by norm_num : 50 * 321 + 50 = 50 * 322) h storm_seg_321
  have h := storm_comp (by norm_num : 50 * 322 + 50 = 50 * 323) h storm_seg_322
  have h := storm_comp (by norm_num : 50 * 323 + 50 = 50 * 324) h storm_seg_323
  have h := storm_comp (by norm_num : 50 * 324 + 50 = 50 * 325) h storm_seg_324
  have h := storm_comp (by norm_num : 50 * 325 + 50 = 50 * 326) h storm_seg_325
  have h := storm_comp (by norm_num : 50 * 326 + 50 = 50 * 327) h storm_seg_326
  have h := storm_comp (by norm_num : 50 * 327 + 50 = 50 * 328) h storm_seg_327
  have h := storm_comp (by norm_num : 50 * 328 + 50 = 50 * 329) h storm_seg_328
  have h := storm_comp (by norm_num : 50 * 329 + 50 = 50 * 330) h storm_seg_329
  have h := storm_comp (by norm_num : 50 * 330 + 50 = 50 * 331) h storm_seg_330
  have h := storm_comp (by norm_num : 50 * 331 + 50 = 50 * 332) h storm_seg_331
  have h := storm_comp (by norm_num : 50 * 332 + 50 = 50 * 333) h storm_seg_332
  have h := storm_comp (by norm_num : 50 * 333 + 50 = 50 * 334) h storm_seg_333
  have h := storm_comp (by norm_num : 50 * 334 + 50 = 50 * 335) h storm_seg_334
  have h := storm_comp (by norm_num : 50 * 335 + 50 = 50 * 336) h storm_seg_335
  have h := storm_comp (by norm_num : 50 * 336 + 50 = 50 * 337) h storm_seg_336
  have h := storm_comp (by norm_num : 50 * 337 + 50 = 50 * 338) h storm_seg_337
  have h := storm_comp (by norm_num : 50 * 338 + 50 = 50 * 339) h storm_seg_338
  have h := storm_comp (by norm_num : 50 * 339 + 50 = 50 * 340) h storm_seg_339
  have h := storm_comp (by norm_num : 50 * 340 + 50 = 50 * 341) h storm_seg_340
  have h := storm_comp (by norm_num : 50 * 341 + 50 = 50 * 342) h storm_seg_341
  have h := storm_comp (by norm_num : 50 * 342 + 50 = 50 * 343) h storm_seg_342
  have h := storm_comp (by norm_num : 50 * 343 + 50 = 50 * 344) h storm_seg_343
  have h := storm_comp (by norm_num : 50 * 344 + 50 = 50 * 345) h storm_seg_344
  have h := storm_comp (by norm_num : 50 * 345 + 50 = 50 * 346) h storm_seg_345
  have h := storm_comp (by norm_num : 50 * 346 + 50 = 50 * 347) h storm_seg_346
  have h := storm_comp (by norm_num : 50 * 347 + 50 = 50 * 348) h storm_seg_347
  have h := storm_comp (by norm_num : 50 * 348 + 50 = 50 * 349) h storm_seg_348
  have h := storm_comp (by norm_num : 50 * 349 + 50 = 50 * 350) h storm_seg_349
  have h := storm_comp (by norm_num : 50 * 350 + 50 = 50 * 351) h storm_seg_350
  have h := storm_comp (by norm_num : 50 * 351 + 50 = 50 * 352) h storm_seg_351
  have h := storm_comp (by norm_num : 50 * 352 + 50 = 50 * 353) h storm_seg_352
  have h := storm_comp (by norm_num : 50 * 353 + 50 = 50 * 354) h storm_seg_353
  have h := storm_comp (by norm_num : 50 * 354 + 50 = 50 * 355) h storm_seg_354
  have h := storm_comp (by norm_num : 50 * 355 + 50 = 50 * 356) h storm_seg_355
  have h := storm_comp (by norm_num : 50 * 356 + 50 = 50 * 357) h storm_seg_356
  have h := storm_comp (by norm_num : 50 * 357 + 50 = 50 * 358) h storm_seg_357
  have h := storm_comp (by norm_num : 50 * 358 + 50 = 50 * 359) h storm_seg_358
  have h := storm_comp (by norm_num : 50 * 359 + 50 = 50 * 360) h storm_seg_359
  have h := storm_comp (by norm_num : 50 * 360 + 50 = 50 * 361) h storm_seg_360
  have h := storm_comp (by norm_num : 50 * 361 + 50 = 50 * 362) h storm_seg_361
  have h := storm_comp (by norm_num : 50 * 362 + 50 = 50 * 363) h storm_seg_362
  have h := storm_comp (by norm_num : 50 * 363 + 50 = 50 * 364) h storm_seg_363
  have h := storm_comp (by norm_num : 50 * 364 + 50 = 50 * 365) h storm_seg_364
  have h := storm_comp (by norm_num : 50 * 365 + 50 = 50 * 366) h storm_seg_365
  have h := storm_comp (by norm_num : 50 * 366 + 50 = 50 * 367) h storm_seg_366
  have h := storm_comp (by norm_num : 50 * 367 + 50 = 50 * 368) h storm_seg_367
  have h := storm_comp (by norm_num : 50 * 368 + 50 = 50 * 369) h storm_seg_368
  have h := storm_comp (by norm_num : 50 * 369 + 50 = 50 * 370) h storm_seg_369
  have h := storm_comp (by norm_num : 50 * 370 + 50 = 50 * 371) h storm_seg_370
  have h := storm_comp (by norm_num : 50 * 371 + 50 = 50 * 372) h storm_seg_371
  have h := storm_comp (by norm_num : 50 * 372 + 50 = 50 * 373) h storm_seg_372
  have h := storm_comp (by norm_num : 50 * 373 + 50 = 50 * 374) h storm_seg_373
  have h := storm_comp (by norm_num : 50 * 374 + 50 = 50 * 375) h storm_seg_374
  have h := storm_comp (by norm_num : 50 * 375 + 50 = 50 * 376) h storm_seg_375
  have h := storm_comp (by norm_num : 50 * 376 + 50 = 50 * 377) h storm_seg_376
  have h := storm_comp (by norm_num : 50 * 377 + 50 = 50 * 378) h storm_seg_377
  have h := storm_comp (by norm_num : 50 * 378 + 50 = 50 * 379) h storm_seg_378
  have h := storm_comp (by norm_num : 50 * 379 + 50 = 50 * 380) h storm_seg_379
  have h := storm_comp (by norm_num : 50 * 380 + 50 = 50 * 381) h storm_seg_380
  have h := storm_comp (by norm_num : 50 * 381 + 50 = 50 * 382) h storm_seg_381
  have h := storm_comp (by norm_num : 50 * 382 + 50 = 50 * 383) h storm_seg_382
  have h := storm_comp (by norm_num : 50 * 383 + 50 = 50 * 384) h storm_seg_383
  have h := storm_comp (by norm_num : 50 * 384 + 50 = 50 * 385) h storm_seg_384
  have h := storm_comp (by norm_num : 50 * 385 + 50 = 50 * 386) h storm_seg_385
  have h := storm_comp (by norm_num : 50 * 386 + 50 = 50 * 387) h storm_seg_386
  have h := storm_comp (by norm_num : 50 * 387 + 50 = 50 * 388) h storm_seg_387
  have h := storm_comp (by norm_num : 50 * 388 + 50 = 50 * 389) h storm_seg_388
  have h := storm_comp (by norm_num : 50 * 389 + 50 = 50 * 390) h storm_seg_389
  have h := storm_comp (by norm_num : 50 * 390 + 50 = 50 * 391) h storm_seg_390
  have h := storm_comp (by norm_num : 50 * 391 + 50 = 50 * 392) h storm_seg_391
  have h := storm_comp (by norm_num : 50 * 392 + 50 = 50 * 393) h storm_seg_392
  have h := storm_comp (by norm_num : 50 * 393 + 50 = 50 * 394) h storm_seg_393
  have h := storm_comp (by norm_num : 50 * 394 + 50 = 50 * 395) h storm_seg_394
  have h := storm_comp (by norm_num : 50 * 395 + 50 = 50 * 396) h storm_seg_395
  have h := storm_comp (by norm_num : 50 * 396 + 50 = 50 * 397) h storm_seg_396
  have h := storm_comp (by norm_num : 50 * 397 + 50 = 50 * 398) h storm_seg_397
  have h := storm_comp (by norm_num : 50 * 398 + 50 = 50 * 399) h storm_seg_398
  have h := storm_comp (by norm_num : 50 * 399 + 50 = 50 * 400) h storm_seg_399
  have h := storm_comp (by norm_num : 50 * 400 + 50 = 50 * 401) h storm_seg_400
  have h := storm_comp (by norm_num : 50 * 401 + 50 = 50 * 402) h storm_seg_401
  have h := storm_comp (by norm_num : 50 * 402 + 50 = 50 * 403) h storm_seg_402
  have h := storm_comp (by norm_num : 50 * 403 + 50 = 50 * 404) h storm_seg_403
  have h := storm_comp (by norm_num : 50 * 404 + 50 = 50 * 405) h storm_seg_404
  have h := storm_comp (by norm_num : 50 * 405 + 50 = 50 * 406) h storm_seg_405
  have h := storm_comp (by norm_num : 50 * 406 + 50 = 50 * 407) h storm_seg_406
  have h := storm_comp (by norm_num : 50 * 407 + 50 = 50 * 408) h storm_seg_407
  have h := storm_comp (by norm_num : 50 * 408 + 50 = 50 * 409) h storm_seg_408
  have h := storm_comp (by norm_num : 50 * 409 + 50 = 50 * 410) h storm_seg_409
  have h := storm_comp (by norm_num : 50 * 410 + 50 = 50 * 411) h storm_seg_410
  have h := storm_comp (by norm_num : 50 * 411 + 50 = 50 * 412) h storm_seg_411
  have h := storm_comp (by norm_num : 50 * 412 + 50 = 50 * 413) h storm_seg_412
  have h := storm_comp (by norm_num : 50 * 413 + 50 = 50 * 414) h storm_seg_413
  have h := storm_comp (by norm_num : 50 * 414 + 50 = 50 * 415) h storm_seg_414
  have h := storm_comp (by norm_num : 50 * 415 + 50 = 50 * 416) h storm_seg_415
  have h := storm_comp (by norm_num : 50 * 416 + 50 = 50 * 417) h storm_seg_416
  have h := storm_comp (by norm_num : 50 * 417 + 50 = 50 * 418) h storm_seg_417
  have h := storm_comp (by norm_num : 50 * 418 + 50 = 50 * 419) h storm_seg_418
  have h := storm_comp (by norm_num : 50 * 419 + 50 = 50 * 420) h storm_seg_419
  have h := storm_comp (by norm_num : 50 * 420 + 50 = 50 * 421) h storm_seg_420
  have h := storm_comp (by norm_num : 50 * 421 + 50 = 50 * 422) h storm_seg_421
  have h := storm_comp (by norm_num : 50 * 422 + 50 = 50 * 423) h storm_seg_422
  have h := storm_comp (by norm_num : 50 * 423 + 50 = 50 * 424) h storm_seg_423
  have h := storm_comp (by norm_num : 50 * 424 + 50 = 50 * 425) h storm_seg_424
  have h := storm_comp (by norm_num : 50 * 425 + 50 = 50 * 426) h storm_seg_425
  have h := storm_comp (by norm_num : 50 * 426 + 50 = 50 * 427) h storm_seg_426
  have h := storm_comp (by norm_num : 50 * 427 + 50 = 50 * 428) h storm_seg_427
  have h := storm_comp (by norm_num : 50 * 428 + 50 = 50 * 429) h storm_seg_428
  have h := storm_comp (by norm_num : 50 * 429 + 50 = 50 * 430) h storm_seg_429
  have h := storm_comp (by norm_num : 50 * 430 + 50 = 50 * 431) h storm_seg_430
  have h := storm_comp (by norm_num : 50 * 431 + 50 = 50 * 432) h storm_seg_431
  have h := storm_comp (by norm_num : 50 * 432 + 50 = 50 * 433) h storm_seg_432
  have h := storm_comp (by norm_num : 50 * 433 + 50 = 50 * 434) h storm_seg_433
  have h := storm_comp (by norm_num : 50 * 434 + 50 = 50 * 435) h storm_seg_434
  have h := storm_comp (by norm_num : 50 * 435 + 50 = 50 * 436) h storm_seg_435
  have h := storm_comp (by norm_num : 50 * 436 + 50 = 50 * 437) h storm_seg_436
  have h := storm_comp (by norm_num : 50 * 437 + 50 = 50 * 438) h storm_seg_437
  have h := storm_comp (by norm_num : 50 * 438 + 50 = 50 * 439) h storm_seg_438
  have h := storm_comp (by norm_num : 50 * 439 + 50 = 50 * 440) h storm_seg_439
  have h := storm_comp (by norm_num : 50 * 440 + 50 = 50 * 441) h storm_seg_440
  have h := storm_comp (by norm_num : 50 * 441 + 50 = 50 * 442) h storm_seg_441
  have h := storm_comp (by norm_num : 50 * 442 + 50 = 50 * 443) h storm_seg_442
  have h := storm_comp (by norm_num : 50 * 443 + 50 = 50 * 444) h storm_seg_443
  have h := storm_comp (by norm_num : 50 * 444 + 50 = 50 * 445) h storm_seg_444
  have h := storm_comp (by norm_num : 50 * 445 + 50 = 50 * 446) h storm_seg_445
  have h := storm_comp (by norm_num : 50 * 446 + 50 = 50 * 447) h storm_seg_446
  have h := storm_comp (by norm_num : 50 * 447 + 50 = 50 * 448) h storm_seg_447
  have h := storm_comp (by norm_num : 50 * 448 + 50 = 50 * 449) h storm_seg_448
  have h := storm_comp (by norm_num : 50 * 449 + 50 = 50 * 450) h storm_seg_449
  have h := storm_comp (by norm_num : 50 * 450 + 50 = 50 * 451) h storm_seg_450
  have h := storm_comp (by norm_num : 50 * 451 + 50 = 50 * 452) h storm_seg_451
  have h := storm_comp (by norm_num : 50 * 452 + 50 = 50 * 453) h storm_seg_452
  have h := storm_comp (by norm_num : 50 * 453 + 50 = 50 * 454) h storm_seg_453
  have h := storm_comp (by norm_num : 50 * 454 + 50 = 50 * 455) h storm_seg_454
  have h := storm_comp (by norm_num : 50 * 455 + 50 = 50 * 456) h storm_seg_455
  have h := storm_comp (by norm_num : 50 * 456 + 50 = 50 * 457) h storm_seg_456
  have h := storm_comp (by norm_num : 50 * 457 + 50 = 50 * 458) h storm_seg_457
  have h := storm_comp (by norm_num : 50 * 458 + 50 = 50 * 459) h storm_seg_458
  have h := storm_comp (by norm_num : 50 * 459 + 50 = 50 * 460) h storm_seg_459
  have h := storm_comp (by norm_num : 50 * 460 + 50 = 50 * 461) h storm_seg_460
  have h := storm_comp (by norm_num : 50 * 461 + 50 = 50 * 462) h storm_seg_461
  have h := storm_comp (by norm_num : 50 * 462 + 50 = 50 * 463) h storm_seg_462
  have h := storm_comp (by norm_num : 50 * 463 + 50 = 50 * 464) h storm_seg_463
  have h := storm_comp (by norm_num : 50 * 464 + 50 = 50 * 465) h storm_seg_464
  have h := storm_comp (by norm_num : 50 * 465 + 50 = 50 * 466) h storm_seg_465
  have h := storm_comp (by norm_num : 50 * 466 + 50 = 50 * 467) h storm_seg_466
  have h := storm_comp (by norm_num : 50 * 467 + 50 = 50 * 468) h storm_seg_467
  have h := storm_comp (by norm_num : 50 * 468 + 50 = 50 * 469) h storm_seg_468
  have h := storm_comp (by norm_num : 50 * 469 + 50 = 50 * 470) h storm_seg_469
  have h := storm_comp (by norm_num : 50 * 470 + 50 = 50 * 471) h storm_seg_470
  have h := storm_comp (by norm_num : 50 * 471 + 50 = 50 * 472) h storm_seg_471
  have h := storm_comp (by norm_num : 50 * 472 + 50 = 50 * 473) h storm_seg_472
  have h := storm_comp (by norm_num : 50 * 473 + 50 = 50 * 474) h storm_seg_473
  have h := storm_comp (by norm_num : 50 * 474 + 50 = 50 * 475) h storm_seg_474
  have h := storm_comp (by norm_num : 50 * 475 + 50 = 50 * 476) h storm_seg_475
  have h := storm_comp (by norm_num : 50 * 476 + 50 = 50 * 477) h storm_seg_476
  have h := storm_comp (by norm_num : 50 * 477 + 50 = 50 * 478) h storm_seg_477
  have h := storm_comp (by norm_num : 50 * 478 + 50 = 50 * 479) h storm_seg_478
  have h := storm_comp (by norm_num : 50 * 479 + 50 = 50 * 480) h storm_seg_479
  have h := storm_comp (by norm_num : 50 * 480 + 50 = 50 * 481) h storm_seg_480
  have h := storm_comp (by norm_num : 50 * 481 + 50 = 50 * 482) h storm_seg_481
  have h := storm_comp (by norm_num : 50 * 482 + 50 = 50 * 483) h storm_seg_482
  have h := storm_comp (by norm_num : 50 * 483 + 50 = 50 * 484) h storm_seg_483
  have h := storm_comp (by norm_num : 50 * 484 + 50 = 50 * 485) h storm_seg_484
  have h := storm_comp (by norm_num : 50 * 485 + 50 = 50 * 486) h storm_seg_485
  have h := storm_comp (by norm_num : 50 * 486 + 50 = 50 * 487) h storm_seg_486
  have h := storm_comp (by norm_num : 50 * 487 + 50 = 50 * 488) h storm_seg_487
  have h := storm_comp (by norm_num : 50 * 488 + 50 = 50 * 489) h storm_seg_488
  have h := storm_comp (by norm_num : 50 * 489 + 50 = 50 * 490) h storm_seg_489
  have h := storm_comp (by norm_num : 50 * 490 + 50 = 50 * 491) h storm_seg_490
  have h := storm_comp (by norm_num : 50 * 491 + 50 = 50 * 492) h storm_seg_491
  have h := storm_comp (by norm_num : 50 * 492 + 50 = 50 * 493) h storm_seg_492
  have h := storm_comp (by norm_num : 50 * 493 + 50 = 50 * 494) h storm_seg_493
  have h := storm_comp (by norm_num : 50 * 494 + 50 = 50 * 495) h storm_seg_494
  have h := storm_comp (by norm_num : 50 * 495 + 50 = 50 * 496) h storm_seg_495
  have h := storm_comp (by norm_num : 50 * 496 + 50 = 50 * 497) h storm_seg_496
  have h := storm_comp (by norm_num : 50 * 497 + 50 = 50 * 498) h storm_seg_497
  have h := storm_comp (by norm_num : 50 * 498 + 50 = 50 * 499) h storm_seg_498
  have h := storm_comp (by norm_num : 50 * 499 + 50 = 50 * 500) h storm_seg_499
  have h := storm_comp (by norm_num : 50 * 500 + 50 = 50 * 501) h storm_seg_500
  have h := storm_comp (by norm_num : 50 * 501 + 50 = 50 * 502) h storm_seg_501
  have h := storm_comp (by norm_num : 50 * 502 + 50 = 50 * 503) h storm_seg_502
  have h := storm_comp (by norm_num : 50 * 503 + 50 = 50 * 504) h storm_seg_503
  have h := storm_comp (by norm_num : 50 * 504 + 50 = 50 * 505) h storm_seg_504
  have h := storm_comp (by norm_num : 50 * 505 + 50 = 50 * 506) h storm_seg_505
  have h := storm_comp (by norm_num : 50 * 506 + 50 = 50 * 507) h storm_seg_506
  have h := storm_comp (by norm_num : 50 * 507 + 50 = 50 * 508) h storm_seg_507
  have h := storm_comp (by norm_num : 50 * 508 + 50 = 50 * 509) h storm_seg_508
  have h := storm_comp (by norm_num : 50 * 509 + 50 = 50 * 510) h storm_seg_509
  have h := storm_comp (by norm_num : 50 * 510 + 50 = 50 * 511) h storm_seg_510
  have h := storm_comp (by norm_num : 50 * 511 + 50 = 50 * 512) h storm_seg_511
  have h := storm_comp (by norm_num : 50 * 512 + 50 = 50 * 513) h storm_seg_512
  have h := storm_comp (by norm_num : 50 * 513 + 50 = 50 * 514) h storm_seg_513
  have h := storm_comp (by norm_num : 50 * 514 + 50 = 50 * 515) h storm_seg_514
  have h := storm_comp (by norm_num : 50 * 515 + 50 = 50 * 516) h storm_seg_515
  have h := storm_comp (by norm_num : 50 * 516 + 50 = 50 * 517) h storm_seg_516
  have h := storm_comp (by norm_num : 50 * 517 + 50 = 50 * 518) h storm_seg_517
  have h := storm_comp (by norm_num : 50 * 518 + 50 = 50 * 519) h storm_seg_518
  have h := storm_comp (by norm_num : 50 * 519 + 50 = 50 * 520) h storm_seg_519
  have h := storm_comp (by norm_num : 50 * 520 + 50 = 50 * 521) h storm_seg_520
  have h := storm_comp (by norm_num : 50 * 521 + 50 = 50 * 522) h storm_seg_521
  have h := storm_comp (by norm_num : 50 * 522 + 50 = 50 * 523) h storm_seg_522
  have h := storm_comp (by norm_num : 50 * 523 + 50 = 50 * 524) h storm_seg_523
  have h := storm_comp (by norm_num : 50 * 524 + 50 = 50 * 525) h storm_seg_524
  have h := storm_comp (by norm_num : 50 * 525 + 50 = 50 * 526) h storm_seg_525
  have h := storm_comp (by norm_num : 50 * 526 + 50 = 50 * 527) h storm_seg_526
  have h := storm_comp (by norm_num : 50 * 527 + 50 = 50 * 528) h storm_seg_527
  have h := storm_comp (by norm_num : 50 * 528 + 50 = 50 * 529) h storm_seg_528
  have h := storm_comp (by norm_num : 50 * 529 + 50 = 50 * 530) h storm_seg_529
  have h := storm_comp (by norm_num : 50 * 530 + 50 = 50 * 531) h storm_seg_530
  have h := storm_comp (by norm_num : 50 * 531 + 50 = 50 * 532) h storm_seg_531
  have h := storm_comp (by norm_num : 50 * 532 + 50 = 50 * 533) h storm_seg_532
  have h := storm_comp (by norm_num : 50 * 533 + 50 = 50 * 534) h storm_seg_533
  have h := storm_comp (by norm_num : 50 * 534 + 50 = 50 * 535) h storm_seg_534
  have h := storm_comp (by norm_num : 50 * 535 + 50 = 50 * 536) h storm_seg_535
  have h := storm_comp (by norm_num : 50 * 536 + 50 = 50 * 537) h storm_seg_536
  have h := storm_comp (by norm_num : 50 * 537 + 50 = 50 * 538) h storm_seg_537
  have h := storm_comp (by norm_num : 50 * 538 + 50 = 50 * 539) h storm_seg_538
  have h := storm_comp (by norm_num : 50 * 539 + 50 = 50 * 540) h storm_seg_539
  have h := storm_comp (by norm_num : 50 * 540 + 50 = 50 * 541) h storm_seg_540
  have h := storm_comp (by norm_num : 50 * 541 + 50 = 50 * 542) h storm_seg_541
  have h := storm_comp (by norm_num : 50 * 542 + 50 = 50 * 543) h storm_seg_542
  have h := storm_comp (by norm_num : 50 * 543 + 50 = 50 * 544) h storm_seg_543
  have h := storm_comp (by norm_num : 50 * 544 + 50 = 50 * 545) h storm_seg_544
  have h := storm_comp (by norm_num : 50 * 545 + 50 = 50 * 546) h storm_seg_545
  have h := storm_comp (by norm_num : 50 * 546 + 50 = 50 * 547) h storm_seg_546
  have h := storm_comp (by norm_num : 50 * 547 + 50 = 50 * 548) h storm_seg_547
  have h := storm_comp (by norm_num : 50 * 548 + 50 = 50 * 549) h storm_seg_548
  have h := storm_comp (by norm_num : 50 * 549 + 50 = 50 * 550) h storm_seg_549
  have h := storm_comp (by norm_num : 50 * 550 + 50 = 50 * 551) h storm_seg_550
  have h := storm_comp (by norm_num : 50 * 551 + 50 = 50 * 552) h storm_seg_551
  have h := storm_comp (by norm_num : 50 * 552 + 50 = 50 * 553) h storm_seg_552
  have h := storm_comp (by norm_num : 50 * 553 + 50 = 50 * 554) h storm_seg_553
  have h := storm_comp (by norm_num : 50 * 554 + 50 = 50 * 555) h storm_seg_554
  have h := storm_comp (by norm_num : 50 * 555 + 50 = 50 * 556) h storm_seg_555
  have h := storm_comp (by norm_num : 50 * 556 + 50 = 50 * 557) h storm_seg_556
  have h := storm_comp (by norm_num : 50 * 557 + 50 = 50 * 558) h storm_seg_557
  have h := storm_comp (by norm_num : 50 * 558 + 50 = 50 * 559) h storm_seg_558
  have h := storm_comp (by norm_num : 50 * 559 + 50 = 50 * 560) h storm_seg_559
  have h := storm_comp (by norm_num : 50 * 560 + 50 = 50 * 561) h storm_seg_560
  have h := storm_comp (by norm_num : 50 * 561 + 50 = 50 * 562) h storm_seg_561
  have h := storm_comp (by norm_num : 50 * 562 + 50 = 50 * 563) h storm_seg_562
  have h := storm_comp (by norm_num : 50 * 563 + 50 = 50 * 564) h storm_seg_563
  have h := storm_comp (by norm_num : 50 * 564 + 50 = 50 * 565) h storm_seg_564
  have h := storm_comp (by norm_num : 50 * 565 + 50 = 50 * 566) h storm_seg_565
  have h := storm_comp (by norm_num : 50 * 566 + 50 = 50 * 567) h storm_seg_566
  have h := storm_comp (by norm_num : 50 * 567 + 50 = 50 * 568) h storm_seg_567
  have h := storm_comp (by norm_num : 50 * 568 + 50 = 50 * 569) h storm_seg_568
  have h := storm_comp (by norm_num : 50 * 569 + 50 = 50 * 570) h storm_seg_569
  have h := storm_comp (by norm_num : 50 * 570 + 50 = 50 * 571) h storm_seg_570
  have h := storm_comp (by norm_num : 50 * 571 + 50 = 50 * 572) h storm_seg_571
  have h := storm_comp (by norm_num : 50 * 572 + 50 = 50 * 573) h storm_seg_572
  have h := storm_comp (by norm_num : 50 * 573 + 50 = 50 * 574) h storm_seg_573
  have h := storm_comp (by norm_num : 50 * 574 + 50 = 50 * 575) h storm_seg_574
  have h := storm_comp (by norm_num : 50 * 575 + 50 = 50 * 576) h storm_seg_575
  have h := storm_comp (by norm_num : 50 * 576 + 50 = 50 * 577) h storm_seg_576
  have h := storm_comp (by norm_num : 50 * 577 + 50 = 50 * 578) h storm_seg_577
  have h := storm_comp (by norm_num : 50 * 578 + 50 = 50 * 579) h storm_seg_578
  have h := storm_comp (by norm_num : 50 * 579 + 50 = 50 * 580) h storm_seg_579
  have h := storm_comp (by norm_num : 50 * 580 + 50 = 50 * 581) h storm_seg_580
  have h := storm_comp (by norm_num : 50 * 581 + 50 = 50 * 582) h storm_seg_581
  have h := storm_comp (by norm_num : 50 * 582 + 50 = 50 * 583) h storm_seg_582
  have h := storm_comp (by norm_num : 50 * 583 + 50 = 50 * 584) h storm_seg_583
  have h := storm_comp (by norm_num : 50 * 584 + 50 = 50 * 585) h storm_seg_584
  have h := storm_comp (by norm_num : 50 * 585 + 50 = 50 * 586) h storm_seg_585
  have h := storm_comp (by norm_num : 50 * 586 + 50 = 50 * 587) h storm_seg_586
  have h := storm_comp (by norm_num : 50 * 587 + 50 = 50 * 588) h storm_seg_587
  have h := storm_comp (by norm_num : 50 * 588 + 50 = 50 * 589) h storm_seg_588
  have h := storm_comp (by norm_num : 50 * 589 + 50 = 50 * 590) h storm_seg_589
  have h := storm_comp (by norm_num : 50 * 590 + 50 = 50 * 591) h storm_seg_590
  have h := storm_comp (by norm_num : 50 * 591 + 50 = 50 * 592) h storm_seg_591
  have h := storm_comp (by norm_num : 50 * 592 + 50 = 50 * 593) h storm_seg_592
  have h := storm_comp (by norm_num : 50 * 593 + 50 = 50 * 594) h storm_seg_593
  have h := storm_comp (by norm_num : 50 * 594 + 50 = 50 * 595) h storm_seg_594
  have h := storm_comp (by norm_num : 50 * 595 + 50 = 50 * 596) h storm_seg_595
  have h := storm_comp (by norm_num : 50 * 596 + 50 = 50 * 597) h storm_seg_596
  have h := storm_comp (by norm_num : 50 * 597 + 50 = 50 * 598) h storm_seg_597
  have h := storm_comp (by norm_num : 50 * 598 + 50 = 50 * 599) h storm_seg_598
  have h := storm_comp (by norm_num : 50 * 599 + 50 = 50 * 600) h storm_seg_599
  exact h

/-- C3 counterexample: the claim asserts every Fire() call arriving while a
deferred retry is scheduled is dropped.  Fire at t=0 invokes the listener;
Fire at t=100 violates the 1-per-second limit and arms a retry for t=1000;
if the scheduler has not yet run the retry when a further Fire arrives at
t=1200, that call — arriving while the deferred retry is still scheduled —
no longer violates any limit and invokes the listener immediately instead of
being dropped. -/
theorem C3_counterexample :
    (Throttle.Fire testRateLimits 100
        (Throttle.Fire testRateLimits 0 ⟨[], false, 0⟩).1).1.timer_scheduled =
        true ∧
      (Throttle.Fire testRateLimits 1200
          (Throttle.Fire testRateLimits 100
            (Throttle.Fire testRateLimits 0 ⟨[], false, 0⟩).1).1).2 = true := by
  decide

/-- C3 (amended): for every sequence of Fire() calls at nondecreasing times
against a throttle configured with limits {(w_i, c_i)} (each c_i ≥ 1), every
half-open window of duration w_i contains at most c_i listener invocations;
a Fire() call arriving while a deferred retry is already scheduled and some
rate limit is still violated is dropped (never queued) — though a call
arriving after the violation has aged out invokes the listener immediately;
and with limits {(1s,1),(60s,6)}, firing every 10 ms for 5 minutes yields
exactly 6·5 + 1 = 31 listener invocations, no two of them within the same
second. -/
theorem C3_throttle (limits : List RateLimit)
    (hcount : ∀ l ∈ limits, 1 ≤ l.count) (calls : List ℕ)
    (hsort : calls.Pairwise (fun x y => x ≤ y)) (b : Bool) (r : ℕ) :
    (∀ l ∈ limits, ∀ a : ℕ,
        ((fireCalls limits calls ⟨[], b, r⟩).2).countP
          (fun t => decide (a ≤ t ∧ t < a + l.window_size)) ≤ l.count) ∧
      (∀ (now : ℕ) (st : ThrottleState), st.timer_scheduled = true →
        fireStars limits now (agedRecent limits now st) ≠ [] →
          Throttle.Fire limits now st =
            ({ st with recent_event_times := agedRecent limits now st },
              false)) ∧
      ((stormRun 30000 stormInit).count = 31 ∧
        (stormRun 30000 stormInit).gap_ok = true ∧
        (stormRun 30000 stormInit).time = 300000) := by
  refine ⟨throttle_window_property limits hcount calls hsort b r, ?_, ?_⟩
  · intro now st h1 h2
    exact fire_dropped h1 h2
  · rw [storm_total]
    exact ⟨rfl, rfl, rfl⟩

/-- C3 witness: the amended theorem instantiated at the test's rate limits
and a concrete nondecreasing call sequence; the storm conjunct is fully
concrete. -/
theorem C3_throttle_witness :
    (∀ l ∈ testRateLimits, 1 ≤ l.count) ∧
      ([0, 500, 2000] : List ℕ).Pairwise (fun x y => x ≤ y) ∧
      ((stormRun 30000 stormInit).count = 31 ∧
        (stormRun 30000 stormInit).gap_ok = true ∧
        (stormRun 30000 stormInit).time = 300000) :=
  ⟨by decide, by decide,
    (C3_throttle testRateLimits (by decide) [0, 500, 2000] (by decide)
      false 0).2.2⟩

end Ticl
